import Mathlib

/-!
# libdxf: group-code writers and readers (arc, hatch, class)

A shallow embedding of `src/arc.c`, `src/hatch.c` and `src/class.c`.

Conventions of the embedding.

* A C `double` is a value of `Double`: a not-a-number, an infinity, or a finite
  value carried as an exact rational.  The C comparison operators are
  `Double.eq`, `Double.ne`, `Double.lt`, `Double.le`, `Double.gt`; they follow
  IEEE 754 (`!=` apart, every comparison with a not-a-number is false).
  Rounding, the sign of zero and the sign of a not-a-number are not modelled.
* A C `int` is an `Int`; the code only compares and prints them.
* An output stream is the list of group-code records written so far; every
  `fprintf (fp, "<code>\n<conversion>\n", value)` of the source appends one
  `Record`.  `Record.render` gives the characters of a record.
* `stderr` is the list of messages written so far, one entry per `fprintf`.
* An array parameter is a list: an index past the end reads as `0.0` (or 0)
  and a store past the end is dropped.  A function that stores into an array
  of its caller returns the array as the caller finds it after the call.
* An input stream is the list of characters not yet read; the `fscanf` calls
  of the readers are functions on it (`fscanf_line`, `fscanf_s`, `fscanf_d`,
  `fscanf_x`, `fscanf_lf`).  A reader loop takes a bound on the number of
  tests of its condition and yields `none` when it is still running.
* A null pointer is `none`.  `dxf_arc_read` and `dxf_class_read` are the
  functions of the source, in which `temp_string` is the null pointer;
  `dxf_arc_read_buffered` and `dxf_class_read_buffered` are repaired copies in
  which it points to a buffer, used to show what the loops do once entered.
* The `#if DEBUG` trace lines are compiled out.
* `global.h` is not part of the sources at hand: its numeric constants are the
  fields of `Global`, a parameter of every function that uses one.
-/

namespace Dxf

/-! ## C values -/

/-- A C `double`. -/
inductive Double where
  | nan : Double
  | inf (negative : Bool) : Double
  | fin (q : ℚ) : Double
  deriving DecidableEq

namespace Double

/-- The C operator `<` on doubles. -/
def lt : Double → Double → Bool
  | nan, _ => false
  | _, nan => false
  | inf n, inf m => n && !m
  | inf n, fin _ => n
  | fin _, inf m => !m
  | fin a, fin b => decide (a < b)

/-- The C operator `<=` on doubles. -/
def le : Double → Double → Bool
  | nan, _ => false
  | _, nan => false
  | inf n, inf m => n || !m
  | inf n, fin _ => n
  | fin _, inf m => !m
  | fin a, fin b => decide (a ≤ b)

/-- The C operator `>` on doubles. -/
def gt (a b : Double) : Bool := lt b a

/-- The C operator `==` on doubles. -/
def eq : Double → Double → Bool
  | nan, _ => false
  | _, nan => false
  | inf n, inf m => n == m
  | inf _, fin _ => false
  | fin _, inf _ => false
  | fin a, fin b => decide (a = b)

/-- The C operator `!=` on doubles. -/
def ne (a b : Double) : Bool := !(eq a b)

/-- The literal `0.0`. -/
def zero : Double := fin 0

/-- A finite double given by an integer literal, such as `360.0`. -/
def ofInt (i : Int) : Double := fin i

end Double

/-- Exit status `EXIT_SUCCESS` of `stdlib.h`. -/
def EXIT_SUCCESS : Int := 0

/-- Exit status `EXIT_FAILURE` of `stdlib.h`. -/
def EXIT_FAILURE : Int := 1

/-- The numeric constants of `global.h` used by the entity functions. -/
structure Global where
  AutoCAD_11 : Int
  AutoCAD_12 : Int
  AutoCAD_14 : Int
  DXF_COLOR_BYLAYER : Int
  DXF_MODELSPACE : Int
  DXF_PAPERSPACE : Int
  deriving DecidableEq

/-- Modelled from the spec: `DXF_DEFAULT_LAYER` of `global.h`, the layer "0"
(the parameter comment in `arc.c` says the same: defaults to layer "0"). -/
def DXF_DEFAULT_LAYER : String := "0"

/-- Modelled from the spec: `DXF_DEFAULT_LINETYPE` of `global.h`, the linetype
"BYLAYER" (the parameter comment in `arc.c` says the same). -/
def DXF_DEFAULT_LINETYPE : String := "BYLAYER"

/-! ## Output streams -/

/-- The value line of a record, by the conversion that prints it. -/
inductive Value where
  | str (s : String) : Value
  | dec (i : Int) : Value
  | hex (i : Int) : Value
  | real (d : Double) : Value
  deriving DecidableEq

/-- One group-code record: the group code line and the value line. -/
structure Record where
  code : Nat
  value : Value
  deriving DecidableEq

/-- The two output streams of a writer: the DXF file and `stderr`. -/
structure Streams where
  fp : List Record
  stderr : List String
  deriving DecidableEq

/-- Both output streams empty. -/
def emptyStreams : Streams := ⟨[], []⟩

namespace Streams

/-- The call `fprintf (fp, "<code>\n<conversion>\n", value)`. -/
def fprintf (s : Streams) (code : Nat) (value : Value) : Streams :=
  { s with fp := s.fp ++ [⟨code, value⟩] }

/-- The call `fprintf (stderr, message)`. -/
def eprintf (s : Streams) (message : String) : Streams :=
  { s with stderr := s.stderr ++ [message] }

end Streams

/-- The digits of `n` in base 16, as `%x` prints them. -/
def hexDigits (n : Nat) : String := String.mk (Nat.toDigits 16 n)

/-- The conversion `%x` applied to an `int`: the value is read as an unsigned
32-bit number. -/
def fmt_x (i : Int) : String := hexDigits (i % 4294967296).toNat

/-- The conversion `%d`. -/
def fmt_d (i : Int) : String := toString i

/-! ## The arc entity -/

/-- The common entity properties (`DxfEntity`, member `common`). -/
structure DxfEntity where
  id_code : Int
  linetype : String
  layer : String
  thickness : Double
  color : Int
  paperspace : Int
  acad_version_number : Int
  deriving DecidableEq

/-- The arc entity `DxfArc`. -/
structure DxfArc where
  common : DxfEntity
  x0 : Double
  y0 : Double
  z0 : Double
  extr_x0 : Double
  extr_y0 : Double
  extr_z0 : Double
  radius : Double
  start_angle : Double
  end_angle : Double
  deriving DecidableEq

/-- The result of a writer: the exit status and the streams after the call. -/
structure WriteResult where
  status : Int
  out : Streams
  deriving DecidableEq

/-- The record writes of `dxf_arc_write_lowlevel`, `arc.c` lines 444-485, with
the layer already settled. -/
def dxf_arc_write_lowlevel_records (g : Global) (s : Streams) (dxf_entity_name : String)
    (id_code : Int) (linetype layer : String)
    (x0 y0 z0 extr_x0 extr_y0 extr_z0 thickness radius start_angle end_angle : Double)
    (color paperspace acad_version_number : Int) : Streams :=
  let s := s.fprintf 0 (.str dxf_entity_name)
  let s := if acad_version_number ≥ g.AutoCAD_14 then s.fprintf 100 (.str "AcDbCircle") else s
  let s := if id_code ≠ -1 then s.fprintf 5 (.hex id_code) else s
  let s := if linetype ≠ DXF_DEFAULT_LINETYPE then s.fprintf 6 (.str linetype) else s
  let s := s.fprintf 8 (.str layer)
  let s := s.fprintf 10 (.real x0)
  let s := s.fprintf 20 (.real y0)
  let s := s.fprintf 30 (.real z0)
  let s := if acad_version_number ≥ g.AutoCAD_12 then
      ((s.fprintf 210 (.real extr_x0)).fprintf 220 (.real extr_y0)).fprintf 230 (.real extr_z0)
    else s
  let s := if thickness.ne Double.zero then s.fprintf 39 (.real thickness) else s
  let s := s.fprintf 40 (.real radius)
  let s := if acad_version_number ≥ g.AutoCAD_14 then s.fprintf 100 (.str "AcDbArc") else s
  let s := s.fprintf 50 (.real start_angle)
  let s := s.fprintf 51 (.real end_angle)
  let s := if color ≠ g.DXF_COLOR_BYLAYER then s.fprintf 62 (.dec color) else s
  let s := if paperspace = g.DXF_PAPERSPACE then s.fprintf 67 (.dec g.DXF_PAPERSPACE) else s
  s

/-- The function `dxf_arc_write_lowlevel` of `arc.c`. -/
def dxf_arc_write_lowlevel (g : Global) (s : Streams)
    (id_code : Int) (linetype layer : String)
    (x0 y0 z0 extr_x0 extr_y0 extr_z0 thickness radius start_angle end_angle : Double)
    (color paperspace acad_version_number : Int) : WriteResult :=
  let dxf_entity_name := "ARC"
  if start_angle.eq end_angle then
    let s := s.eprintf ("Error in dxf_arc_write_lowlevel () start angle and end angle are identical for the "
      ++ dxf_entity_name ++ " entity with id-code: " ++ fmt_x id_code ++ ".\n")
    let s := s.eprintf ("    skipping " ++ dxf_entity_name ++ " entity.\n")
    ⟨EXIT_FAILURE, s⟩
  else if start_angle.gt (Double.ofInt 360) then
    let s := s.eprintf ("Error in dxf_arc_write_lowlevel () start angle is greater than 360 degrees for the "
      ++ dxf_entity_name ++ " entity with id-code: " ++ fmt_x id_code ++ ".\n")
    let s := s.eprintf ("    skipping " ++ dxf_entity_name ++ " entity.\n")
    ⟨EXIT_FAILURE, s⟩
  else if start_angle.lt Double.zero then
    let s := s.eprintf ("Error in dxf_arc_write_lowlevel () start angle is lesser than 0 degrees for the "
      ++ dxf_entity_name ++ " entity with id-code: " ++ fmt_x id_code ++ ".\n")
    let s := s.eprintf ("    skipping " ++ dxf_entity_name ++ " entity.\n")
    ⟨EXIT_FAILURE, s⟩
  else if end_angle.gt (Double.ofInt 360) then
    let s := s.eprintf ("Error in dxf_arc_write_lowlevel () end angle is greater than 360 degrees for the "
      ++ dxf_entity_name ++ " entity with id-code: " ++ fmt_x id_code ++ ".\n")
    let s := s.eprintf ("    skipping " ++ dxf_entity_name ++ " entity.\n")
    ⟨EXIT_FAILURE, s⟩
  else if end_angle.lt Double.zero then
    let s := s.eprintf ("Error in dxf_arc_write_lowlevel () end angle is lesser than 0 degrees for the "
      ++ dxf_entity_name ++ " entity with id-code: " ++ fmt_x id_code ++ ".\n")
    let s := s.eprintf ("    skipping " ++ dxf_entity_name ++ " entity.\n")
    ⟨EXIT_FAILURE, s⟩
  else if radius.eq Double.zero then
    let s := s.eprintf ("Error in dxf_arc_write_lowlevel () radius value equals 0.0 for the "
      ++ dxf_entity_name ++ " entity with id-code: " ++ fmt_x id_code ++ ".\n")
    let s := s.eprintf ("    skipping " ++ dxf_entity_name ++ " entity.\n")
    ⟨EXIT_FAILURE, s⟩
  else
    let sl : Streams × String :=
      if layer = "" then
        let s := s.eprintf ("Warning in dxf_arc_write_lowlevel () empty layer string for the "
          ++ dxf_entity_name ++ " entity with id-code: " ++ fmt_x id_code ++ ".\n")
        let s := s.eprintf ("    " ++ dxf_entity_name ++ " entity is relocated to default layer.\n")
        (s, DXF_DEFAULT_LAYER)
      else (s, layer)
    ⟨EXIT_SUCCESS, dxf_arc_write_lowlevel_records g sl.1 dxf_entity_name id_code linetype sl.2
      x0 y0 z0 extr_x0 extr_y0 extr_z0 thickness radius start_angle end_angle
      color paperspace acad_version_number⟩

/-- The record writes of `dxf_arc_write`, `arc.c` lines 576-613, with the
layer already settled. -/
def dxf_arc_write_records (g : Global) (s : Streams) (dxf_entity_name : String)
    (dxf_arc : DxfArc) : Streams :=
  let s := s.fprintf 0 (.str dxf_entity_name)
  let s := if dxf_arc.common.acad_version_number ≥ g.AutoCAD_14 then
      s.fprintf 100 (.str "AcDbArc") else s
  let s := if dxf_arc.common.id_code ≠ -1 then s.fprintf 5 (.hex dxf_arc.common.id_code) else s
  let s := if dxf_arc.common.linetype ≠ DXF_DEFAULT_LINETYPE then
      s.fprintf 6 (.str dxf_arc.common.linetype) else s
  let s := s.fprintf 8 (.str dxf_arc.common.layer)
  let s := s.fprintf 10 (.real dxf_arc.x0)
  let s := s.fprintf 20 (.real dxf_arc.y0)
  let s := s.fprintf 30 (.real dxf_arc.z0)
  let s := if dxf_arc.common.acad_version_number ≥ g.AutoCAD_12 then
      ((s.fprintf 210 (.real dxf_arc.extr_x0)).fprintf 220 (.real dxf_arc.extr_y0)).fprintf 230
        (.real dxf_arc.extr_z0)
    else s
  let s := if dxf_arc.common.thickness.ne Double.zero then
      s.fprintf 39 (.real dxf_arc.common.thickness) else s
  let s := s.fprintf 40 (.real dxf_arc.radius)
  let s := s.fprintf 50 (.real dxf_arc.start_angle)
  let s := s.fprintf 51 (.real dxf_arc.end_angle)
  let s := if dxf_arc.common.color ≠ g.DXF_COLOR_BYLAYER then
      s.fprintf 62 (.dec dxf_arc.common.color) else s
  let s := if dxf_arc.common.paperspace = g.DXF_PAPERSPACE then
      s.fprintf 67 (.dec g.DXF_PAPERSPACE) else s
  s

/-- The function `dxf_arc_write` of `arc.c`.  The test `&dxf_arc == NULL` of
line 515 is on the address of a parameter and never holds. -/
def dxf_arc_write (g : Global) (s : Streams) (dxf_arc : DxfArc) : WriteResult :=
  let dxf_entity_name := "ARC"
  if dxf_arc.start_angle.eq dxf_arc.end_angle then
    let s := s.eprintf ("Error in dxf_arc_write () start angle and end angle are identical for the "
      ++ dxf_entity_name ++ " entity with id-code: " ++ fmt_x dxf_arc.common.id_code ++ ".\n")
    let s := s.eprintf ("\tskipping " ++ dxf_entity_name ++ " entity.\n")
    ⟨EXIT_FAILURE, s⟩
  else if dxf_arc.start_angle.gt (Double.ofInt 360) then
    let s := s.eprintf ("Error in dxf_arc_write () start angle is greater than 360 degrees for the "
      ++ dxf_entity_name ++ " entity with id-code: " ++ fmt_x dxf_arc.common.id_code ++ ".\n")
    let s := s.eprintf ("\tskipping " ++ dxf_entity_name ++ " entity.\n")
    ⟨EXIT_FAILURE, s⟩
  else if dxf_arc.start_angle.lt Double.zero then
    let s := s.eprintf ("Error in dxf_arc_write () start angle is lesser than 0 degrees for the "
      ++ dxf_entity_name ++ " entity with id-code: " ++ fmt_x dxf_arc.common.id_code ++ ".\n")
    let s := s.eprintf ("\tskipping " ++ dxf_entity_name ++ " entity.\n")
    ⟨EXIT_FAILURE, s⟩
  else if dxf_arc.end_angle.gt (Double.ofInt 360) then
    let s := s.eprintf ("Error in dxf_arc_write () end angle is greater than 360 degrees for the "
      ++ dxf_entity_name ++ " entity with id-code: " ++ fmt_x dxf_arc.common.id_code ++ ".\n")
    let s := s.eprintf ("\tskipping " ++ dxf_entity_name ++ " entity.\n")
    ⟨EXIT_FAILURE, s⟩
  else if dxf_arc.end_angle.lt Double.zero then
    let s := s.eprintf ("Error in dxf_arc_write () end angle is lesser than 0 degrees for the "
      ++ dxf_entity_name ++ " entity with id-code: " ++ fmt_x dxf_arc.common.id_code ++ ".\n")
    let s := s.eprintf ("\tskipping " ++ dxf_entity_name ++ " entity.\n")
    ⟨EXIT_FAILURE, s⟩
  else if dxf_arc.radius.eq Double.zero then
    let s := s.eprintf ("Error in dxf_arc_write () radius value equals 0.0 for the "
      ++ dxf_entity_name ++ " entity with id-code: " ++ fmt_x dxf_arc.common.id_code ++ ".\n")
    let s := s.eprintf ("    skipping " ++ dxf_entity_name ++ " entity.\n")
    ⟨EXIT_FAILURE, s⟩
  else
    let sa : Streams × DxfArc :=
      if dxf_arc.common.layer = "" then
        let s := s.eprintf ("Warning in dxf_arc_write () empty layer string for the "
          ++ dxf_entity_name ++ " entity with id-code: " ++ fmt_x dxf_arc.common.id_code ++ ".\n")
        let s := s.eprintf ("\t" ++ dxf_entity_name ++ " entity is relocated to default layer.\n")
        (s, { dxf_arc with common := { dxf_arc.common with layer := DXF_DEFAULT_LAYER } })
      else (s, dxf_arc)
    ⟨EXIT_SUCCESS, dxf_arc_write_records g sa.1 dxf_entity_name sa.2⟩

/-- None of the six tests of `arc.c` lines 394-435 (520-567 in `dxf_arc_write`)
fires for these angles and this radius. -/
def arc_checks_pass (start_angle end_angle radius : Double) : Bool :=
  !(start_angle.eq end_angle) && !(start_angle.gt (Double.ofInt 360))
    && !(start_angle.lt Double.zero) && !(end_angle.gt (Double.ofInt 360))
    && !(end_angle.lt Double.zero) && !(radius.eq Double.zero)

/-- The records a call has appended to the file: what the file holds after the
call, without what it held before. -/
def written (before : Streams) (r : WriteResult) : List Record :=
  r.out.fp.drop before.fp.length

/-- The messages a call has appended to `stderr`. -/
def reported (before : Streams) (r : WriteResult) : List String :=
  r.out.stderr.drop before.stderr.length

/-- Whether a record with group code `k` is among the records `w`. -/
def has_group (w : List Record) (k : Nat) : Bool := w.any (fun r => r.code == k)

/-- The records with group code `k` among the records `w`, in order. -/
def group (w : List Record) (k : Nat) : List Record := w.filter (fun r => r.code == k)

/-- Proof device: the streams after appending the records `w` to the file. -/
def Streams.add (s : Streams) (w : List Record) : Streams := ⟨s.fp ++ w, s.stderr⟩

/-- The call of `dxf_arc_write_lowlevel` with the members of an arc. -/
def dxf_arc_write_lowlevel_of (g : Global) (s : Streams) (a : DxfArc) : WriteResult :=
  dxf_arc_write_lowlevel g s a.common.id_code a.common.linetype a.common.layer
    a.x0 a.y0 a.z0 a.extr_x0 a.extr_y0 a.extr_z0 a.common.thickness a.radius
    a.start_angle a.end_angle a.common.color a.common.paperspace a.common.acad_version_number

/-! ## The hatch header -/

/-- The parameters of `dxf_write_hatch`, in the order of the source.  The two
seed-point arrays are lists; an index past the end reads as `0.0`. -/
structure DxfHatchHeader where
  pattern_name : String
  id_code : Int
  linetype : String
  layer : String
  x0 : Double
  y0 : Double
  z0 : Double
  extr_x0 : Double
  extr_y0 : Double
  extr_z0 : Double
  thickness : Double
  pattern_scale : Double
  pixel_size : Double
  pattern_angle : Double
  color : Int
  paperspace : Int
  solid_fill : Int
  associative : Int
  style : Int
  pattern_style : Int
  pattern_double : Int
  pattern_def_lines : Int
  pattern_boundary_paths : Int
  seed_points : Int
  seed_x0 : List Double
  seed_y0 : List Double
  deriving DecidableEq

/-- The loop `for (i = 0; i < seed_points; i++)` of `dxf_write_hatch`, lines
243-247. -/
def dxf_write_hatch_seed_loop (s : Streams) (seed_points : Int)
    (seed_x0 seed_y0 : List Double) : Streams :=
  (List.range seed_points.toNat).foldl
    (fun s i => (s.fprintf 10 (.real (seed_x0.getD i Double.zero))).fprintf 20
      (.real (seed_y0.getD i Double.zero))) s

/-- The record writes of `dxf_write_hatch`, lines 193-249, with the layer
already settled.  In C, `!solid_fill` holds when `solid_fill` is 0 and
`!seed_points` when `seed_points` is 0. -/
def dxf_write_hatch_records (g : Global) (s : Streams) (dxf_entity_name layer : String)
    (h : DxfHatchHeader) : Streams :=
  let s := s.fprintf 0 (.str dxf_entity_name)
  let s := s.fprintf 100 (.str "AcDbHatch")
  let s := s.fprintf 2 (.str h.pattern_name)
  let s := if h.id_code ≠ -1 then s.fprintf 5 (.hex h.id_code) else s
  let s := if h.linetype ≠ DXF_DEFAULT_LINETYPE then s.fprintf 6 (.str h.linetype) else s
  let s := s.fprintf 8 (.str layer)
  let s := s.fprintf 10 (.real h.x0)
  let s := s.fprintf 20 (.real h.y0)
  let s := s.fprintf 30 (.real h.z0)
  let s := s.fprintf 210 (.real h.extr_x0)
  let s := s.fprintf 220 (.real h.extr_y0)
  let s := s.fprintf 230 (.real h.extr_z0)
  let s := if h.thickness.ne Double.zero then s.fprintf 39 (.real h.thickness) else s
  let s := if h.solid_fill = 0 then s.fprintf 42 (.real h.pattern_scale) else s
  let s := s.fprintf 47 (.real h.pixel_size)
  let s := if h.solid_fill = 0 then s.fprintf 52 (.real h.pattern_angle) else s
  let s := if h.color ≠ g.DXF_COLOR_BYLAYER then s.fprintf 62 (.dec h.color) else s
  let s := if h.paperspace = g.DXF_PAPERSPACE then s.fprintf 67 (.dec g.DXF_PAPERSPACE) else s
  let s := s.fprintf 70 (.dec h.solid_fill)
  let s := s.fprintf 71 (.dec h.associative)
  let s := s.fprintf 75 (.dec h.style)
  let s := if h.solid_fill = 0 then s.fprintf 77 (.dec h.pattern_double) else s
  let s := s.fprintf 78 (.dec h.pattern_def_lines)
  let s := s.fprintf 98 (.dec h.seed_points)
  let s := if h.seed_points = 0 then
      dxf_write_hatch_seed_loop s h.seed_points h.seed_x0 h.seed_y0
    else s
  let s := s.fprintf 91 (.dec h.pattern_boundary_paths)
  s

/-- The function `dxf_write_hatch` of `hatch.c`. -/
def dxf_write_hatch (g : Global) (s : Streams) (h : DxfHatchHeader) : WriteResult :=
  let dxf_entity_name := "HATCH"
  let sl : Streams × String :=
    if h.layer = "" then
      let s := s.eprintf ("Warning: empty layer string for the " ++ dxf_entity_name
        ++ " entity with id-code: " ++ fmt_x h.id_code ++ "\n")
      let s := s.eprintf ("    " ++ dxf_entity_name ++ " entity is relocated to layer 0")
      (s, DXF_DEFAULT_LAYER)
    else (s, h.layer)
  ⟨EXIT_SUCCESS, dxf_write_hatch_records g sl.1 dxf_entity_name sl.2 h⟩

/-! ## Hatch boundary paths -/

/-- The function `dxf_write_hatch_boundary_polyline_vertex` of `hatch.c`. -/
def dxf_write_hatch_boundary_polyline_vertex (s : Streams) (x0 y0 bulge : Double) :
    WriteResult :=
  let s := s.fprintf 10 (.real x0)
  let s := s.fprintf 20 (.real y0)
  let s := if bulge.ne Double.zero then s.fprintf 42 (.real bulge) else s
  ⟨EXIT_SUCCESS, s⟩

/-- What the loop of `dxf_write_hatch_boundary_path_polyline` works on: the
output streams and the caller's `bulge` array, which the loop stores into. -/
structure PolylineState where
  out : Streams
  bulge : List Double
  deriving DecidableEq

/-- One pass, for index `i`, of the loop of
`dxf_write_hatch_boundary_path_polyline`, lines 515-534.  An array is a list:
an index past the end reads as `0.0` and a store past the end is dropped. -/
def dxf_write_hatch_boundary_path_polyline_pass (has_bulge is_closed : Int)
    (x0 y0 : List Double) (st : PolylineState) (i : Nat) : PolylineState :=
  let bulge := if has_bulge = 0 then st.bulge.set i Double.zero else st.bulge
  let s := (dxf_write_hatch_boundary_polyline_vertex st.out (x0.getD i Double.zero)
    (y0.getD i Double.zero) (bulge.getD i Double.zero)).out
  if is_closed ≠ 0 then
    let bulge := if has_bulge = 0 then bulge.set 0 Double.zero else bulge
    let s := (dxf_write_hatch_boundary_polyline_vertex s (x0.getD 0 Double.zero)
      (y0.getD 0 Double.zero) (bulge.getD 0 Double.zero)).out
    ⟨s, bulge⟩
  else ⟨s, bulge⟩

/-- The result of a writer that is given the arrays of a polyline: the exit
status, the streams, and the three arrays as the caller finds them after the
call. -/
structure PolylineResult extends WriteResult where
  x0 : List Double
  y0 : List Double
  bulge : List Double
  deriving DecidableEq

/-- The function `dxf_write_hatch_boundary_path_polyline` of `hatch.c`. -/
def dxf_write_hatch_boundary_path_polyline (s : Streams) (has_bulge is_closed vertices : Int)
    (x0 y0 bulge : List Double) : PolylineResult :=
  let s := s.fprintf 72 (.dec has_bulge)
  let s := s.fprintf 73 (.dec is_closed)
  let s := s.fprintf 93 (.dec vertices)
  let st := (List.range vertices.toNat).foldl
    (dxf_write_hatch_boundary_path_polyline_pass has_bulge is_closed x0 y0) ⟨s, bulge⟩
  { status := EXIT_SUCCESS, out := st.out, x0 := x0, y0 := y0, bulge := st.bulge }

/-- The parameters of `dxf_write_hatch_boundaries`, in the order of the
source. -/
structure DxfHatchBoundaries where
  hatch_boundary_paths : Int
  hatch_boundary_path_type_flag : Int
  hatch_boundary_path_edges : Int
  hatch_boundary_path_edge_type : Int
  hatch_boundary_path_edge_line_x0 : Double
  hatch_boundary_path_edge_line_y0 : Double
  hatch_boundary_path_edge_line_x1 : Double
  hatch_boundary_path_edge_line_y1 : Double
  hatch_boundary_path_edge_arc_x0 : Double
  hatch_boundary_path_edge_arc_y0 : Double
  hatch_boundary_path_edge_arc_radius : Double
  hatch_boundary_path_edge_arc_start_angle : Double
  hatch_boundary_path_edge_arc_end_angle : Double
  hatch_boundary_path_edge_arc_is_ccw : Int
  hatch_boundary_path_edge_ellipse_x0 : Double
  hatch_boundary_path_edge_ellipse_y0 : Double
  hatch_boundary_path_edge_ellipse_x1 : Double
  hatch_boundary_path_edge_ellipse_y1 : Double
  boundary_path_edge_ellipse_minor_axis : Double
  hatch_boundary_path_edge_ellipse_start_angle : Double
  hatch_boundary_path_edge_ellipse_end_angle : Double
  hatch_boundary_path_edge_ellipse_is_ccw : Int
  hatch_boundary_path_edge_spline_degree : Int
  hatch_boundary_path_edge_spline_rational : Int
  hatch_boundary_path_edge_spline_periodic : Int
  hatch_boundary_path_edge_spline_knots : Int
  hatch_boundary_path_edge_spline_control_points : Int
  hatch_boundary_path_edge_spline_knot_value : List Int
  hatch_boundary_path_edge_spline_cp_x0 : List Double
  hatch_boundary_path_edge_spline_cp_y0 : List Double
  hatch_boundary_path_edge_spline_cp_weight : List Double
  hatch_boundary_path_polyline_has_bulge : Int
  hatch_boundary_path_polyline_is_closed : Int
  hatch_boundary_path_polyline_vertices : Int
  hatch_boundary_path_polyline_x0 : List Double
  hatch_boundary_path_polyline_y0 : List Double
  hatch_boundary_path_polyline_bulge : List Double
  hatch_boundary_objects : Int
  hatch_boundary_objects_ref : String
  deriving DecidableEq

/-- The statement of lines 409-415 of `dxf_write_hatch_boundaries`: a `switch`
whose body is one statement carrying the labels `case 1`, `case 2`, `case 3`,
`case 4` and `default`, the report of an unsupported edge type. -/
def dxf_write_hatch_boundaries_switch (s : Streams) (hatch_boundary_path_edge_type : Int) :
    Streams :=
  match hatch_boundary_path_edge_type with
  | 1 => s.eprintf
    "Error: unsupported boundary path edge type encountered in dxf_write_hatch_boundary ().\n"
  | 2 => s.eprintf
    "Error: unsupported boundary path edge type encountered in dxf_write_hatch_boundary ().\n"
  | 3 => s.eprintf
    "Error: unsupported boundary path edge type encountered in dxf_write_hatch_boundary ().\n"
  | 4 => s.eprintf
    "Error: unsupported boundary path edge type encountered in dxf_write_hatch_boundary ().\n"
  | _ => s.eprintf
    "Error: unsupported boundary path edge type encountered in dxf_write_hatch_boundary ().\n"

/-- The loop `for (i = 0; i < hatch_boundary_paths; i++)` of
`dxf_write_hatch_boundaries`, lines 402-438, with `n` passes left.  The three
polyline arrays are the caller's and are handed to each call of
`dxf_write_hatch_boundary_path_polyline`.  In the loop over `j` of lines
407-417 the `return` of line 416 follows the `switch`, so its first pass
leaves the function. -/
def dxf_write_hatch_boundaries_loop (b : DxfHatchBoundaries) :
    Nat → Streams → List Double → List Double → List Double → PolylineResult
  | 0, s, x0, y0, bulge =>
    { status := EXIT_SUCCESS, out := s, x0 := x0, y0 := y0, bulge := bulge }
  | n + 1, s, x0, y0, bulge =>
    if b.hatch_boundary_path_type_flag = 0 then
      if 0 < b.hatch_boundary_path_edges then
        { status := EXIT_FAILURE,
          out := dxf_write_hatch_boundaries_switch s b.hatch_boundary_path_edge_type,
          x0 := x0, y0 := y0, bulge := bulge }
      else dxf_write_hatch_boundaries_loop b n s x0 y0 bulge
    else if b.hatch_boundary_path_type_flag = 2 then
      let r := dxf_write_hatch_boundary_path_polyline s
        b.hatch_boundary_path_polyline_has_bulge b.hatch_boundary_path_polyline_is_closed
        b.hatch_boundary_path_polyline_vertices x0 y0 bulge
      dxf_write_hatch_boundaries_loop b n r.out r.x0 r.y0 r.bulge
    else
      { status := EXIT_FAILURE,
        out := s.eprintf
          "Error: unsupported boundary path type encountered in dxf_write_hatch_boundary ().\n",
        x0 := x0, y0 := y0, bulge := bulge }

/-- The function `dxf_write_hatch_boundaries` of `hatch.c`. -/
def dxf_write_hatch_boundaries (s : Streams) (b : DxfHatchBoundaries) : PolylineResult :=
  dxf_write_hatch_boundaries_loop b b.hatch_boundary_paths.toNat s
    b.hatch_boundary_path_polyline_x0 b.hatch_boundary_path_polyline_y0
    b.hatch_boundary_path_polyline_bulge

/-! ## Hatch pattern data -/

/-- The function `dxf_write_hatch_pattern_def_line_dashes` of `hatch.c`. -/
def dxf_write_hatch_pattern_def_line_dashes (s : Streams) (dash_items : Int)
    (dash_length : List Double) : WriteResult :=
  if dash_items ≠ 0 then
    ⟨EXIT_SUCCESS, (List.range dash_items.toNat).foldl
      (fun s i => s.fprintf 49 (.real (dash_length.getD i Double.zero))) s⟩
  else
    ⟨EXIT_SUCCESS, s.eprintf ("Warning: no definition line dash items found in "
      ++ "dxf_write_hatch_pattern_def_line_dashes () function.\n")⟩

/-- The C test `!p` on an array parameter `p`: whether `p` is the null pointer.
An array of the model is a list, the elements that a pointer which is not null
points to; where the source makes this test it has already read `p[i]`. -/
def is_null {α : Type} (_ : List α) : Bool := false

/-- One pass, for the definition line `i`, of the loop of
`dxf_write_hatch_pattern_data`, lines 627-644.  `*def_line_dash_items` and
`*def_line_dash_length` are the elements of index 0. -/
def dxf_write_hatch_pattern_data_pass
    (def_line_angle def_line_x0 def_line_y0 def_line_x1 def_line_y1 : List Double)
    (def_line_dash_items : List Int) (def_line_dash_length : List (List Double))
    (s : Streams) (i : Nat) : Streams :=
  let s := s.fprintf 53 (.real (def_line_angle.getD i Double.zero))
  let s := s.fprintf 43 (.real (def_line_x0.getD i Double.zero))
  let s := s.fprintf 44 (.real (def_line_y0.getD i Double.zero))
  let s := s.fprintf 45 (.real (def_line_x1.getD i Double.zero))
  let s := s.fprintf 46 (.real (def_line_y1.getD i Double.zero))
  let s := s.fprintf 79 (.dec (def_line_dash_items.getD i 0))
  if is_null def_line_dash_items then
    (List.range (def_line_dash_items.getD 0 0).toNat).foldl
      (fun s _ => (dxf_write_hatch_pattern_def_line_dashes s (def_line_dash_items.getD 0 0)
        (def_line_dash_length.getD 0 [])).out) s
  else s

/-- The function `dxf_write_hatch_pattern_data` of `hatch.c`. -/
def dxf_write_hatch_pattern_data (s : Streams) (def_lines : Int)
    (def_line_angle def_line_x0 def_line_y0 def_line_x1 def_line_y1 : List Double)
    (def_line_dash_items : List Int) (def_line_dash_length : List (List Double)) :
    WriteResult :=
  if def_lines ≠ 0 then
    ⟨EXIT_SUCCESS, (List.range def_lines.toNat).foldl
      (dxf_write_hatch_pattern_data_pass def_line_angle def_line_x0 def_line_y0 def_line_x1
        def_line_y1 def_line_dash_items def_line_dash_length) s⟩
  else
    ⟨EXIT_SUCCESS, s.eprintf
      "Warning: no definition lines found in dxf_write_hatch_pattern_data () function.\n"⟩

/-! ## The records of a call as one list -/

/-- The layer a writer puts in group 8: the default layer for an empty one. -/
def settled_layer (layer : String) : String :=
  if layer = "" then DXF_DEFAULT_LAYER else layer

/-- Proof device: the records `dxf_arc_write` appends for an arc that passes
its tests (`arc_write_written` proves it). -/
def arc_records (g : Global) (a : DxfArc) : List Record :=
  [⟨0, .str "ARC"⟩]
    ++ (if a.common.acad_version_number ≥ g.AutoCAD_14 then [⟨100, .str "AcDbArc"⟩] else [])
    ++ (if a.common.id_code ≠ -1 then [⟨5, .hex a.common.id_code⟩] else [])
    ++ (if a.common.linetype ≠ DXF_DEFAULT_LINETYPE then [⟨6, .str a.common.linetype⟩] else [])
    ++ [⟨8, .str (settled_layer a.common.layer)⟩] ++ [⟨10, .real a.x0⟩] ++ [⟨20, .real a.y0⟩]
    ++ [⟨30, .real a.z0⟩]
    ++ (if a.common.acad_version_number ≥ g.AutoCAD_12 then
          [⟨210, .real a.extr_x0⟩] ++ [⟨220, .real a.extr_y0⟩] ++ [⟨230, .real a.extr_z0⟩]
        else [])
    ++ (if a.common.thickness.ne Double.zero then [⟨39, .real a.common.thickness⟩] else [])
    ++ [⟨40, .real a.radius⟩] ++ [⟨50, .real a.start_angle⟩] ++ [⟨51, .real a.end_angle⟩]
    ++ (if a.common.color ≠ g.DXF_COLOR_BYLAYER then [⟨62, .dec a.common.color⟩] else [])
    ++ (if a.common.paperspace = g.DXF_PAPERSPACE then [⟨67, .dec g.DXF_PAPERSPACE⟩] else [])

/-- Proof device: the records `dxf_arc_write_lowlevel` appends for an arc that
passes its tests (`arc_write_lowlevel_written` proves it). -/
def arc_lowlevel_records (g : Global) (a : DxfArc) : List Record :=
  [⟨0, .str "ARC"⟩]
    ++ (if a.common.acad_version_number ≥ g.AutoCAD_14 then [⟨100, .str "AcDbCircle"⟩] else [])
    ++ (if a.common.id_code ≠ -1 then [⟨5, .hex a.common.id_code⟩] else [])
    ++ (if a.common.linetype ≠ DXF_DEFAULT_LINETYPE then [⟨6, .str a.common.linetype⟩] else [])
    ++ [⟨8, .str (settled_layer a.common.layer)⟩] ++ [⟨10, .real a.x0⟩] ++ [⟨20, .real a.y0⟩]
    ++ [⟨30, .real a.z0⟩]
    ++ (if a.common.acad_version_number ≥ g.AutoCAD_12 then
          [⟨210, .real a.extr_x0⟩] ++ [⟨220, .real a.extr_y0⟩] ++ [⟨230, .real a.extr_z0⟩]
        else [])
    ++ (if a.common.thickness.ne Double.zero then [⟨39, .real a.common.thickness⟩] else [])
    ++ [⟨40, .real a.radius⟩]
    ++ (if a.common.acad_version_number ≥ g.AutoCAD_14 then [⟨100, .str "AcDbArc"⟩] else [])
    ++ [⟨50, .real a.start_angle⟩] ++ [⟨51, .real a.end_angle⟩]
    ++ (if a.common.color ≠ g.DXF_COLOR_BYLAYER then [⟨62, .dec a.common.color⟩] else [])
    ++ (if a.common.paperspace = g.DXF_PAPERSPACE then [⟨67, .dec g.DXF_PAPERSPACE⟩] else [])

/-- Proof device: the records `dxf_write_hatch` appends (`write_hatch_written`
proves it). -/
def hatch_records (g : Global) (h : DxfHatchHeader) : List Record :=
  [⟨0, .str "HATCH"⟩] ++ [⟨100, .str "AcDbHatch"⟩] ++ [⟨2, .str h.pattern_name⟩]
    ++ (if h.id_code ≠ -1 then [⟨5, .hex h.id_code⟩] else [])
    ++ (if h.linetype ≠ DXF_DEFAULT_LINETYPE then [⟨6, .str h.linetype⟩] else [])
    ++ [⟨8, .str (settled_layer h.layer)⟩] ++ [⟨10, .real h.x0⟩] ++ [⟨20, .real h.y0⟩]
    ++ [⟨30, .real h.z0⟩]
    ++ [⟨210, .real h.extr_x0⟩] ++ [⟨220, .real h.extr_y0⟩] ++ [⟨230, .real h.extr_z0⟩]
    ++ (if h.thickness.ne Double.zero then [⟨39, .real h.thickness⟩] else [])
    ++ (if h.solid_fill = 0 then [⟨42, .real h.pattern_scale⟩] else [])
    ++ [⟨47, .real h.pixel_size⟩]
    ++ (if h.solid_fill = 0 then [⟨52, .real h.pattern_angle⟩] else [])
    ++ (if h.color ≠ g.DXF_COLOR_BYLAYER then [⟨62, .dec h.color⟩] else [])
    ++ (if h.paperspace = g.DXF_PAPERSPACE then [⟨67, .dec g.DXF_PAPERSPACE⟩] else [])
    ++ [⟨70, .dec h.solid_fill⟩] ++ [⟨71, .dec h.associative⟩] ++ [⟨75, .dec h.style⟩]
    ++ (if h.solid_fill = 0 then [⟨77, .dec h.pattern_double⟩] else [])
    ++ [⟨78, .dec h.pattern_def_lines⟩] ++ [⟨98, .dec h.seed_points⟩]
    ++ [⟨91, .dec h.pattern_boundary_paths⟩]

/-- Proof device: the records of one polyline vertex. -/
def vertex_records (x0 y0 bulge : Double) : List Record :=
  [⟨10, .real x0⟩] ++ [⟨20, .real y0⟩]
    ++ (if bulge.ne Double.zero then [⟨42, .real bulge⟩] else [])

/-- Proof device: the bulge that the polyline loop hands to the vertex writer
for index `i`: `0.0` when `has_bulge` is 0. -/
def written_bulge (has_bulge : Int) (bulge : List Double) (i : Nat) : Double :=
  if has_bulge = 0 then Double.zero else bulge.getD i Double.zero

/-- Proof device: the records of one pass of the polyline loop. -/
def polyline_pass_records (has_bulge is_closed : Int) (x0 y0 bulge : List Double) (i : Nat) :
    List Record :=
  vertex_records (x0.getD i Double.zero) (y0.getD i Double.zero) (written_bulge has_bulge bulge i)
    ++ (if is_closed ≠ 0 then
          vertex_records (x0.getD 0 Double.zero) (y0.getD 0 Double.zero)
            (written_bulge has_bulge bulge 0)
        else [])

/-- Proof device: the array `bulge` after the polyline loop has run `n` passes:
with `has_bulge` 0 its first `n` elements are `0.0`. -/
def bulge_after (has_bulge : Int) (n : Nat) (bulge : List Double) : List Double :=
  if has_bulge = 0 then
    bulge.mapIdx (fun j b => if j < n then Double.zero else b)
  else bulge

/-- Proof device: the records `dxf_write_hatch_boundary_path_polyline` appends
(`polyline_written` proves it). -/
def polyline_records (has_bulge is_closed vertices : Int) (x0 y0 bulge : List Double) :
    List Record :=
  [⟨72, .dec has_bulge⟩] ++ [⟨73, .dec is_closed⟩] ++ [⟨93, .dec vertices⟩]
    ++ ((List.range vertices.toNat).map
        (polyline_pass_records has_bulge is_closed x0 y0 bulge)).flatten

/-- Proof device: the six records of the definition line `i`. -/
def pattern_line_records (an x0 y0 x1 y1 : List Double) (items : List Int) (i : Nat) :
    List Record :=
  [⟨53, .real (an.getD i Double.zero)⟩, ⟨43, .real (x0.getD i Double.zero)⟩,
   ⟨44, .real (y0.getD i Double.zero)⟩, ⟨45, .real (x1.getD i Double.zero)⟩,
   ⟨46, .real (y1.getD i Double.zero)⟩, ⟨79, .dec (items.getD i 0)⟩]

/-! ## The characters of the output -/

/-- The group code line of a record: the code right-aligned in three columns,
as in the format strings "  0", " 10", "100" of the source. -/
def fmt_code (code : Nat) : String :=
  let d := toString code
  String.mk (List.replicate (3 - d.length) ' ') ++ d

/-- The decimal digits of `n`, left-padded with zeros to six places. -/
def pad6 (n : Nat) : String :=
  let d := toString n
  String.mk (List.replicate (6 - d.length) '0') ++ d

/-- The conversion `%f` on a finite value: six decimals, ties to even. -/
def fmt_f_fin (q : ℚ) : String :=
  let scaled : Nat := q.num.natAbs * 1000000
  let n := scaled / q.den
  let r := scaled % q.den
  let n := if 2 * r > q.den then n + 1
    else if 2 * r < q.den then n
    else if n % 2 = 0 then n else n + 1
  (if q.num < 0 then "-" else "") ++ toString (n / 1000000) ++ "." ++ pad6 (n % 1000000)

/-- The conversion `%f`.  A `Double` has one zero and one not-a-number: the
`-0.000000` that C prints for a negative zero and the `-nan` that it prints for
a not-a-number with the sign bit set are not modelled. -/
def fmt_f : Double → String
  | .nan => "nan"
  | .inf true => "-inf"
  | .inf false => "inf"
  | .fin q => fmt_f_fin q

/-- The characters of a value line. -/
def Value.render : Value → String
  | .str s => s
  | .dec i => fmt_d i
  | .hex i => fmt_x i
  | .real d => fmt_f d

/-- The characters of a record: two lines. -/
def Record.render (r : Record) : String :=
  fmt_code r.code ++ "\n" ++ r.value.render ++ "\n"

/-- The characters of a sequence of records. -/
def renderRecords (rs : List Record) : List Char :=
  (rs.map (fun r => r.render.toList)).flatten

/-! ## Input streams -/

/-- An input stream: the characters not yet read, the error indicator tested
by `ferror`, and whether `fclose` was called. -/
structure InStream where
  data : List Char
  error : Bool
  closed : Bool
  deriving DecidableEq

/-- The C predicate `isspace` in the "C" locale. -/
def isspace (c : Char) : Bool :=
  c = ' ' || c = '\t' || c = '\n' || c = '\x0b' || c = '\x0c' || c = '\r'

/-- A white-space directive of a `fscanf` format: skip all white space. -/
def skip_ws (cs : List Char) : List Char := cs.dropWhile isspace

/-- The value of a run of decimal digits. -/
def natOfDigits (ds : List Char) : Nat :=
  ds.foldl (fun n c => 10 * n + (c.toNat - '0'.toNat)) 0

/-- The value of a hexadecimal digit. -/
def hexVal (c : Char) : Option Nat :=
  if c.isDigit then some (c.toNat - '0'.toNat)
  else if 'a' ≤ c ∧ c ≤ 'f' then some (c.toNat - 'a'.toNat + 10)
  else if 'A' ≤ c ∧ c ≤ 'F' then some (c.toNat - 'A'.toNat + 10)
  else none

/-- The value of a run of hexadecimal digits. -/
def natOfHexDigits (ds : List Char) : Nat :=
  ds.foldl (fun n c => 16 * n + (hexVal c).getD 0) 0

/-- An optional sign: whether it is a minus, and the characters after it. -/
def scan_sign : List Char → Bool × List Char
  | '-' :: cs => (true, cs)
  | '+' :: cs => (false, cs)
  | cs => (false, cs)

/-- The call `fscanf (fp, "%[^\n]", buffer)`: the characters up to, and not
including, the next newline; a matching failure when there is none. -/
def fscanf_line (fp : InStream) : Option String × InStream :=
  if fp.error then (none, fp)
  else
    let tok := fp.data.takeWhile (fun c => c ≠ '\n')
    if tok = [] then (none, fp)
    else (some (String.mk tok), { fp with data := fp.data.drop tok.length })

/-- The call `fscanf (fp, "%s\n", buffer)`: skip white space, take the
characters up to the next white space, skip white space again. -/
def fscanf_s (fp : InStream) : Option String × InStream :=
  if fp.error then (none, fp)
  else
    let cs := skip_ws fp.data
    let tok := cs.takeWhile (fun c => !isspace c)
    if tok = [] then (none, { fp with data := cs })
    else (some (String.mk tok), { fp with data := skip_ws (cs.drop tok.length) })

/-- The value an `int` holds after the low 32 bits of `n` are stored in it. -/
def wrap32 (n : Int) : Int :=
  let m := n % 4294967296
  if m < 2147483648 then m else m - 4294967296

/-- The `long` that `strtol` gives for the value `n`: `n` itself, or the
nearest bound of the 64-bit range. -/
def to_long (n : Int) : Int :=
  if n < -9223372036854775808 then -9223372036854775808
  else if 9223372036854775807 < n then 9223372036854775807
  else n

/-- The `unsigned long` that `strtoul` gives for the digits of value `n` after
the sign `negative`: the value, negated modulo 2^64 after a minus sign, or
2^64 - 1 when the digits are out of the 64-bit range. -/
def to_unsigned_long (negative : Bool) (n : Int) : Int :=
  if 18446744073709551615 < n then 18446744073709551615
  else if negative then (-n) % 18446744073709551616
  else n

/-- The call `fscanf (fp, "%d\n", &i)`: an optionally signed decimal integer.
A value out of the range of `int` is stored as the C library at hand stores
it, the `long` of `strtol` cut to 32 bits.  When no digit follows the sign, the
sign has been read. -/
def fscanf_d (fp : InStream) : Option Int × InStream :=
  if fp.error then (none, fp)
  else
    let cs := skip_ws fp.data
    let sg := scan_sign cs
    let ds := sg.2.takeWhile Char.isDigit
    if ds = [] then (none, { fp with data := sg.2 })
    else
      let n : Int := natOfDigits ds
      (some (wrap32 (to_long (if sg.1 then -n else n))),
        { fp with data := skip_ws (sg.2.drop ds.length) })

/-- An optional prefix `0x` or `0X` in front of a hexadecimal digit. -/
def scan_0x : List Char → List Char
  | '0' :: x :: c :: cs =>
    if (x = 'x' ∨ x = 'X') ∧ (hexVal c).isSome then c :: cs else '0' :: x :: c :: cs
  | cs => cs

/-- The call `fscanf (fp, "%x\n", &i)` with `i` an `int`: an optionally signed
hexadecimal integer, read as an `unsigned int` and stored in the `int`, so
that "FFFFFFFF" gives -1.  When no digit follows the sign, the sign has been
read. -/
def fscanf_x (fp : InStream) : Option Int × InStream :=
  if fp.error then (none, fp)
  else
    let cs := skip_ws fp.data
    let sg := scan_sign cs
    let body := scan_0x sg.2
    let ds := body.takeWhile (fun c => (hexVal c).isSome)
    if ds = [] then (none, { fp with data := sg.2 })
    else
      let n : Int := natOfHexDigits ds
      (some (wrap32 (to_unsigned_long sg.1 n)),
        { fp with data := skip_ws (body.drop ds.length) })

/-- The exponent part of a decimal floating constant, when one is present:
its value and the characters after it. -/
def scan_exponent : List Char → Option (Int × List Char)
  | e :: cs =>
    if e = 'e' ∨ e = 'E' then
      let sg := scan_sign cs
      let ds := sg.2.takeWhile Char.isDigit
      if ds = [] then none
      else
        let n : Int := natOfDigits ds
        some (if sg.1 then -n else n, sg.2.drop ds.length)
    else none
  | [] => none

/-- The spellings "infinity", "inf" and "nan", in any case, at the head of
the input: whether it is a not-a-number, and the characters after the
spelling. -/
def scan_inf_nan (cs : List Char) : Option (Bool × List Char) :=
  let low := (cs.take 8).map Char.toLower
  if low = "infinity".toList then some (false, cs.drop 8)
  else if low.take 3 = "inf".toList then some (false, cs.drop 3)
  else if low.take 3 = "nan".toList then some (true, cs.drop 3)
  else none

/-- The call `fscanf (fp, "%lf\n", &d)`: an optional sign, then "infinity",
"inf" or "nan", or digits with an optional fraction and an optional exponent.
The value of a decimal constant is kept exact, where the code stores the
nearest `double`; hexadecimal constants are not modelled.  When no digit
follows, the sign and the point have been read. -/
def fscanf_lf (fp : InStream) : Option Double × InStream :=
  if fp.error then (none, fp)
  else
    let cs := skip_ws fp.data
    let sg := scan_sign cs
    match scan_inf_nan sg.2 with
    | some (is_nan, rest) =>
      (some (if is_nan then Double.nan else Double.inf sg.1), { fp with data := skip_ws rest })
    | none =>
      let ip := sg.2.takeWhile Char.isDigit
      let r1 := sg.2.drop ip.length
      let fr : List Char × List Char :=
        match r1 with
        | '.' :: t => (t.takeWhile Char.isDigit, t.dropWhile Char.isDigit)
        | _ => ([], r1)
      if ip = [] ∧ fr.1 = [] then (none, { fp with data := fr.2 })
      else
        let m : ℚ := (natOfDigits (ip ++ fr.1) : ℚ) / (10 : ℚ) ^ fr.1.length
        let ex : Int × List Char := (scan_exponent fr.2).getD (0, fr.2)
        let v : ℚ := m * (10 : ℚ) ^ ex.1
        (some (.fin (if sg.1 then -v else v)), { fp with data := skip_ws ex.2 })

/-! ## Reading an arc -/

/-- How a call of a reader ends, or that it has not ended yet. -/
inductive Run (σ : Type) where
  /-- The call read through a null pointer: the process is killed. -/
  | killed : Run σ
  /-- The loop is still running after the given number of tests. -/
  | running : Run σ
  /-- The call returned with this status, in this state. -/
  | returned (status : Int) (state : σ) : Run σ
  deriving DecidableEq

/-- The call `fscanf (fp, "%[^\n]", p)` for a pointer `p`: `none` is the null
pointer, `some b` a buffer that holds `b`.  The result is what `p` points to
after the call.  Through a null pointer nothing is stored and nothing is read:
the C library at hand refuses the conversion (the C standard leaves the call
undefined). -/
def fscanf_line_to (p : Option String) (fp : InStream) : Option String × InStream :=
  match p with
  | none => (none, fp)
  | some b => (some ((fscanf_line fp).1.getD b), (fscanf_line fp).2)

/-- The state of the loop of `dxf_arc_read`: its stream, the caller's line
counter, the arc being filled, the characters that `temp_string` points to, and
the two diagnostic streams.  The loop reads through `temp_string` in every test
and in every pass, so a state of the loop is a state in which `temp_string`
points to a buffer. -/
structure ArcReader where
  fp : InStream
  line_number : Int
  dxf_arc : DxfArc
  temp_string : String
  stderr : List String
  stdout : List String
  deriving DecidableEq

namespace ArcReader

/-- The statement `(*line_number)++`. -/
def next_line (r : ArcReader) : ArcReader := { r with line_number := r.line_number + 1 }

/-- A `fscanf` into a member of the arc: the member changes only when the
conversion succeeds. -/
def store {α : Type} (r : ArcReader) (res : Option α × InStream)
    (set : DxfArc → α → DxfArc) : ArcReader :=
  match res.1 with
  | some v => { r with fp := res.2, dxf_arc := set r.dxf_arc v }
  | none => { r with fp := res.2 }

/-- A `fscanf (fp, "%s\n", temp_string)`. -/
def store_temp (r : ArcReader) (res : Option String × InStream) : ArcReader :=
  match res.1 with
  | some v => { r with fp := res.2, temp_string := v }
  | none => { r with fp := res.2 }

end ArcReader

/-- The message of the last branch of the dispatch in `dxf_arc_read`. -/
def arc_unknown_tag_warning (filename : String) (line_number : Int) : String :=
  "Warning: in dxf_arc_read () unknown string tag found while reading from: " ++ filename
    ++ " in line: " ++ fmt_d line_number ++ ".\n"

/-- One pass through the body of the `while` loop of `dxf_arc_read`, lines
166-304, after the `ferror` test.  The third operand of the condition of line
209, `(dxf_arc->z0 = 0.0)`, is an assignment whose value `0.0` is false: when
the first two operands hold it stores `0.0` in `z0` and the chain goes on with
the next `else if`. -/
def dxf_arc_read_body (g : Global) (filename : String) (acad_version_number : Int)
    (r : ArcReader) : ArcReader :=
  let t := r.temp_string
  if t = "5" then
    let r := r.next_line
    r.store (fscanf_x r.fp) (fun a v => { a with common := { a.common with id_code := v } })
  else if t = "6" then
    let r := r.next_line
    r.store (fscanf_s r.fp) (fun a v => { a with common := { a.common with linetype := v } })
  else if t = "8" then
    let r := r.next_line
    r.store (fscanf_s r.fp) (fun a v => { a with common := { a.common with layer := v } })
  else if t = "10" then
    let r := r.next_line
    r.store (fscanf_lf r.fp) (fun a v => { a with x0 := v })
  else if t = "20" then
    let r := r.next_line
    r.store (fscanf_lf r.fp) (fun a v => { a with y0 := v })
  else if t = "30" then
    let r := r.next_line
    r.store (fscanf_lf r.fp) (fun a v => { a with z0 := v })
  else
    let r := if acad_version_number ≤ g.AutoCAD_11 ∧ t = "38" then
        { r with dxf_arc := { r.dxf_arc with z0 := Double.zero } }
      else r
    if t = "39" then
      let r := r.next_line
      r.store (fscanf_lf r.fp) (fun a v => { a with common := { a.common with thickness := v } })
    else if t = "40" then
      let r := r.next_line
      r.store (fscanf_lf r.fp) (fun a v => { a with radius := v })
    else if t = "50" then
      let r := r.next_line
      r.store (fscanf_lf r.fp) (fun a v => { a with start_angle := v })
    else if t = "51" then
      let r := r.next_line
      r.store (fscanf_lf r.fp) (fun a v => { a with end_angle := v })
    else if t = "62" then
      let r := r.next_line
      r.store (fscanf_d r.fp) (fun a v => { a with common := { a.common with color := v } })
    else if t = "67" then
      let r := r.next_line
      r.store (fscanf_d r.fp) (fun a v => { a with common := { a.common with paperspace := v } })
    else if acad_version_number ≥ g.AutoCAD_12 ∧ t = "100" then
      let r := r.next_line
      r.store_temp (fscanf_s r.fp)
    else if t = "210" then
      let r := r.next_line
      r.store (fscanf_lf r.fp) (fun a v => { a with extr_x0 := v })
    else if t = "220" then
      let r := r.next_line
      r.store (fscanf_lf r.fp) (fun a v => { a with extr_y0 := v })
    else if t = "230" then
      let r := r.next_line
      r.store (fscanf_lf r.fp) (fun a v => { a with extr_z0 := v })
    else if t = "999" then
      let r := r.next_line
      let r := r.store_temp (fscanf_s r.fp)
      { r with stdout := r.stdout ++ ["DXF comment: " ++ r.temp_string ++ "\n"] }
    else
      { r with stderr := r.stderr ++ [arc_unknown_tag_warning filename r.line_number] }

/-- The `while` loop of `dxf_arc_read`, lines 157-305, run for at most `fuel`
tests of its condition.  The result is `none` when the loop is still running
after that many tests. -/
def dxf_arc_read_loop (g : Global) (filename : String) (acad_version_number : Int) :
    Nat → ArcReader → Option (Int × ArcReader)
  | 0, _ => none
  | fuel + 1, r =>
    if r.temp_string = "0" then some (EXIT_SUCCESS, r)
    else if r.fp.error then
      some (EXIT_FAILURE,
        { r with
          stderr := r.stderr ++ ["Error in dxf_arc_read () while reading from: " ++ filename
            ++ " in line: " ++ fmt_d r.line_number ++ ".\n"],
          fp := { r.fp with closed := true } })
    else dxf_arc_read_loop g filename acad_version_number fuel
      (dxf_arc_read_body g filename acad_version_number r)

/-- The function `dxf_arc_read` of `arc.c`, with a bound on the number of
tests of the loop condition.  Line 149 declares `char *temp_string = NULL`, and
nothing assigns to the pointer: the `fscanf` of line 156 is handed the null
pointer, and the first test of the loop condition, `strcmp (temp_string, "0")`
of line 157, reads through it.  The arc is passed by value, so the branch for a
null `dxf_arc` does not arise. -/
def dxf_arc_read (g : Global) (fuel : Nat) (filename : String) (fp : InStream)
    (line_number : Int) (dxf_arc : DxfArc) (acad_version_number : Int) : Run ArcReader :=
  let temp_string : Option String := none
  let line_number := line_number + 1
  let res := fscanf_line_to temp_string fp
  match fuel, res.1 with
  | 0, _ => Run.running
  | _ + 1, none => Run.killed
  | fuel + 1, some t =>
    match dxf_arc_read_loop g filename acad_version_number (fuel + 1)
      { fp := res.2, line_number := line_number, dxf_arc := dxf_arc, temp_string := t,
        stderr := [], stdout := [] } with
    | none => Run.running
    | some (status, r) => Run.returned status r

/-- A repaired `dxf_arc_read`, not the function of `arc.c`: line 149 gives
`temp_string` an empty buffer instead of the null pointer, everything else is
as in the source.  The result is `none` when the loop is still running after
`fuel` tests. -/
def dxf_arc_read_buffered (g : Global) (fuel : Nat) (filename : String) (fp : InStream)
    (line_number : Int) (dxf_arc : DxfArc) (acad_version_number : Int) :
    Option (Int × ArcReader) :=
  let line_number := line_number + 1
  let res := fscanf_line fp
  let r : ArcReader :=
    { fp := res.2, line_number := line_number, dxf_arc := dxf_arc,
      temp_string := res.1.getD "", stderr := [], stdout := [] }
  dxf_arc_read_loop g filename acad_version_number fuel r

/-- The group codes that the dispatch of `dxf_arc_read` compares
`temp_string` with, "38" apart. -/
def arc_read_tags : List String :=
  ["5", "6", "8", "10", "20", "30", "39", "40", "50", "51", "62", "67", "100", "210", "220",
   "230", "999"]

/-- The characters a reader of arcs is given after `dxf_arc_write` wrote `a`:
the records after the first one (the caller has read "  0" and "ARC"),
followed by the group code line of the next record. -/
def arc_read_input (g : Global) (a : DxfArc) : InStream :=
  ⟨renderRecords (written emptyStreams (dxf_arc_write g emptyStreams a)).tail ++ "  0\n".toList,
   false, false⟩

/-- The state in which `dxf_arc_read_buffered` enters its loop: the line
counter advanced by one and the buffer of `temp_string` filled by the `fscanf`
of line 156. -/
def dxf_arc_read_buffered_start (fp : InStream) (line_number : Int) (dxf_arc : DxfArc) :
    ArcReader :=
  { fp := (fscanf_line fp).2, line_number := line_number + 1, dxf_arc := dxf_arc,
    temp_string := (fscanf_line fp).1.getD "", stderr := [], stdout := [] }

/-- Proof device: the body of the loop of `dxf_arc_read` without the store of
line 209; `arc_read_body_plain_eq` proves that the body is this chain whenever
the first two operands of the condition of lines 207-209 do not both hold. -/
def arc_read_body_plain (g : Global) (filename : String) (acad_version_number : Int)
    (r : ArcReader) : ArcReader :=
  if r.temp_string = "5" then
    r.next_line.store (fscanf_x r.next_line.fp)
      (fun a v => { a with common := { a.common with id_code := v } })
  else if r.temp_string = "6" then
    r.next_line.store (fscanf_s r.next_line.fp)
      (fun a v => { a with common := { a.common with linetype := v } })
  else if r.temp_string = "8" then
    r.next_line.store (fscanf_s r.next_line.fp)
      (fun a v => { a with common := { a.common with layer := v } })
  else if r.temp_string = "10" then
    r.next_line.store (fscanf_lf r.next_line.fp) (fun a v => { a with x0 := v })
  else if r.temp_string = "20" then
    r.next_line.store (fscanf_lf r.next_line.fp) (fun a v => { a with y0 := v })
  else if r.temp_string = "30" then
    r.next_line.store (fscanf_lf r.next_line.fp) (fun a v => { a with z0 := v })
  else if r.temp_string = "39" then
    r.next_line.store (fscanf_lf r.next_line.fp)
      (fun a v => { a with common := { a.common with thickness := v } })
  else if r.temp_string = "40" then
    r.next_line.store (fscanf_lf r.next_line.fp) (fun a v => { a with radius := v })
  else if r.temp_string = "50" then
    r.next_line.store (fscanf_lf r.next_line.fp) (fun a v => { a with start_angle := v })
  else if r.temp_string = "51" then
    r.next_line.store (fscanf_lf r.next_line.fp) (fun a v => { a with end_angle := v })
  else if r.temp_string = "62" then
    r.next_line.store (fscanf_d r.next_line.fp)
      (fun a v => { a with common := { a.common with color := v } })
  else if r.temp_string = "67" then
    r.next_line.store (fscanf_d r.next_line.fp)
      (fun a v => { a with common := { a.common with paperspace := v } })
  else if acad_version_number ≥ g.AutoCAD_12 ∧ r.temp_string = "100" then
    r.next_line.store_temp (fscanf_s r.next_line.fp)
  else if r.temp_string = "210" then
    r.next_line.store (fscanf_lf r.next_line.fp) (fun a v => { a with extr_x0 := v })
  else if r.temp_string = "220" then
    r.next_line.store (fscanf_lf r.next_line.fp) (fun a v => { a with extr_y0 := v })
  else if r.temp_string = "230" then
    r.next_line.store (fscanf_lf r.next_line.fp) (fun a v => { a with extr_z0 := v })
  else if r.temp_string = "999" then
    { r.next_line.store_temp (fscanf_s r.next_line.fp) with
      stdout := (r.next_line.store_temp (fscanf_s r.next_line.fp)).stdout
        ++ ["DXF comment: " ++ (r.next_line.store_temp (fscanf_s r.next_line.fp)).temp_string
          ++ "\n"] }
  else
    { r with stderr := r.stderr ++ [arc_unknown_tag_warning filename r.line_number] }

/-! ## Creating an arc -/

/-- The function `dxf_arc_new` of `arc.c`: the arc whose memory `memset` has
filled with zeros (a null `char *` member has no characters), or no arc and a
message when `malloc` fails.  `malloc_ok` says whether `malloc` succeeds. -/
def dxf_arc_new (malloc_ok : Bool) : Option DxfArc × List String :=
  if malloc_ok then
    (some
      { common := { id_code := 0, linetype := "", layer := "", thickness := Double.zero,
                    color := 0, paperspace := 0, acad_version_number := 0 },
        x0 := Double.zero, y0 := Double.zero, z0 := Double.zero,
        extr_x0 := Double.zero, extr_y0 := Double.zero, extr_z0 := Double.zero,
        radius := Double.zero, start_angle := Double.zero, end_angle := Double.zero }, [])
  else
    (none, ["ERROR in dxf_arc_new () could not allocate memory for a DxfArc struct.\n"])

/-- The function `dxf_arc_init` of `arc.c`.  The pointer it is given is
overwritten by the result of `dxf_arc_new` before any use. -/
def dxf_arc_init (g : Global) (malloc_ok : Bool) (_dxf_arc : Option DxfArc) :
    Option DxfArc × List String :=
  match dxf_arc_new malloc_ok with
  | (none, stderr) =>
    (none, stderr
      ++ ["ERROR in dxf_arc_init () could not allocate memory for a DxfArc struct.\n"])
  | (some dxf_arc, stderr) =>
    let dxf_arc := { dxf_arc with common := { dxf_arc.common with id_code := 0 } }
    let dxf_arc :=
      { dxf_arc with common := { dxf_arc.common with linetype := DXF_DEFAULT_LINETYPE } }
    let dxf_arc := { dxf_arc with common := { dxf_arc.common with layer := DXF_DEFAULT_LAYER } }
    let dxf_arc := { dxf_arc with x0 := Double.zero }
    let dxf_arc := { dxf_arc with y0 := Double.zero }
    let dxf_arc := { dxf_arc with z0 := Double.zero }
    let dxf_arc := { dxf_arc with extr_x0 := Double.zero }
    let dxf_arc := { dxf_arc with extr_y0 := Double.zero }
    let dxf_arc := { dxf_arc with extr_z0 := Double.zero }
    let dxf_arc := { dxf_arc with common := { dxf_arc.common with thickness := Double.zero } }
    let dxf_arc := { dxf_arc with radius := Double.zero }
    let dxf_arc := { dxf_arc with start_angle := Double.zero }
    let dxf_arc := { dxf_arc with end_angle := Double.zero }
    let dxf_arc :=
      { dxf_arc with common := { dxf_arc.common with color := g.DXF_COLOR_BYLAYER } }
    let dxf_arc :=
      { dxf_arc with common := { dxf_arc.common with paperspace := g.DXF_MODELSPACE } }
    let dxf_arc :=
      { dxf_arc with common := { dxf_arc.common with acad_version_number := 0 } }
    (some dxf_arc, stderr)

/-! ## The class entry -/

/-- The class entry `DxfClass`, by the members that `class.c` uses. -/
structure DxfClass where
  record_type : String
  record_name : String
  class_name : String
  app_name : String
  proxy_cap_flag : Int
  was_a_proxy_flag : Int
  is_an_entity_flag : Int
  deriving DecidableEq

/-- The function `dxf_class_write` of `class.c`. -/
def dxf_class_write (s : Streams) (dxf_class : DxfClass) : WriteResult :=
  let dxf_entity_name := "CLASS"
  let s := s.fprintf 0 (.str dxf_entity_name)
  let s := s.fprintf 1 (.str dxf_class.record_name)
  let s := s.fprintf 2 (.str dxf_class.class_name)
  let s := s.fprintf 3 (.str dxf_class.app_name)
  let s := s.fprintf 90 (.dec dxf_class.proxy_cap_flag)
  let s := s.fprintf 280 (.dec dxf_class.was_a_proxy_flag)
  let s := s.fprintf 281 (.dec dxf_class.is_an_entity_flag)
  ⟨EXIT_SUCCESS, s⟩

/-- The function `dxf_class_write_lowlevel` of `class.c`. -/
def dxf_class_write_lowlevel (s : Streams) (record_name class_name app_name : String)
    (proxy_cap_flag was_a_proxy_flag is_an_entity_flag : Int) : WriteResult :=
  let dxf_entity_name := "CLASS"
  let s := s.fprintf 0 (.str dxf_entity_name)
  let s := s.fprintf 1 (.str record_name)
  let s := s.fprintf 2 (.str class_name)
  let s := s.fprintf 3 (.str app_name)
  let s := s.fprintf 90 (.dec proxy_cap_flag)
  let s := s.fprintf 280 (.dec was_a_proxy_flag)
  let s := s.fprintf 281 (.dec is_an_entity_flag)
  ⟨EXIT_SUCCESS, s⟩

/-- The state of the loop of `dxf_class_read`: its stream, the caller's line
counter, the class entry, the characters that `temp_string` points to, and the
two diagnostic streams.  Lines 176 and 197 hand `fscanf` the address of a
pointer member, `&dxf_class->record_type` and `&dxf_class->app_name`: the
characters read go over the pointer itself, not into the string it points to.
`record_type_over` and `app_name_over` hold the characters stored over the
member, if any; the member then no longer points to the string that
`dxf_class` gives for it.  Characters past the size of a pointer run over the
memory that follows the member; the model does not follow them. -/
structure ClassReader where
  fp : InStream
  line_number : Int
  dxf_class : DxfClass
  temp_string : String
  stderr : List String
  stdout : List String
  record_type_over : Option String
  app_name_over : Option String
  deriving DecidableEq

namespace ClassReader

/-- The statement `(*line_number)++`. -/
def next_line (r : ClassReader) : ClassReader := { r with line_number := r.line_number + 1 }

/-- A `fscanf` into a member of the class entry: the member changes only when
the conversion succeeds. -/
def store {α : Type} (r : ClassReader) (res : Option α × InStream)
    (set : DxfClass → α → DxfClass) : ClassReader :=
  match res.1 with
  | some v => { r with fp := res.2, dxf_class := set r.dxf_class v }
  | none => { r with fp := res.2 }

/-- A `fscanf (fp, "%s\n", &dxf_class->record_type)`. -/
def store_over_record_type (r : ClassReader) (res : Option String × InStream) : ClassReader :=
  match res.1 with
  | some v => { r with fp := res.2, record_type_over := some v }
  | none => { r with fp := res.2 }

/-- A `fscanf (fp, "%s\n", &dxf_class->app_name)`. -/
def store_over_app_name (r : ClassReader) (res : Option String × InStream) : ClassReader :=
  match res.1 with
  | some v => { r with fp := res.2, app_name_over := some v }
  | none => { r with fp := res.2 }

/-- A `fscanf (fp, "%s\n", temp_string)`. -/
def store_temp (r : ClassReader) (res : Option String × InStream) : ClassReader :=
  match res.1 with
  | some v => { r with fp := res.2, temp_string := v }
  | none => { r with fp := res.2 }

end ClassReader

/-- The branches of the `if ... else if` chain of `dxf_class_read`, lines
166-231, named after what they read. -/
inductive ClassBranch where
  | record_type
  | record_name
  | class_name
  | app_name
  | proxy_cap_flag
  | was_a_proxy_flag
  | is_an_entity_flag
  | comment
  | unknown
  deriving DecidableEq

/-- The conditions of the chain, in the order of the source: the branch taken
for the characters in `temp_string`. -/
def dxf_class_read_branch (temp_string : String) : ClassBranch :=
  if temp_string = "0" then .record_type
  else if temp_string = "1" then .record_name
  else if temp_string = "2" then .class_name
  else if temp_string = "3" then .app_name
  else if temp_string = "90" then .proxy_cap_flag
  else if temp_string = "280" then .was_a_proxy_flag
  else if temp_string = "281" then .is_an_entity_flag
  else if temp_string = "999" then .comment
  else .unknown

/-- The statements of a branch of the chain. -/
def dxf_class_read_statements (filename : String) (r : ClassReader) :
    ClassBranch → ClassReader
  | .record_type =>
    let r := r.next_line
    r.store_over_record_type (fscanf_s r.fp)
  | .record_name =>
    let r := r.next_line
    r.store (fscanf_s r.fp) (fun c v => { c with record_name := v })
  | .class_name =>
    let r := r.next_line
    r.store (fscanf_s r.fp) (fun c v => { c with class_name := v })
  | .app_name =>
    let r := r.next_line
    r.store_over_app_name (fscanf_s r.fp)
  | .proxy_cap_flag =>
    let r := r.next_line
    r.store (fscanf_d r.fp) (fun c v => { c with proxy_cap_flag := v })
  | .was_a_proxy_flag =>
    let r := r.next_line
    r.store (fscanf_d r.fp) (fun c v => { c with was_a_proxy_flag := v })
  | .is_an_entity_flag =>
    let r := r.next_line
    r.store (fscanf_d r.fp) (fun c v => { c with is_an_entity_flag := v })
  | .comment =>
    let r := r.next_line
    let r := r.store_temp (fscanf_s r.fp)
    { r with stdout := r.stdout ++ ["DXF comment: " ++ r.temp_string ++ "\n"] }
  | .unknown =>
    { r with stderr := r.stderr
        ++ ["Warning: in dxf_class_read () unknown string tag found while reading from: "
          ++ filename ++ " in line: " ++ fmt_d r.line_number ++ ".\n"] }

/-- One pass through the body of the `while` loop of `dxf_class_read`, lines
166-231, after the `ferror` test: the statements of the branch that the chain
takes. -/
def dxf_class_read_body (filename : String) (r : ClassReader) : ClassReader :=
  dxf_class_read_statements filename r (dxf_class_read_branch r.temp_string)

/-- The `while` loop of `dxf_class_read`, lines 157-232, run for at most `fuel`
tests of its condition.  The result is `none` when the loop is still running
after that many tests. -/
def dxf_class_read_loop (filename : String) : Nat → ClassReader → Option (Int × ClassReader)
  | 0, _ => none
  | fuel + 1, r =>
    if r.temp_string = "0" then some (EXIT_SUCCESS, r)
    else if r.fp.error then
      some (EXIT_FAILURE,
        { r with
          stderr := r.stderr ++ ["Error in dxf_class_read () while reading from: " ++ filename
            ++ " in line: " ++ fmt_d r.line_number ++ ".\n"],
          fp := { r.fp with closed := true } })
    else dxf_class_read_loop filename fuel (dxf_class_read_body filename r)

/-- The function `dxf_class_read` of `class.c`, with a bound on the number of
tests of the loop condition.  Line 149 declares `char *temp_string = NULL`, and
nothing assigns to the pointer: the `fscanf` of line 156 is handed the null
pointer, and the first test of the loop condition, `strcmp (temp_string, "0")`
of line 157, reads through it.  The class entry is passed by value, so the
branch for a null `dxf_class` does not arise; the parameter
`acad_version_number` is not used by the source. -/
def dxf_class_read (fuel : Nat) (filename : String) (fp : InStream) (line_number : Int)
    (dxf_class : DxfClass) (_acad_version_number : Int) : Run ClassReader :=
  let temp_string : Option String := none
  let line_number := line_number + 1
  let res := fscanf_line_to temp_string fp
  match fuel, res.1 with
  | 0, _ => Run.running
  | _ + 1, none => Run.killed
  | fuel + 1, some t =>
    match dxf_class_read_loop filename (fuel + 1)
      { fp := res.2, line_number := line_number, dxf_class := dxf_class, temp_string := t,
        stderr := [], stdout := [], record_type_over := none, app_name_over := none } with
    | none => Run.running
    | some (status, r) => Run.returned status r

/-- The state in which `dxf_class_read_buffered` enters its loop: the line
counter advanced by one and the buffer of `temp_string` filled by the `fscanf`
of line 156. -/
def dxf_class_read_buffered_start (fp : InStream) (line_number : Int) (dxf_class : DxfClass) :
    ClassReader :=
  { fp := (fscanf_line fp).2, line_number := line_number + 1, dxf_class := dxf_class,
    temp_string := (fscanf_line fp).1.getD "", stderr := [], stdout := [],
    record_type_over := none, app_name_over := none }

/-- A repaired `dxf_class_read`, not the function of `class.c`: line 149 gives
`temp_string` an empty buffer instead of the null pointer, everything else is
as in the source.  The result is `none` when the loop is still running after
`fuel` tests. -/
def dxf_class_read_buffered (fuel : Nat) (filename : String) (fp : InStream)
    (line_number : Int) (dxf_class : DxfClass) (_acad_version_number : Int) :
    Option (Int × ClassReader) :=
  dxf_class_read_loop filename fuel (dxf_class_read_buffered_start fp line_number dxf_class)

/-! ## Sample inputs -/

/-- A sample assignment of the constants of `global.h`. -/
def sampleGlobal : Global :=
  { AutoCAD_11 := 11, AutoCAD_12 := 12, AutoCAD_14 := 14,
    DXF_COLOR_BYLAYER := 256, DXF_MODELSPACE := 0, DXF_PAPERSPACE := 1 }

/-- The sample constants with every version threshold at 1000000. -/
def lateGlobal : Global :=
  { sampleGlobal with AutoCAD_11 := 1000000, AutoCAD_12 := 1000000, AutoCAD_14 := 1000000 }

/-- A quarter arc of radius 1 about the origin, all optional members at their
defaults, written for version 0. -/
def sampleArc : DxfArc :=
  { common := { id_code := -1, linetype := "BYLAYER", layer := "0", thickness := Double.zero,
                color := 256, paperspace := 0, acad_version_number := 0 },
    x0 := Double.zero, y0 := Double.zero, z0 := Double.zero,
    extr_x0 := Double.zero, extr_y0 := Double.zero, extr_z0 := Double.ofInt 1,
    radius := Double.ofInt 1, start_angle := Double.zero, end_angle := Double.ofInt 90 }

/-- A solid-fill hatch header with no seed points and every optional member at
its default. -/
def sampleHatch : DxfHatchHeader :=
  { pattern_name := "SOLID", id_code := -1, linetype := "BYLAYER", layer := "0",
    x0 := Double.zero, y0 := Double.zero, z0 := Double.zero,
    extr_x0 := Double.zero, extr_y0 := Double.zero, extr_z0 := Double.ofInt 1,
    thickness := Double.zero, pattern_scale := Double.ofInt 1, pixel_size := Double.ofInt 1,
    pattern_angle := Double.zero, color := 256, paperspace := 0, solid_fill := 1,
    associative := 0, style := 0, pattern_style := 1, pattern_double := 0,
    pattern_def_lines := 0, pattern_boundary_paths := 0, seed_points := 0,
    seed_x0 := [], seed_y0 := [] }

/-- An arc whose start angle equals its end angle. -/
def arcEqualAngles : DxfArc := { sampleArc with end_angle := Double.zero }

/-- A file that already holds one record. -/
def oneRecordStreams : Streams := ⟨[⟨0, .str "SECTION"⟩], []⟩

/-- An arc of radius -1. -/
def arcNegativeRadius : DxfArc := { sampleArc with radius := Double.ofInt (-1) }

/-- An arc whose start angle is not a number. -/
def arcNanStart : DxfArc := { sampleArc with start_angle := Double.nan }

/-- An arc on the empty layer. -/
def arcEmptyLayer : DxfArc := { sampleArc with common := { sampleArc.common with layer := "" } }

/-- The sample arc written for version 14. -/
def sampleArcR14 : DxfArc :=
  { sampleArc with common := { sampleArc.common with acad_version_number := 14 } }

/-- A closed polyline of two vertices, (1, 2) and (3, 4), without bulges. -/
def closedX0 : List Double := [Double.ofInt 1, Double.ofInt 3]

/-- The Y-values of the two vertices. -/
def closedY0 : List Double := [Double.ofInt 2, Double.ofInt 4]

/-- Two bulge values that are not 0. -/
def sampleBulge : List Double := [Double.ofInt 1, Double.ofInt 2]

/-- A call of `dxf_write_hatch_boundaries` for one polyline path: the closed
polyline of two vertices, with `has_bulge` 0 and the bulge array
`sampleBulge`; every edge parameter is 0 or empty. -/
def sampleBoundaries : DxfHatchBoundaries :=
  { hatch_boundary_paths := 1, hatch_boundary_path_type_flag := 2,
    hatch_boundary_path_edges := 0, hatch_boundary_path_edge_type := 0,
    hatch_boundary_path_edge_line_x0 := Double.zero,
    hatch_boundary_path_edge_line_y0 := Double.zero,
    hatch_boundary_path_edge_line_x1 := Double.zero,
    hatch_boundary_path_edge_line_y1 := Double.zero,
    hatch_boundary_path_edge_arc_x0 := Double.zero,
    hatch_boundary_path_edge_arc_y0 := Double.zero,
    hatch_boundary_path_edge_arc_radius := Double.zero,
    hatch_boundary_path_edge_arc_start_angle := Double.zero,
    hatch_boundary_path_edge_arc_end_angle := Double.zero,
    hatch_boundary_path_edge_arc_is_ccw := 0,
    hatch_boundary_path_edge_ellipse_x0 := Double.zero,
    hatch_boundary_path_edge_ellipse_y0 := Double.zero,
    hatch_boundary_path_edge_ellipse_x1 := Double.zero,
    hatch_boundary_path_edge_ellipse_y1 := Double.zero,
    boundary_path_edge_ellipse_minor_axis := Double.zero,
    hatch_boundary_path_edge_ellipse_start_angle := Double.zero,
    hatch_boundary_path_edge_ellipse_end_angle := Double.zero,
    hatch_boundary_path_edge_ellipse_is_ccw := 0,
    hatch_boundary_path_edge_spline_degree := 0,
    hatch_boundary_path_edge_spline_rational := 0,
    hatch_boundary_path_edge_spline_periodic := 0,
    hatch_boundary_path_edge_spline_knots := 0,
    hatch_boundary_path_edge_spline_control_points := 0,
    hatch_boundary_path_edge_spline_knot_value := [],
    hatch_boundary_path_edge_spline_cp_x0 := [],
    hatch_boundary_path_edge_spline_cp_y0 := [],
    hatch_boundary_path_edge_spline_cp_weight := [],
    hatch_boundary_path_polyline_has_bulge := 0,
    hatch_boundary_path_polyline_is_closed := 1,
    hatch_boundary_path_polyline_vertices := 2,
    hatch_boundary_path_polyline_x0 := closedX0,
    hatch_boundary_path_polyline_y0 := closedY0,
    hatch_boundary_path_polyline_bulge := sampleBulge,
    hatch_boundary_objects := 0,
    hatch_boundary_objects_ref := "" }

/-- One edge path with one edge of type 1, a line from (0, 0) to (1, 0). -/
def lineEdgeBoundaries : DxfHatchBoundaries :=
  { sampleBoundaries with
    hatch_boundary_path_type_flag := 0, hatch_boundary_path_edges := 1,
    hatch_boundary_path_edge_type := 1,
    hatch_boundary_path_edge_line_x1 := Double.ofInt 1 }

/-- The sample polyline path with the type flag 3: external and polyline. -/
def externalPolylineBoundaries : DxfHatchBoundaries :=
  { sampleBoundaries with hatch_boundary_path_type_flag := 3 }

/-- The sample hatch header with two seed points, (1, 2) and (3, 4). -/
def seededHatch : DxfHatchHeader :=
  { sampleHatch with seed_points := 2, seed_x0 := closedX0, seed_y0 := closedY0 }

/-- A pattern-fill hatch header: the sample header with `solid_fill` 0 and the
pattern scale 2. -/
def patternHatch : DxfHatchHeader :=
  { sampleHatch with
    pattern_name := "ANSI31", solid_fill := 0, pattern_scale := Double.ofInt 2 }

/-- The group codes and values of an arc, one to a line and not padded,
followed by the record (0, "LINE"). -/
def knownRecordsInput : InStream :=
  ⟨"5\n1A\n8\nWalls\n10\n1.0\n20\n2.0\n30\n0.0\n40\n2.5\n50\n0.0\n51\n90.0\n0\nLINE\n".toList,
   false, false⟩

/-- An input that ends after the record (10, 1.0). -/
def truncatedInput : InStream := ⟨"10\n1.0\n".toList, false, false⟩

/-- The records of an arc with the record (9999, "foo") after the first one,
followed by the group code 0. -/
def unknownTagInput : InStream :=
  ⟨"10\n1.0\n9999\nfoo\n20\n2.0\n40\n2.5\n50\n0.0\n51\n90.0\n0\n".toList, false, false⟩

/-- The records of an arc with the record (9999, "foo") in front, followed by
the group code 0. -/
def unknownTagFirstInput : InStream :=
  ⟨"9999\nfoo\n10\n1.0\n20\n2.0\n40\n2.5\n50\n0.0\n51\n90.0\n0\n".toList, false, false⟩

/-- The record (38, 5.0) followed by the group code 0. -/
def elevationInput : InStream := ⟨"38\n5.0\n0\n".toList, false, false⟩

/-- The sample arc with its centre at height 7. -/
def arcAtHeight : DxfArc := { sampleArc with z0 := Double.ofInt 7 }

/-- The record (100, "AcDbEntity") followed by the group code 0. -/
def markerInput : InStream := ⟨"100\nAcDbEntity\n0\n".toList, false, false⟩

/-- The record (0, "LINE"). -/
def zeroCodeInput : InStream := ⟨"0\nLINE\n".toList, false, false⟩

/-- A class entry. -/
def sampleClass : DxfClass :=
  { record_type := "CLASS", record_name := "ACDBDICTIONARYWDFLT",
    class_name := "AcDbDictionaryWithDefault", app_name := "ObjectDBX Classes",
    proxy_cap_flag := 0, was_a_proxy_flag := 0, is_an_entity_flag := 0 }

/-- The record (0, "ENDSEC") followed by the record (1, "NAME"). -/
def classZeroInput : InStream := ⟨"0\nENDSEC\n1\nNAME\n".toList, false, false⟩

/-- The state in which `dxf_class_read_buffered` returns on `classZeroInput`,
called with line number 0 and the sample class entry. -/
def classZeroResult : ClassReader :=
  { fp := ⟨"\nENDSEC\n1\nNAME\n".toList, false, false⟩, line_number := 1,
    dxf_class := sampleClass, temp_string := "0", stderr := [], stdout := [],
    record_type_over := none, app_name_over := none }

/-- The record (0, "LINE") with the group code padded as the writers pad
it. -/
def paddedZeroInput : InStream := ⟨"  0\nLINE\n".toList, false, false⟩

/-- An arc with every optional member away from its default: id-code 26,
linetype "DASHED", thickness 2, color 1, and in paperspace. -/
def arcAllOptional : DxfArc :=
  { sampleArc with
    common := { id_code := 26, linetype := "DASHED", layer := "0", thickness := Double.ofInt 2,
                color := 1, paperspace := 1, acad_version_number := 0 } }

/-- A hatch header with every optional member away from its default. -/
def hatchAllOptional : DxfHatchHeader :=
  { sampleHatch with
    id_code := 26, linetype := "DASHED", thickness := Double.ofInt 2, color := 1,
    paperspace := 1 }

/-- The records of a class entry after (0, "CLASS"), followed by the group
code 0. -/
def classRecordsInput : InStream :=
  ⟨"1\nNAME\n2\nCppName\n3\nApp\n90\n0\n280\n0\n281\n0\n0\n".toList, false, false⟩

/-- Two dash lengths, 3 and 1. -/
def sampleDashLength : List Double := [Double.ofInt 3, Double.ofInt 1]

/-! ## Rewriting a sequence of writes into one list of records -/

theorem fprintf_eq_add (s : Streams) (k : Nat) (v : Value) :
    s.fprintf k v = s.add [⟨k, v⟩] := rfl

theorem add_add (s : Streams) (w w' : List Record) : (s.add w).add w' = s.add (w ++ w') := by
  simp [Streams.add]

theorem ite_add (c : Prop) [Decidable c] (s : Streams) (w w' : List Record) :
    (if c then s.add w else s.add w') = s.add (if c then w else w') := by
  split_ifs <;> rfl

theorem ite_append_self (c : Prop) [Decidable c] (l w : List Record) :
    (if c then l ++ w else l) = l ++ (if c then w else []) := by
  split_ifs <;> simp

theorem ite_append3_self (c : Prop) [Decidable c] (l w1 w2 w3 : List Record) :
    (if c then l ++ w1 ++ w2 ++ w3 else l) = l ++ (if c then w1 ++ w2 ++ w3 else []) := by
  split_ifs <;> simp

/-- The records of `dxf_arc_write` after the validation, as one list. -/
theorem arc_write_records_eq (g : Global) (s : Streams) (n : String) (a : DxfArc) :
    dxf_arc_write_records g s n a = s.add
     ([⟨0, .str n⟩]
      ++ (if a.common.acad_version_number ≥ g.AutoCAD_14 then [⟨100, .str "AcDbArc"⟩] else [])
      ++ (if a.common.id_code ≠ -1 then [⟨5, .hex a.common.id_code⟩] else [])
      ++ (if a.common.linetype ≠ DXF_DEFAULT_LINETYPE then [⟨6, .str a.common.linetype⟩] else [])
      ++ [⟨8, .str a.common.layer⟩] ++ [⟨10, .real a.x0⟩] ++ [⟨20, .real a.y0⟩]
      ++ [⟨30, .real a.z0⟩]
      ++ (if a.common.acad_version_number ≥ g.AutoCAD_12 then
            [⟨210, .real a.extr_x0⟩] ++ [⟨220, .real a.extr_y0⟩] ++ [⟨230, .real a.extr_z0⟩]
          else [])
      ++ (if a.common.thickness.ne Double.zero then [⟨39, .real a.common.thickness⟩] else [])
      ++ [⟨40, .real a.radius⟩] ++ [⟨50, .real a.start_angle⟩] ++ [⟨51, .real a.end_angle⟩]
      ++ (if a.common.color ≠ g.DXF_COLOR_BYLAYER then [⟨62, .dec a.common.color⟩] else [])
      ++ (if a.common.paperspace = g.DXF_PAPERSPACE then [⟨67, .dec g.DXF_PAPERSPACE⟩]
          else [])) := by
  simp only [dxf_arc_write_records, fprintf_eq_add, add_add, ite_add, ite_append_self,
    ite_append3_self]

/-- The records of `dxf_arc_write_lowlevel` after the validation, as one list. -/
theorem arc_write_lowlevel_records_eq (g : Global) (s : Streams) (n : String)
    (id_code : Int) (linetype layer : String)
    (x0 y0 z0 extr_x0 extr_y0 extr_z0 thickness radius start_angle end_angle : Double)
    (color paperspace acad_version_number : Int) :
    dxf_arc_write_lowlevel_records g s n id_code linetype layer x0 y0 z0 extr_x0 extr_y0 extr_z0
        thickness radius start_angle end_angle color paperspace acad_version_number = s.add
     ([⟨0, .str n⟩]
      ++ (if acad_version_number ≥ g.AutoCAD_14 then [⟨100, .str "AcDbCircle"⟩] else [])
      ++ (if id_code ≠ -1 then [⟨5, .hex id_code⟩] else [])
      ++ (if linetype ≠ DXF_DEFAULT_LINETYPE then [⟨6, .str linetype⟩] else [])
      ++ [⟨8, .str layer⟩] ++ [⟨10, .real x0⟩] ++ [⟨20, .real y0⟩] ++ [⟨30, .real z0⟩]
      ++ (if acad_version_number ≥ g.AutoCAD_12 then
            [⟨210, .real extr_x0⟩] ++ [⟨220, .real extr_y0⟩] ++ [⟨230, .real extr_z0⟩]
          else [])
      ++ (if thickness.ne Double.zero then [⟨39, .real thickness⟩] else [])
      ++ [⟨40, .real radius⟩]
      ++ (if acad_version_number ≥ g.AutoCAD_14 then [⟨100, .str "AcDbArc"⟩] else [])
      ++ [⟨50, .real start_angle⟩] ++ [⟨51, .real end_angle⟩]
      ++ (if color ≠ g.DXF_COLOR_BYLAYER then [⟨62, .dec color⟩] else [])
      ++ (if paperspace = g.DXF_PAPERSPACE then [⟨67, .dec g.DXF_PAPERSPACE⟩] else [])) := by
  simp only [dxf_arc_write_lowlevel_records, fprintf_eq_add, add_add, ite_add, ite_append_self,
    ite_append3_self]

/-- The loop over the seed points is guarded by `!seed_points`: it runs only
when there is no seed point, and then writes nothing. -/
theorem hatch_seed_guard (s : Streams) (k : Int) (xs ys : List Double) :
    (if k = 0 then dxf_write_hatch_seed_loop s k xs ys else s) = s := by
  split_ifs with h
  · subst h; rfl
  · rfl

/-- The records of `dxf_write_hatch`, as one list. -/
theorem write_hatch_records_eq (g : Global) (s : Streams) (n layer : String)
    (h : DxfHatchHeader) :
    dxf_write_hatch_records g s n layer h = s.add
     ([⟨0, .str n⟩] ++ [⟨100, .str "AcDbHatch"⟩] ++ [⟨2, .str h.pattern_name⟩]
      ++ (if h.id_code ≠ -1 then [⟨5, .hex h.id_code⟩] else [])
      ++ (if h.linetype ≠ DXF_DEFAULT_LINETYPE then [⟨6, .str h.linetype⟩] else [])
      ++ [⟨8, .str layer⟩] ++ [⟨10, .real h.x0⟩] ++ [⟨20, .real h.y0⟩]
      ++ [⟨30, .real h.z0⟩]
      ++ [⟨210, .real h.extr_x0⟩] ++ [⟨220, .real h.extr_y0⟩] ++ [⟨230, .real h.extr_z0⟩]
      ++ (if h.thickness.ne Double.zero then [⟨39, .real h.thickness⟩] else [])
      ++ (if h.solid_fill = 0 then [⟨42, .real h.pattern_scale⟩] else [])
      ++ [⟨47, .real h.pixel_size⟩]
      ++ (if h.solid_fill = 0 then [⟨52, .real h.pattern_angle⟩] else [])
      ++ (if h.color ≠ g.DXF_COLOR_BYLAYER then [⟨62, .dec h.color⟩] else [])
      ++ (if h.paperspace = g.DXF_PAPERSPACE then [⟨67, .dec g.DXF_PAPERSPACE⟩] else [])
      ++ [⟨70, .dec h.solid_fill⟩] ++ [⟨71, .dec h.associative⟩] ++ [⟨75, .dec h.style⟩]
      ++ (if h.solid_fill = 0 then [⟨77, .dec h.pattern_double⟩] else [])
      ++ [⟨78, .dec h.pattern_def_lines⟩] ++ [⟨98, .dec h.seed_points⟩]
      ++ [⟨91, .dec h.pattern_boundary_paths⟩]) := by
  simp only [dxf_write_hatch_records, hatch_seed_guard, fprintf_eq_add, add_add, ite_add,
    ite_append_self]

theorem arc_checks_pass_iff (sa ea r : Double) :
    arc_checks_pass sa ea r = true ↔
      sa.eq ea = false ∧ sa.gt (Double.ofInt 360) = false ∧ sa.lt Double.zero = false
        ∧ ea.gt (Double.ofInt 360) = false ∧ ea.lt Double.zero = false
        ∧ r.eq Double.zero = false := by
  simp [arc_checks_pass, and_assoc]

/-- The status of `dxf_arc_write` is decided by the six tests. -/
theorem arc_write_status (g : Global) (s : Streams) (a : DxfArc) :
    (dxf_arc_write g s a).status
      = if arc_checks_pass a.start_angle a.end_angle a.radius then EXIT_SUCCESS
        else EXIT_FAILURE := by
  unfold dxf_arc_write arc_checks_pass
  split_ifs <;> simp_all

/-- The status of `dxf_arc_write_lowlevel` is decided by the six tests. -/
theorem arc_write_lowlevel_status (g : Global) (s : Streams) (a : DxfArc) :
    (dxf_arc_write_lowlevel_of g s a).status
      = if arc_checks_pass a.start_angle a.end_angle a.radius then EXIT_SUCCESS
        else EXIT_FAILURE := by
  unfold dxf_arc_write_lowlevel_of dxf_arc_write_lowlevel arc_checks_pass
  split_ifs <;> simp_all

theorem arc_write_success_iff (g : Global) (s : Streams) (a : DxfArc) :
    (dxf_arc_write g s a).status = EXIT_SUCCESS
      ↔ arc_checks_pass a.start_angle a.end_angle a.radius = true := by
  rw [arc_write_status]
  split_ifs with h <;> simp [h, EXIT_SUCCESS, EXIT_FAILURE]

theorem arc_write_lowlevel_success_iff (g : Global) (s : Streams) (a : DxfArc) :
    (dxf_arc_write_lowlevel_of g s a).status = EXIT_SUCCESS
      ↔ arc_checks_pass a.start_angle a.end_angle a.radius = true := by
  rw [arc_write_lowlevel_status]
  split_ifs with h <;> simp [h, EXIT_SUCCESS, EXIT_FAILURE]

theorem arc_write_failure_iff (g : Global) (s : Streams) (a : DxfArc) :
    (dxf_arc_write g s a).status = EXIT_FAILURE
      ↔ arc_checks_pass a.start_angle a.end_angle a.radius = false := by
  rw [arc_write_status]
  split_ifs with h <;> simp [h, EXIT_SUCCESS, EXIT_FAILURE]

theorem arc_write_lowlevel_failure_iff (g : Global) (s : Streams) (a : DxfArc) :
    (dxf_arc_write_lowlevel_of g s a).status = EXIT_FAILURE
      ↔ arc_checks_pass a.start_angle a.end_angle a.radius = false := by
  rw [arc_write_lowlevel_status]
  split_ifs with h <;> simp [h, EXIT_SUCCESS, EXIT_FAILURE]

/-- A rejected arc leaves the file as it was. -/
theorem arc_write_fp_of_fail (g : Global) (s : Streams) (a : DxfArc)
    (h : arc_checks_pass a.start_angle a.end_angle a.radius = false) :
    (dxf_arc_write g s a).out.fp = s.fp ∧ (dxf_arc_write_lowlevel_of g s a).out.fp = s.fp := by
  unfold arc_checks_pass at h
  unfold dxf_arc_write dxf_arc_write_lowlevel_of dxf_arc_write_lowlevel
  constructor <;> (split_ifs <;> simp_all [Streams.eprintf])

/-- The streams after `dxf_arc_write` on an arc that passes the tests. -/
theorem arc_write_out (g : Global) (s : Streams) (a : DxfArc)
    (h : arc_checks_pass a.start_angle a.end_angle a.radius = true) :
    (dxf_arc_write g s a).out =
      (if a.common.layer = "" then
        (s.eprintf ("Warning in dxf_arc_write () empty layer string for the ARC"
          ++ " entity with id-code: " ++ fmt_x a.common.id_code ++ ".\n")).eprintf
          "\tARC entity is relocated to default layer.\n"
       else s).add (arc_records g a) := by
  obtain ⟨h1, h2, h3, h4, h5, h6⟩ := (arc_checks_pass_iff _ _ _).1 h
  unfold dxf_arc_write
  simp only [h1, h2, h3, h4, h5, h6, Bool.false_eq_true, if_false]
  split_ifs with hl
  · simp [arc_write_records_eq, arc_records, settled_layer, hl]
  · simp [arc_write_records_eq, arc_records, settled_layer, hl]

/-- The streams after `dxf_arc_write_lowlevel` on an arc that passes the tests. -/
theorem arc_write_lowlevel_out (g : Global) (s : Streams) (a : DxfArc)
    (h : arc_checks_pass a.start_angle a.end_angle a.radius = true) :
    (dxf_arc_write_lowlevel_of g s a).out =
      (if a.common.layer = "" then
        (s.eprintf ("Warning in dxf_arc_write_lowlevel () empty layer string for the ARC"
          ++ " entity with id-code: " ++ fmt_x a.common.id_code ++ ".\n")).eprintf
          "    ARC entity is relocated to default layer.\n"
       else s).add (arc_lowlevel_records g a) := by
  obtain ⟨h1, h2, h3, h4, h5, h6⟩ := (arc_checks_pass_iff _ _ _).1 h
  unfold dxf_arc_write_lowlevel_of dxf_arc_write_lowlevel
  simp only [h1, h2, h3, h4, h5, h6, Bool.false_eq_true, if_false]
  split_ifs with hl
  · simp [arc_write_lowlevel_records_eq, arc_lowlevel_records, settled_layer, hl]
  · simp [arc_write_lowlevel_records_eq, arc_lowlevel_records, settled_layer, hl]

theorem add_fp (s : Streams) (w : List Record) : (s.add w).fp = s.fp ++ w := rfl

theorem add_stderr (s : Streams) (w : List Record) : (s.add w).stderr = s.stderr := rfl

theorem eprintf_fp (s : Streams) (m : String) : (s.eprintf m).fp = s.fp := rfl

theorem ite_warn_fp (c : Prop) [Decidable c] (s : Streams) (m m' : String) :
    (if c then (s.eprintf m).eprintf m' else s).fp = s.fp := by
  split_ifs <;> rfl

/-- The records appended by `dxf_arc_write` on an arc that passes the tests. -/
theorem arc_write_written (g : Global) (s : Streams) (a : DxfArc)
    (h : arc_checks_pass a.start_angle a.end_angle a.radius = true) :
    written s (dxf_arc_write g s a) = arc_records g a := by
  simp [written, arc_write_out g s a h, add_fp, ite_warn_fp]

/-- The records appended by `dxf_arc_write_lowlevel` on an arc that passes the
tests. -/
theorem arc_write_lowlevel_written (g : Global) (s : Streams) (a : DxfArc)
    (h : arc_checks_pass a.start_angle a.end_angle a.radius = true) :
    written s (dxf_arc_write_lowlevel_of g s a) = arc_lowlevel_records g a := by
  simp [written, arc_write_lowlevel_out g s a h, add_fp, ite_warn_fp]

/-- The streams after `dxf_write_hatch`. -/
theorem write_hatch_out (g : Global) (s : Streams) (h : DxfHatchHeader) :
    (dxf_write_hatch g s h).out =
      (if h.layer = "" then
        (s.eprintf ("Warning: empty layer string for the HATCH entity with id-code: "
          ++ fmt_x h.id_code ++ "\n")).eprintf "    HATCH entity is relocated to layer 0"
       else s).add (hatch_records g h) := by
  unfold dxf_write_hatch
  split_ifs with hl
  · simp [write_hatch_records_eq, hatch_records, settled_layer, hl]
  · simp [write_hatch_records_eq, hatch_records, settled_layer, hl]

/-- The records appended by `dxf_write_hatch`. -/
theorem write_hatch_written (g : Global) (s : Streams) (h : DxfHatchHeader) :
    written s (dxf_write_hatch g s h) = hatch_records g h := by
  simp [written, write_hatch_out g s h, add_fp, ite_warn_fp]

theorem has_group_append (l l' : List Record) (k : Nat) :
    has_group (l ++ l') k = (has_group l k || has_group l' k) := by
  simp [has_group]

theorem has_group_ite (c : Prop) [Decidable c] (l l' : List Record) (k : Nat) :
    has_group (if c then l else l') k = if c then has_group l k else has_group l' k := by
  split_ifs <;> rfl

theorem has_group_cons (r : Record) (l : List Record) (k : Nat) :
    has_group (r :: l) k = (r.code == k || has_group l k) := by
  simp [has_group]

theorem has_group_nil (k : Nat) : has_group [] k = false := rfl



theorem group_append (l l' : List Record) (k : Nat) :
    group (l ++ l') k = group l k ++ group l' k := by
  simp [group]

theorem group_ite (c : Prop) [Decidable c] (l l' : List Record) (k : Nat) :
    group (if c then l else l') k = if c then group l k else group l' k := by
  split_ifs <;> rfl

theorem group_cons (r : Record) (l : List Record) (k : Nat) :
    group (r :: l) k = if r.code = k then r :: group l k else group l k := by
  by_cases h : r.code = k <;> simp [group, List.filter_cons, h]

theorem group_nil (k : Nat) : group [] k = [] := rfl

/-- An angle that is neither above 360 nor below 0 is not a number or lies in
[0, 360]. -/
theorem angle_in_range (x : Double) (h2 : x.gt (Double.ofInt 360) = false)
    (h3 : x.lt Double.zero = false) :
    x = Double.nan
      ∨ (Double.le Double.zero x = true ∧ Double.le x (Double.ofInt 360) = true) := by
  cases x with
  | nan => exact Or.inl rfl
  | inf n => cases n <;> simp [Double.lt, Double.gt, Double.zero, Double.ofInt] at h2 h3
  | fin q =>
    right
    simp only [Double.lt, Double.gt, Double.zero, Double.ofInt, decide_eq_false_iff_not,
      not_lt] at h2 h3
    simp only [Double.le, Double.zero, Double.ofInt, decide_eq_true_eq]
    exact ⟨h3, h2⟩

/-! ## Arc validation (C1 - C4) -/

/-- C1: for every arc and version number, `dxf_arc_write` and
`dxf_arc_write_lowlevel` return `EXIT_FAILURE` whenever the start angle equals
the end angle, or the radius equals 0, or an angle is below 0 or above 360. -/
theorem arc_write_rejects_degenerate (g : Global) (s : Streams) (a : DxfArc)
    (h : a.start_angle.eq a.end_angle = true ∨ a.radius.eq Double.zero = true
      ∨ a.start_angle.lt Double.zero = true ∨ a.start_angle.gt (Double.ofInt 360) = true
      ∨ a.end_angle.lt Double.zero = true ∨ a.end_angle.gt (Double.ofInt 360) = true) :
    (dxf_arc_write g s a).status = EXIT_FAILURE
      ∧ (dxf_arc_write_lowlevel_of g s a).status = EXIT_FAILURE := by
  have hp : arc_checks_pass a.start_angle a.end_angle a.radius = false := by
    cases hc : arc_checks_pass a.start_angle a.end_angle a.radius
    · rfl
    · obtain ⟨h1, h2, h3, h4, h5, h6⟩ := (arc_checks_pass_iff _ _ _).1 hc
      simp [h1, h2, h3, h4, h5, h6] at h
  exact ⟨(arc_write_failure_iff g s a).2 hp, (arc_write_lowlevel_failure_iff g s a).2 hp⟩

/-- C1 at an arc of radius 0: both writers return `EXIT_FAILURE`. -/
theorem arc_write_rejects_degenerate_witness :
    ({ sampleArc with radius := Double.zero } : DxfArc).radius.eq Double.zero = true
      ∧ (dxf_arc_write sampleGlobal emptyStreams { sampleArc with radius := Double.zero }).status
        = EXIT_FAILURE
      ∧ (dxf_arc_write_lowlevel_of sampleGlobal emptyStreams
          { sampleArc with radius := Double.zero }).status = EXIT_FAILURE :=
  ⟨by decide,
   arc_write_rejects_degenerate sampleGlobal emptyStreams { sampleArc with radius := Double.zero }
    (Or.inr (Or.inl (by decide)))⟩

/-- C2: whenever `dxf_arc_write` or `dxf_arc_write_lowlevel` returns
`EXIT_FAILURE`, the output file holds exactly the records it held before the
call. -/
theorem arc_write_failure_writes_nothing (g : Global) (s : Streams) (a : DxfArc) :
    ((dxf_arc_write g s a).status = EXIT_FAILURE → (dxf_arc_write g s a).out.fp = s.fp)
      ∧ ((dxf_arc_write_lowlevel_of g s a).status = EXIT_FAILURE
          → (dxf_arc_write_lowlevel_of g s a).out.fp = s.fp) :=
  ⟨fun h => (arc_write_fp_of_fail g s a ((arc_write_failure_iff g s a).1 h)).1,
   fun h => (arc_write_fp_of_fail g s a ((arc_write_lowlevel_failure_iff g s a).1 h)).2⟩

/-- C2 at an arc with equal angles, on a file that already holds a record:
both writers fail and the file is unchanged. -/
theorem arc_write_failure_writes_nothing_witness :
    ((dxf_arc_write sampleGlobal oneRecordStreams arcEqualAngles).status = EXIT_FAILURE
        ∧ (dxf_arc_write sampleGlobal oneRecordStreams arcEqualAngles).out.fp
            = oneRecordStreams.fp)
      ∧ ((dxf_arc_write_lowlevel_of sampleGlobal oneRecordStreams arcEqualAngles).status
            = EXIT_FAILURE
        ∧ (dxf_arc_write_lowlevel_of sampleGlobal oneRecordStreams arcEqualAngles).out.fp
            = oneRecordStreams.fp) :=
  ⟨⟨by decide,
    (arc_write_failure_writes_nothing sampleGlobal oneRecordStreams arcEqualAngles).1
      (by decide)⟩,
   ⟨by decide,
    (arc_write_failure_writes_nothing sampleGlobal oneRecordStreams arcEqualAngles).2
      (by decide)⟩⟩

/-- C3, refuted as stated: both writers accept an arc of radius -1, which is
not greater than 0; they also accept a start angle that is not a number, for
which `0 <= start_angle` is false. -/
theorem arc_write_accepts_negative_radius :
    (dxf_arc_write sampleGlobal emptyStreams arcNegativeRadius).status = EXIT_SUCCESS
      ∧ (dxf_arc_write_lowlevel_of sampleGlobal emptyStreams arcNegativeRadius).status
          = EXIT_SUCCESS
      ∧ arcNegativeRadius.radius.gt Double.zero = false
      ∧ (dxf_arc_write sampleGlobal emptyStreams arcNanStart).status = EXIT_SUCCESS
      ∧ (dxf_arc_write_lowlevel_of sampleGlobal emptyStreams arcNanStart).status = EXIT_SUCCESS
      ∧ Double.le Double.zero arcNanStart.start_angle = false := by
  decide

/-- C3, amended: every arc that `dxf_arc_write` or `dxf_arc_write_lowlevel`
accepts has a radius that differs from 0 and a start angle that differs from
the end angle, and each of its angles is either not a number or lies in
[0, 360]. -/
theorem arc_write_accepted_invariants (g : Global) (s : Streams) (a : DxfArc)
    (h : (dxf_arc_write g s a).status = EXIT_SUCCESS
      ∨ (dxf_arc_write_lowlevel_of g s a).status = EXIT_SUCCESS) :
    a.radius.ne Double.zero = true
      ∧ a.start_angle.ne a.end_angle = true
      ∧ (a.start_angle = Double.nan
          ∨ (Double.le Double.zero a.start_angle = true
              ∧ Double.le a.start_angle (Double.ofInt 360) = true))
      ∧ (a.end_angle = Double.nan
          ∨ (Double.le Double.zero a.end_angle = true
              ∧ Double.le a.end_angle (Double.ofInt 360) = true)) := by
  have hp : arc_checks_pass a.start_angle a.end_angle a.radius = true := by
    rcases h with h | h
    · exact (arc_write_success_iff g s a).1 h
    · exact (arc_write_lowlevel_success_iff g s a).1 h
  obtain ⟨h1, h2, h3, h4, h5, h6⟩ := (arc_checks_pass_iff _ _ _).1 hp
  exact ⟨by simp [Double.ne, h6], by simp [Double.ne, h1], angle_in_range _ h2 h3,
    angle_in_range _ h4 h5⟩

/-- C3 amended, at the sample arc: it is accepted, its radius 1 differs from 0
and its angles 0 and 90 differ and lie in [0, 360]. -/
theorem arc_write_accepted_invariants_witness :
    (dxf_arc_write sampleGlobal emptyStreams sampleArc).status = EXIT_SUCCESS
      ∧ sampleArc.radius.ne Double.zero = true
      ∧ sampleArc.start_angle.ne sampleArc.end_angle = true
      ∧ (sampleArc.start_angle = Double.nan
          ∨ (Double.le Double.zero sampleArc.start_angle = true
              ∧ Double.le sampleArc.start_angle (Double.ofInt 360) = true))
      ∧ (sampleArc.end_angle = Double.nan
          ∨ (Double.le Double.zero sampleArc.end_angle = true
              ∧ Double.le sampleArc.end_angle (Double.ofInt 360) = true)) :=
  ⟨by decide,
   arc_write_accepted_invariants sampleGlobal emptyStreams sampleArc (Or.inl (by decide))⟩

/-- C4: for every arc that passes the tests on angles and radius and whose
layer is the empty string, `dxf_arc_write` and `dxf_arc_write_lowlevel` return
`EXIT_SUCCESS`, report a warning on `stderr`, and append exactly the records
they append for the same arc on layer "0"; the group-8 record carries "0". -/
theorem arc_write_empty_layer (g : Global) (s : Streams) (a : DxfArc)
    (hv : arc_checks_pass a.start_angle a.end_angle a.radius = true)
    (hl : a.common.layer = "") :
    ((dxf_arc_write g s a).status = EXIT_SUCCESS
      ∧ reported s (dxf_arc_write g s a)
          = ["Warning in dxf_arc_write () empty layer string for the ARC entity with id-code: "
              ++ fmt_x a.common.id_code ++ ".\n",
             "\tARC entity is relocated to default layer.\n"]
      ∧ written s (dxf_arc_write g s a)
          = written s (dxf_arc_write g s { a with common := { a.common with layer := "0" } })
      ∧ group (written s (dxf_arc_write g s a)) 8 = [⟨8, .str "0"⟩])
    ∧ ((dxf_arc_write_lowlevel_of g s a).status = EXIT_SUCCESS
      ∧ reported s (dxf_arc_write_lowlevel_of g s a)
          = ["Warning in dxf_arc_write_lowlevel () empty layer string for the ARC entity with id-code: "
              ++ fmt_x a.common.id_code ++ ".\n",
             "    ARC entity is relocated to default layer.\n"]
      ∧ written s (dxf_arc_write_lowlevel_of g s a)
          = written s (dxf_arc_write_lowlevel_of g s
              { a with common := { a.common with layer := "0" } })
      ∧ group (written s (dxf_arc_write_lowlevel_of g s a)) 8 = [⟨8, .str "0"⟩]) := by
  have hv' : arc_checks_pass ({ a with common := { a.common with layer := "0" } } : DxfArc).start_angle
      ({ a with common := { a.common with layer := "0" } } : DxfArc).end_angle
      ({ a with common := { a.common with layer := "0" } } : DxfArc).radius = true := hv
  refine ⟨⟨(arc_write_success_iff g s a).2 hv, ?_, ?_, ?_⟩,
    ⟨(arc_write_lowlevel_success_iff g s a).2 hv, ?_, ?_, ?_⟩⟩
  · simp [reported, arc_write_out g s a hv, hl, add_stderr, Streams.eprintf]
  · rw [arc_write_written g s a hv, arc_write_written g s _ hv']
    simp [arc_records, settled_layer, hl, DXF_DEFAULT_LAYER]
  · rw [arc_write_written g s a hv]
    simp [arc_records, settled_layer, hl, DXF_DEFAULT_LAYER, group_append, group_ite,
      group_cons, group_nil]
  · simp [reported, arc_write_lowlevel_out g s a hv, hl, add_stderr, Streams.eprintf]
  · rw [arc_write_lowlevel_written g s a hv, arc_write_lowlevel_written g s _ hv']
    simp [arc_lowlevel_records, settled_layer, hl, DXF_DEFAULT_LAYER]
  · rw [arc_write_lowlevel_written g s a hv]
    simp [arc_lowlevel_records, settled_layer, hl, DXF_DEFAULT_LAYER, group_append, group_ite,
      group_cons, group_nil]

/-- C4 at the sample arc moved to the empty layer. -/
theorem arc_write_empty_layer_witness :
    (arc_checks_pass arcEmptyLayer.start_angle arcEmptyLayer.end_angle arcEmptyLayer.radius = true
      ∧ arcEmptyLayer.common.layer = "")
    ∧ (dxf_arc_write sampleGlobal emptyStreams arcEmptyLayer).status = EXIT_SUCCESS
    ∧ written emptyStreams (dxf_arc_write sampleGlobal emptyStreams arcEmptyLayer)
        = written emptyStreams (dxf_arc_write sampleGlobal emptyStreams sampleArc)
    ∧ group (written emptyStreams (dxf_arc_write_lowlevel_of sampleGlobal emptyStreams
        arcEmptyLayer)) 8 = [⟨8, .str "0"⟩] :=
  ⟨⟨by decide, by decide⟩,
   (arc_write_empty_layer sampleGlobal emptyStreams arcEmptyLayer (by decide) (by decide)).1.1,
   (arc_write_empty_layer sampleGlobal emptyStreams arcEmptyLayer (by decide) (by decide)).1.2.2.1,
   (arc_write_empty_layer sampleGlobal emptyStreams arcEmptyLayer (by decide)
      (by decide)).2.2.2.2⟩

/-! ## Optional and version-gated groups (C6 - C10) -/

/-- C6: in the records of `dxf_arc_write`, of `dxf_arc_write_lowlevel` (both on
success) and of `dxf_write_hatch`, group 39 is present exactly when
`thickness != 0.0`, group 62 exactly when `color != DXF_COLOR_BYLAYER`, group 6
exactly when the linetype differs from `DXF_DEFAULT_LINETYPE`, group 5 exactly
when `id_code != -1`, and group 67 exactly when `paperspace == DXF_PAPERSPACE`. -/
theorem optional_header_groups (g : Global) (s : Streams) (a : DxfArc) (h : DxfHatchHeader) :
    ((dxf_arc_write g s a).status = EXIT_SUCCESS →
      (has_group (written s (dxf_arc_write g s a)) 39 = true
          ↔ a.common.thickness.ne Double.zero = true)
      ∧ (has_group (written s (dxf_arc_write g s a)) 62 = true
          ↔ a.common.color ≠ g.DXF_COLOR_BYLAYER)
      ∧ (has_group (written s (dxf_arc_write g s a)) 6 = true
          ↔ a.common.linetype ≠ DXF_DEFAULT_LINETYPE)
      ∧ (has_group (written s (dxf_arc_write g s a)) 5 = true ↔ a.common.id_code ≠ -1)
      ∧ (has_group (written s (dxf_arc_write g s a)) 67 = true
          ↔ a.common.paperspace = g.DXF_PAPERSPACE))
    ∧ ((dxf_arc_write_lowlevel_of g s a).status = EXIT_SUCCESS →
      (has_group (written s (dxf_arc_write_lowlevel_of g s a)) 39 = true
          ↔ a.common.thickness.ne Double.zero = true)
      ∧ (has_group (written s (dxf_arc_write_lowlevel_of g s a)) 62 = true
          ↔ a.common.color ≠ g.DXF_COLOR_BYLAYER)
      ∧ (has_group (written s (dxf_arc_write_lowlevel_of g s a)) 6 = true
          ↔ a.common.linetype ≠ DXF_DEFAULT_LINETYPE)
      ∧ (has_group (written s (dxf_arc_write_lowlevel_of g s a)) 5 = true
          ↔ a.common.id_code ≠ -1)
      ∧ (has_group (written s (dxf_arc_write_lowlevel_of g s a)) 67 = true
          ↔ a.common.paperspace = g.DXF_PAPERSPACE))
    ∧ ((has_group (written s (dxf_write_hatch g s h)) 39 = true
          ↔ h.thickness.ne Double.zero = true)
      ∧ (has_group (written s (dxf_write_hatch g s h)) 62 = true
          ↔ h.color ≠ g.DXF_COLOR_BYLAYER)
      ∧ (has_group (written s (dxf_write_hatch g s h)) 6 = true
          ↔ h.linetype ≠ DXF_DEFAULT_LINETYPE)
      ∧ (has_group (written s (dxf_write_hatch g s h)) 5 = true ↔ h.id_code ≠ -1)
      ∧ (has_group (written s (dxf_write_hatch g s h)) 67 = true
          ↔ h.paperspace = g.DXF_PAPERSPACE)) := by
  refine ⟨fun hs => ?_, fun hs => ?_, ?_⟩
  · rw [arc_write_written g s a ((arc_write_success_iff g s a).1 hs)]
    simp [arc_records, has_group_append, has_group_ite, has_group_cons, has_group_nil]
  · rw [arc_write_lowlevel_written g s a ((arc_write_lowlevel_success_iff g s a).1 hs)]
    simp [arc_lowlevel_records, has_group_append, has_group_ite, has_group_cons, has_group_nil]
  · rw [write_hatch_written g s h]
    simp [hatch_records, has_group_append, has_group_ite, has_group_cons, has_group_nil]

/-- C7: for every arc that passes the tests, `dxf_arc_write` and
`dxf_arc_write_lowlevel` write the groups 210, 220, 230, in that order and
directly after group 30, exactly when `acad_version_number >= AutoCAD_12`;
below `AutoCAD_12` no record of group 210, 220 or 230 is written. -/
theorem arc_extrusion_gate (g : Global) (s : Streams) (a : DxfArc)
    (hv : arc_checks_pass a.start_angle a.end_angle a.radius = true) :
    ((a.common.acad_version_number ≥ g.AutoCAD_12 ↔
        ∃ pre post, written s (dxf_arc_write g s a)
          = pre ++ [⟨30, .real a.z0⟩, ⟨210, .real a.extr_x0⟩, ⟨220, .real a.extr_y0⟩,
              ⟨230, .real a.extr_z0⟩] ++ post)
      ∧ (a.common.acad_version_number < g.AutoCAD_12 →
          has_group (written s (dxf_arc_write g s a)) 210 = false
          ∧ has_group (written s (dxf_arc_write g s a)) 220 = false
          ∧ has_group (written s (dxf_arc_write g s a)) 230 = false))
    ∧ ((a.common.acad_version_number ≥ g.AutoCAD_12 ↔
        ∃ pre post, written s (dxf_arc_write_lowlevel_of g s a)
          = pre ++ [⟨30, .real a.z0⟩, ⟨210, .real a.extr_x0⟩, ⟨220, .real a.extr_y0⟩,
              ⟨230, .real a.extr_z0⟩] ++ post)
      ∧ (a.common.acad_version_number < g.AutoCAD_12 →
          has_group (written s (dxf_arc_write_lowlevel_of g s a)) 210 = false
          ∧ has_group (written s (dxf_arc_write_lowlevel_of g s a)) 220 = false
          ∧ has_group (written s (dxf_arc_write_lowlevel_of g s a)) 230 = false)) := by
  rw [arc_write_written g s a hv, arc_write_lowlevel_written g s a hv]
  have key : ∀ w : List Record,
      (a.common.acad_version_number < g.AutoCAD_12 → has_group w 210 = false) →
      (∃ pre post, w = pre ++ [⟨30, .real a.z0⟩, ⟨210, .real a.extr_x0⟩,
          ⟨220, .real a.extr_y0⟩, ⟨230, .real a.extr_z0⟩] ++ post) →
      a.common.acad_version_number ≥ g.AutoCAD_12 := by
    intro w hw ⟨pre, post, he⟩
    by_contra hc
    have h210 := hw (lt_of_not_ge hc)
    rw [he] at h210
    simp [has_group_append, has_group_cons] at h210
  have hno : a.common.acad_version_number < g.AutoCAD_12 →
      has_group (arc_records g a) 210 = false ∧ has_group (arc_records g a) 220 = false
        ∧ has_group (arc_records g a) 230 = false := by
    intro hlt
    simp [arc_records, has_group_append, has_group_ite, has_group_cons, has_group_nil,
      not_le.2 hlt]
  have hnol : a.common.acad_version_number < g.AutoCAD_12 →
      has_group (arc_lowlevel_records g a) 210 = false
        ∧ has_group (arc_lowlevel_records g a) 220 = false
        ∧ has_group (arc_lowlevel_records g a) 230 = false := by
    intro hlt
    simp [arc_lowlevel_records, has_group_append, has_group_ite, has_group_cons, has_group_nil,
      not_le.2 hlt]
  refine ⟨⟨⟨fun hge => ?_, key _ fun hlt => (hno hlt).1⟩, hno⟩,
    ⟨⟨fun hge => ?_, key _ fun hlt => (hnol hlt).1⟩, hnol⟩⟩
  · refine ⟨[⟨0, .str "ARC"⟩]
      ++ (if a.common.acad_version_number ≥ g.AutoCAD_14 then [⟨100, .str "AcDbArc"⟩] else [])
      ++ (if a.common.id_code ≠ -1 then [⟨5, .hex a.common.id_code⟩] else [])
      ++ (if a.common.linetype ≠ DXF_DEFAULT_LINETYPE then [⟨6, .str a.common.linetype⟩]
          else [])
      ++ [⟨8, .str (settled_layer a.common.layer)⟩] ++ [⟨10, .real a.x0⟩]
      ++ [⟨20, .real a.y0⟩],
      (if a.common.thickness.ne Double.zero then [⟨39, .real a.common.thickness⟩] else [])
      ++ [⟨40, .real a.radius⟩] ++ [⟨50, .real a.start_angle⟩] ++ [⟨51, .real a.end_angle⟩]
      ++ (if a.common.color ≠ g.DXF_COLOR_BYLAYER then [⟨62, .dec a.common.color⟩] else [])
      ++ (if a.common.paperspace = g.DXF_PAPERSPACE then [⟨67, .dec g.DXF_PAPERSPACE⟩]
          else []), ?_⟩
    simp [arc_records, hge]
  · refine ⟨[⟨0, .str "ARC"⟩]
      ++ (if a.common.acad_version_number ≥ g.AutoCAD_14 then [⟨100, .str "AcDbCircle"⟩]
          else [])
      ++ (if a.common.id_code ≠ -1 then [⟨5, .hex a.common.id_code⟩] else [])
      ++ (if a.common.linetype ≠ DXF_DEFAULT_LINETYPE then [⟨6, .str a.common.linetype⟩]
          else [])
      ++ [⟨8, .str (settled_layer a.common.layer)⟩] ++ [⟨10, .real a.x0⟩]
      ++ [⟨20, .real a.y0⟩],
      (if a.common.thickness.ne Double.zero then [⟨39, .real a.common.thickness⟩] else [])
      ++ [⟨40, .real a.radius⟩]
      ++ (if a.common.acad_version_number ≥ g.AutoCAD_14 then [⟨100, .str "AcDbArc"⟩] else [])
      ++ [⟨50, .real a.start_angle⟩] ++ [⟨51, .real a.end_angle⟩]
      ++ (if a.common.color ≠ g.DXF_COLOR_BYLAYER then [⟨62, .dec a.common.color⟩] else [])
      ++ (if a.common.paperspace = g.DXF_PAPERSPACE then [⟨67, .dec g.DXF_PAPERSPACE⟩]
          else []), ?_⟩
    simp [arc_lowlevel_records, hge]

/-- C8: for every arc that passes the tests, the records of `dxf_arc_write` and
of `dxf_arc_write_lowlevel` hold a group-100 record exactly when
`acad_version_number >= AutoCAD_14`. -/
theorem arc_subclass_marker_gate (g : Global) (s : Streams) (a : DxfArc)
    (hv : arc_checks_pass a.start_angle a.end_angle a.radius = true) :
    (has_group (written s (dxf_arc_write g s a)) 100 = true
        ↔ a.common.acad_version_number ≥ g.AutoCAD_14)
    ∧ (has_group (written s (dxf_arc_write_lowlevel_of g s a)) 100 = true
        ↔ a.common.acad_version_number ≥ g.AutoCAD_14) := by
  rw [arc_write_written g s a hv, arc_write_lowlevel_written g s a hv]
  constructor
  · simp [arc_records, has_group_append, has_group_ite, has_group_cons, has_group_nil]
  · simp [arc_lowlevel_records, has_group_append, has_group_ite, has_group_cons, has_group_nil]

/-- C6 at an arc and a hatch header with every optional member away from its
default (id-code 26, linetype "DASHED", thickness 2, color 1, paperspace):
each of the groups 39, 62, 6, 5, 67 is written by `dxf_arc_write`, by
`dxf_arc_write_lowlevel` and by `dxf_write_hatch`; and at the sample arc, whose
optional members are at their defaults, `dxf_arc_write` writes no group 39. -/
theorem optional_header_groups_witness :
    ((dxf_arc_write sampleGlobal emptyStreams arcAllOptional).status = EXIT_SUCCESS
      ∧ has_group (written emptyStreams (dxf_arc_write sampleGlobal emptyStreams arcAllOptional))
          39 = true
      ∧ has_group (written emptyStreams (dxf_arc_write sampleGlobal emptyStreams arcAllOptional))
          62 = true
      ∧ has_group (written emptyStreams (dxf_arc_write sampleGlobal emptyStreams arcAllOptional))
          6 = true
      ∧ has_group (written emptyStreams (dxf_arc_write sampleGlobal emptyStreams arcAllOptional))
          5 = true
      ∧ has_group (written emptyStreams (dxf_arc_write sampleGlobal emptyStreams arcAllOptional))
          67 = true)
    ∧ ((dxf_arc_write_lowlevel_of sampleGlobal emptyStreams arcAllOptional).status
          = EXIT_SUCCESS
      ∧ has_group (written emptyStreams
          (dxf_arc_write_lowlevel_of sampleGlobal emptyStreams arcAllOptional)) 39 = true
      ∧ has_group (written emptyStreams
          (dxf_arc_write_lowlevel_of sampleGlobal emptyStreams arcAllOptional)) 62 = true
      ∧ has_group (written emptyStreams
          (dxf_arc_write_lowlevel_of sampleGlobal emptyStreams arcAllOptional)) 6 = true
      ∧ has_group (written emptyStreams
          (dxf_arc_write_lowlevel_of sampleGlobal emptyStreams arcAllOptional)) 5 = true
      ∧ has_group (written emptyStreams
          (dxf_arc_write_lowlevel_of sampleGlobal emptyStreams arcAllOptional)) 67 = true)
    ∧ (has_group (written emptyStreams
          (dxf_write_hatch sampleGlobal emptyStreams hatchAllOptional)) 39 = true
      ∧ has_group (written emptyStreams
          (dxf_write_hatch sampleGlobal emptyStreams hatchAllOptional)) 62 = true
      ∧ has_group (written emptyStreams
          (dxf_write_hatch sampleGlobal emptyStreams hatchAllOptional)) 6 = true
      ∧ has_group (written emptyStreams
          (dxf_write_hatch sampleGlobal emptyStreams hatchAllOptional)) 5 = true
      ∧ has_group (written emptyStreams
          (dxf_write_hatch sampleGlobal emptyStreams hatchAllOptional)) 67 = true)
    ∧ ((dxf_arc_write sampleGlobal emptyStreams sampleArc).status = EXIT_SUCCESS
      ∧ ¬ has_group (written emptyStreams (dxf_arc_write sampleGlobal emptyStreams sampleArc))
          39 = true) :=
  ⟨⟨by decide,
    ((optional_header_groups sampleGlobal emptyStreams arcAllOptional hatchAllOptional).1
      (by decide)).1.2 (by decide),
    ((optional_header_groups sampleGlobal emptyStreams arcAllOptional hatchAllOptional).1
      (by decide)).2.1.2 (by decide),
    ((optional_header_groups sampleGlobal emptyStreams arcAllOptional hatchAllOptional).1
      (by decide)).2.2.1.2 (by decide),
    ((optional_header_groups sampleGlobal emptyStreams arcAllOptional hatchAllOptional).1
      (by decide)).2.2.2.1.2 (by decide),
    ((optional_header_groups sampleGlobal emptyStreams arcAllOptional hatchAllOptional).1
      (by decide)).2.2.2.2.2 (by decide)⟩,
   ⟨by decide,
    ((optional_header_groups sampleGlobal emptyStreams arcAllOptional hatchAllOptional).2.1
      (by decide)).1.2 (by decide),
    ((optional_header_groups sampleGlobal emptyStreams arcAllOptional hatchAllOptional).2.1
      (by decide)).2.1.2 (by decide),
    ((optional_header_groups sampleGlobal emptyStreams arcAllOptional hatchAllOptional).2.1
      (by decide)).2.2.1.2 (by decide),
    ((optional_header_groups sampleGlobal emptyStreams arcAllOptional hatchAllOptional).2.1
      (by decide)).2.2.2.1.2 (by decide),
    ((optional_header_groups sampleGlobal emptyStreams arcAllOptional hatchAllOptional).2.1
      (by decide)).2.2.2.2.2 (by decide)⟩,
   ⟨(optional_header_groups sampleGlobal emptyStreams arcAllOptional hatchAllOptional).2.2.1.2
      (by decide),
    (optional_header_groups sampleGlobal emptyStreams arcAllOptional hatchAllOptional).2.2.2.1.2
      (by decide),
    (optional_header_groups sampleGlobal emptyStreams arcAllOptional hatchAllOptional).2.2.2.2.1.2
      (by decide),
    (optional_header_groups sampleGlobal emptyStreams arcAllOptional
      hatchAllOptional).2.2.2.2.2.1.2 (by decide),
    (optional_header_groups sampleGlobal emptyStreams arcAllOptional
      hatchAllOptional).2.2.2.2.2.2.2 (by decide)⟩,
   ⟨by decide,
    fun h => absurd
      (((optional_header_groups sampleGlobal emptyStreams sampleArc sampleHatch).1
        (by decide)).1.1 h) (by decide)⟩⟩

/-- C7 at the sample arc written for version 14, with `AutoCAD_12 = 12`: the
extrusion groups follow group 30. -/
theorem arc_extrusion_gate_witness :
    arc_checks_pass sampleArcR14.start_angle sampleArcR14.end_angle sampleArcR14.radius = true
    ∧ ∃ pre post, written emptyStreams (dxf_arc_write sampleGlobal emptyStreams sampleArcR14)
        = pre ++ [⟨30, .real sampleArcR14.z0⟩, ⟨210, .real sampleArcR14.extr_x0⟩,
            ⟨220, .real sampleArcR14.extr_y0⟩, ⟨230, .real sampleArcR14.extr_z0⟩] ++ post :=
  ⟨by decide,
   (arc_extrusion_gate sampleGlobal emptyStreams sampleArcR14 (by decide)).1.1.1 (by decide)⟩

/-- C8 at the sample arc written for version 14, with `AutoCAD_14 = 14`: a
group-100 record is written by both functions. -/
theorem arc_subclass_marker_gate_witness :
    arc_checks_pass sampleArcR14.start_angle sampleArcR14.end_angle sampleArcR14.radius = true
    ∧ has_group (written emptyStreams (dxf_arc_write sampleGlobal emptyStreams sampleArcR14)) 100
        = true
    ∧ has_group (written emptyStreams
        (dxf_arc_write_lowlevel_of sampleGlobal emptyStreams sampleArcR14)) 100 = true :=
  ⟨by decide,
   (arc_subclass_marker_gate sampleGlobal emptyStreams sampleArcR14 (by decide)).1.2 (by decide),
   (arc_subclass_marker_gate sampleGlobal emptyStreams sampleArcR14 (by decide)).2.2 (by decide)⟩

/-- C9, refuted as stated: `dxf_write_hatch` has no version parameter; the
header of the sample hatch holds the subclass marker and the three extrusion
groups, and it is the same header when every version threshold of `global.h`
is 1000000, above every version number. -/
theorem hatch_header_not_version_gated :
    written emptyStreams (dxf_write_hatch sampleGlobal emptyStreams sampleHatch)
      = [⟨0, .str "HATCH"⟩, ⟨100, .str "AcDbHatch"⟩, ⟨2, .str "SOLID"⟩, ⟨8, .str "0"⟩,
         ⟨10, .real Double.zero⟩, ⟨20, .real Double.zero⟩, ⟨30, .real Double.zero⟩,
         ⟨210, .real Double.zero⟩, ⟨220, .real Double.zero⟩, ⟨230, .real (Double.ofInt 1)⟩,
         ⟨47, .real (Double.ofInt 1)⟩, ⟨70, .dec 1⟩, ⟨71, .dec 0⟩, ⟨75, .dec 0⟩,
         ⟨78, .dec 0⟩, ⟨98, .dec 0⟩, ⟨91, .dec 0⟩]
    ∧ written emptyStreams (dxf_write_hatch lateGlobal emptyStreams sampleHatch)
      = written emptyStreams (dxf_write_hatch sampleGlobal emptyStreams sampleHatch) := by
  decide

/-- C9, amended: for every input, `dxf_write_hatch` writes the subclass marker
`100 AcDbHatch` directly after the group-0 record, and the extrusion groups
210, 220, 230, in that order, directly after group 30. -/
theorem hatch_header_marker_and_extrusion (g : Global) (s : Streams) (h : DxfHatchHeader) :
    ∃ mid post, written s (dxf_write_hatch g s h)
      = [⟨0, .str "HATCH"⟩, ⟨100, .str "AcDbHatch"⟩] ++ mid
        ++ [⟨30, .real h.z0⟩, ⟨210, .real h.extr_x0⟩, ⟨220, .real h.extr_y0⟩,
            ⟨230, .real h.extr_z0⟩] ++ post
      ∧ has_group mid 100 = false ∧ has_group post 100 = false
      ∧ has_group mid 210 = false ∧ has_group post 210 = false
      ∧ has_group mid 220 = false ∧ has_group post 220 = false
      ∧ has_group mid 230 = false ∧ has_group post 230 = false := by
  refine ⟨[⟨2, .str h.pattern_name⟩]
      ++ (if h.id_code ≠ -1 then [⟨5, .hex h.id_code⟩] else [])
      ++ (if h.linetype ≠ DXF_DEFAULT_LINETYPE then [⟨6, .str h.linetype⟩] else [])
      ++ [⟨8, .str (settled_layer h.layer)⟩] ++ [⟨10, .real h.x0⟩] ++ [⟨20, .real h.y0⟩],
    (if h.thickness.ne Double.zero then [⟨39, .real h.thickness⟩] else [])
      ++ (if h.solid_fill = 0 then [⟨42, .real h.pattern_scale⟩] else [])
      ++ [⟨47, .real h.pixel_size⟩]
      ++ (if h.solid_fill = 0 then [⟨52, .real h.pattern_angle⟩] else [])
      ++ (if h.color ≠ g.DXF_COLOR_BYLAYER then [⟨62, .dec h.color⟩] else [])
      ++ (if h.paperspace = g.DXF_PAPERSPACE then [⟨67, .dec g.DXF_PAPERSPACE⟩] else [])
      ++ [⟨70, .dec h.solid_fill⟩] ++ [⟨71, .dec h.associative⟩] ++ [⟨75, .dec h.style⟩]
      ++ (if h.solid_fill = 0 then [⟨77, .dec h.pattern_double⟩] else [])
      ++ [⟨78, .dec h.pattern_def_lines⟩] ++ [⟨98, .dec h.seed_points⟩]
      ++ [⟨91, .dec h.pattern_boundary_paths⟩], ?_, ?_⟩
  · rw [write_hatch_written g s h]
    simp [hatch_records]
  · simp [has_group_append, has_group_ite, has_group_cons, has_group_nil]

/-- C10: for every input, `dxf_write_hatch` returns `EXIT_SUCCESS` and writes
exactly one record of group 91; it carries `pattern_boundary_paths`, also when
that count is 0, and it is the last record written. -/
theorem hatch_boundary_path_count (g : Global) (s : Streams) (h : DxfHatchHeader) :
    (dxf_write_hatch g s h).status = EXIT_SUCCESS
      ∧ group (written s (dxf_write_hatch g s h)) 91 = [⟨91, .dec h.pattern_boundary_paths⟩]
      ∧ (written s (dxf_write_hatch g s h)).getLast?
          = some ⟨91, .dec h.pattern_boundary_paths⟩ := by
  refine ⟨rfl, ?_, ?_⟩
  · rw [write_hatch_written g s h]
    simp [hatch_records, group_append, group_ite, group_cons, group_nil]
  · rw [write_hatch_written g s h]
    unfold hatch_records
    exact List.getLast?_concat _

/-! ## Reading back what was written (C5) -/

theorem fscanf_line_error (fp : InStream) : (fscanf_line fp).2.error = fp.error := by
  unfold fscanf_line
  dsimp only
  split_ifs <;> rfl

/-- A pass of the loop body on a `temp_string` that is none of the known tags
leaves `temp_string` and the stream as they were. -/
theorem arc_read_body_unknown (g : Global) (fn : String) (v : Int) (r : ArcReader)
    (ht : r.temp_string ∉ arc_read_tags) :
    (dxf_arc_read_body g fn v r).temp_string = r.temp_string
      ∧ (dxf_arc_read_body g fn v r).fp = r.fp := by
  simp only [arc_read_tags, List.mem_cons, List.mem_singleton, not_or, List.not_mem_nil,
    not_false_eq_true, and_true] at ht
  obtain ⟨h5, h6, h8, h10, h20, h30, h39, h40, h50, h51, h62, h67, h100, h210, h220, h230,
    h999⟩ := ht
  unfold dxf_arc_read_body
  simp only [h5, h6, h8, h10, h20, h30, h39, h40, h50, h51, h62, h67, h100, h210, h220, h230,
    h999, if_false, and_false]
  split_ifs <;> exact ⟨rfl, rfl⟩

/-- The loop never ends once `temp_string` is neither "0" nor a known tag and
the stream has no error: no pass changes `temp_string`. -/
theorem arc_read_loop_unknown (g : Global) (fn : String) (v : Int) (fuel : Nat) :
    ∀ r : ArcReader, r.temp_string ≠ "0" → r.temp_string ∉ arc_read_tags →
      r.fp.error = false → dxf_arc_read_loop g fn v fuel r = none := by
  induction fuel with
  | zero => intro r _ _ _; rfl
  | succ n ih =>
    intro r h0 ht he
    obtain ⟨e1, e2⟩ := arc_read_body_unknown g fn v r ht
    unfold dxf_arc_read_loop
    simp only [h0, he, if_false, Bool.false_eq_true]
    exact ih _ (by rw [e1]; exact h0) (by rw [e1]; exact ht) (by rw [e2]; exact he)

/-- A pass of the loop body on "100" below `AutoCAD_12` takes neither the
subclass marker branch nor a later one: `temp_string` and the stream stay as
they were. -/
theorem arc_read_body_marker_low (g : Global) (fn : String) (v : Int) (r : ArcReader)
    (ht : r.temp_string = "100") (hv : ¬ v ≥ g.AutoCAD_12) :
    (dxf_arc_read_body g fn v r).temp_string = r.temp_string
      ∧ (dxf_arc_read_body g fn v r).fp = r.fp := by
  unfold dxf_arc_read_body
  simp only [ht, hv, false_and, if_false]
  simp only [show ("100" : String) ≠ "5" by decide, show ("100" : String) ≠ "6" by decide,
    show ("100" : String) ≠ "8" by decide, show ("100" : String) ≠ "10" by decide,
    show ("100" : String) ≠ "20" by decide, show ("100" : String) ≠ "30" by decide,
    show ("100" : String) ≠ "38" by decide, show ("100" : String) ≠ "39" by decide,
    show ("100" : String) ≠ "40" by decide, show ("100" : String) ≠ "50" by decide,
    show ("100" : String) ≠ "51" by decide, show ("100" : String) ≠ "62" by decide,
    show ("100" : String) ≠ "67" by decide, show ("100" : String) ≠ "210" by decide,
    show ("100" : String) ≠ "220" by decide, show ("100" : String) ≠ "230" by decide,
    show ("100" : String) ≠ "999" by decide, if_false, and_false]
  exact ⟨ht, trivial⟩

/-- The loop never ends once `temp_string` is "100" below `AutoCAD_12`. -/
theorem arc_read_loop_marker_low (g : Global) (fn : String) (v : Int) (fuel : Nat)
    (hv : ¬ v ≥ g.AutoCAD_12) :
    ∀ r : ArcReader, r.temp_string = "100" → r.fp.error = false →
      dxf_arc_read_loop g fn v fuel r = none := by
  induction fuel with
  | zero => intro r _ _; rfl
  | succ n ih =>
    intro r ht he
    obtain ⟨e1, e2⟩ := arc_read_body_marker_low g fn v r ht hv
    unfold dxf_arc_read_loop
    simp only [ht, he, show ("100" : String) ≠ "0" by decide, if_false, Bool.false_eq_true]
    exact ih _ (by rw [e1]; exact ht) (by rw [e2]; exact he)

/-- The first line of a rendered record is its padded group code, for the four
codes that can follow the record (0, "ARC"). -/
theorem fscanf_line_record (k : Nat) (v : Value) (rest : List Char)
    (hk : k = 100 ∨ k = 5 ∨ k = 6 ∨ k = 8) :
    fscanf_line ⟨renderRecords [⟨k, v⟩] ++ rest, false, false⟩
      = (some (fmt_code k), ⟨'\n' :: (v.render.toList ++ '\n' :: rest), false, false⟩) := by
  rcases hk with rfl | rfl | rfl | rfl
  all_goals
    simp [fscanf_line, renderRecords, Record.render,
      show fmt_code 100 = "100" by decide, show fmt_code 5 = "  5" by decide,
      show fmt_code 6 = "  6" by decide, show fmt_code 8 = "  8" by decide,
      List.takeWhile]

/-- The record that follows (0, "ARC") in the output of `dxf_arc_write`. -/
theorem arc_records_second (g : Global) (a : DxfArc) :
    ∃ k val rs, (arc_records g a).tail = ⟨k, val⟩ :: rs
      ∧ ((k = 100 ∧ val = .str "AcDbArc") ∨ k = 5 ∨ k = 6 ∨ k = 8) := by
  unfold arc_records
  by_cases h14 : a.common.acad_version_number ≥ g.AutoCAD_14
  · exact ⟨100, .str "AcDbArc", _, by simp [h14]; rfl, Or.inl ⟨rfl, rfl⟩⟩
  · by_cases hid : a.common.id_code ≠ -1
    · exact ⟨5, _, _, by simp [h14, hid]; exact ⟨rfl, rfl⟩, Or.inr (Or.inl rfl)⟩
    · by_cases hlt : a.common.linetype ≠ DXF_DEFAULT_LINETYPE
      · exact ⟨6, _, _, by simp [h14, hid, hlt]; exact ⟨rfl, rfl⟩, Or.inr (Or.inr (Or.inl rfl))⟩
      · exact ⟨8, _, _, by simp [h14, hid, hlt]; exact ⟨rfl, rfl⟩, Or.inr (Or.inr (Or.inr rfl))⟩

theorem fscanf_s_marker (rest : List Char) :
    fscanf_s ⟨'\n' :: ((Value.str "AcDbArc").render.toList ++ '\n' :: rest), false, false⟩
      = (some "AcDbArc", ⟨skip_ws ('\n' :: rest), false, false⟩) := by
  simp [fscanf_s, skip_ws, Value.render, isspace, List.dropWhile, List.takeWhile]

/-- One pass of the loop body on "100" at or above `AutoCAD_12` puts the
marker value in `temp_string`. -/
theorem arc_read_body_marker_high (g : Global) (fn : String) (v : Int) (r : ArcReader)
    (rest : List Char) (ht : r.temp_string = "100") (hv : v ≥ g.AutoCAD_12)
    (hfp : r.fp = ⟨'\n' :: ((Value.str "AcDbArc").render.toList ++ '\n' :: rest), false, false⟩) :
    (dxf_arc_read_body g fn v r).temp_string = "AcDbArc"
      ∧ (dxf_arc_read_body g fn v r).fp.error = false := by
  unfold dxf_arc_read_body
  simp only [ht, hv, true_and, if_true]
  simp only [show ("100" : String) ≠ "5" by decide, show ("100" : String) ≠ "6" by decide,
    show ("100" : String) ≠ "8" by decide, show ("100" : String) ≠ "10" by decide,
    show ("100" : String) ≠ "20" by decide, show ("100" : String) ≠ "30" by decide,
    show ("100" : String) ≠ "38" by decide, show ("100" : String) ≠ "39" by decide,
    show ("100" : String) ≠ "40" by decide, show ("100" : String) ≠ "50" by decide,
    show ("100" : String) ≠ "51" by decide, show ("100" : String) ≠ "62" by decide,
    show ("100" : String) ≠ "67" by decide, if_false, and_false]
  simp only [ArcReader.next_line, hfp, fscanf_s_marker, ArcReader.store_temp]
  exact ⟨trivial, trivial⟩

/-- The call `dxf_arc_read` is killed at the first test of its loop condition,
whatever it is given: `temp_string` is the null pointer, nothing is stored
through it, and `strcmp` reads through it. -/
theorem arc_read_killed (g : Global) (fuel : Nat) (fn : String) (fp : InStream) (ln : Int)
    (a : DxfArc) (v : Int) : dxf_arc_read g (fuel + 1) fn fp ln a v = Run.killed := rfl

/-- For every arc that `dxf_arc_write` accepts, `dxf_arc_read_buffered` never returns on
the records written for it followed by a group code 0, whatever the version
numbers, the bound on the passes of the loop, the line number and the arc the
reader starts from. -/
theorem arc_read_of_any_write_never_returns (g : Global) (a : DxfArc)
    (hv : arc_checks_pass a.start_angle a.end_angle a.radius = true)
    (fuel : Nat) (fn : String) (line_number : Int) (dxf_arc : DxfArc) (v : Int) :
    dxf_arc_read_buffered g fuel fn (arc_read_input g a) line_number dxf_arc v = none := by
  obtain ⟨k, val, rs, htail, hk⟩ := arc_records_second g a
  have hin : arc_read_input g a
      = ⟨renderRecords [⟨k, val⟩] ++ (renderRecords rs ++ "  0\n".toList), false, false⟩ := by
    simp [arc_read_input, arc_write_written g emptyStreams a hv, htail, renderRecords]
  have hline := fscanf_line_record k val (renderRecords rs ++ "  0\n".toList)
    (by rcases hk with ⟨h, _⟩ | h | h | h <;> simp [h])
  unfold dxf_arc_read_buffered
  simp only [hin, hline, Option.getD_some]
  have c100 : fmt_code 100 = "100" := by decide
  have cm : ("AcDbArc" : String) ≠ "0" ∧ ("AcDbArc" : String) ∉ arc_read_tags := by decide
  have c5 : fmt_code 5 ≠ "0" ∧ fmt_code 5 ∉ arc_read_tags := by decide
  have c6 : fmt_code 6 ≠ "0" ∧ fmt_code 6 ∉ arc_read_tags := by decide
  have c8 : fmt_code 8 ≠ "0" ∧ fmt_code 8 ∉ arc_read_tags := by decide
  rcases hk with ⟨rfl, rfl⟩ | rfl | rfl | rfl
  · by_cases hge : v ≥ g.AutoCAD_12
    · cases fuel with
      | zero => rfl
      | succ n =>
        obtain ⟨e1, e2⟩ := arc_read_body_marker_high g fn v
          { fp := ⟨'\n' :: ((Value.str "AcDbArc").render.toList
                ++ '\n' :: (renderRecords rs ++ "  0\n".toList)), false, false⟩,
            line_number := line_number + 1, dxf_arc := dxf_arc, temp_string := fmt_code 100,
            stderr := [], stdout := [] } _ c100 hge rfl
        unfold dxf_arc_read_loop
        simp only [c100, show ("100" : String) ≠ "0" by decide, if_false, Bool.false_eq_true]
        rw [c100] at e1 e2
        exact arc_read_loop_unknown g fn v n _ (by rw [e1]; exact cm.1) (by rw [e1]; exact cm.2) e2
    · exact arc_read_loop_marker_low g fn v fuel hge _ c100 rfl
  · exact arc_read_loop_unknown g fn v fuel _ c5.1 c5.2 rfl
  · exact arc_read_loop_unknown g fn v fuel _ c6.1 c6.2 rfl
  · exact arc_read_loop_unknown g fn v fuel _ c8.1 c8.2 rfl

/-- C5, the failing input: on the records that `dxf_arc_write` wrote for the
sample arc followed by a group code 0, `dxf_arc_read` is killed at the first
test of its loop condition, and `dxf_arc_read_buffered`, the copy in which
`temp_string` points to a buffer, never returns, whatever the bound on the
passes of the loop, the line number and the arc it starts from; the same holds
when the first record (0, "ARC") is left in the input. -/
theorem arc_read_of_write_never_returns :
    ∀ (fuel : Nat) (line_number : Int) (dxf_arc : DxfArc),
      dxf_arc_read_buffered sampleGlobal fuel "arc.dxf" (arc_read_input sampleGlobal sampleArc)
          line_number dxf_arc 0 = none
      ∧ dxf_arc_read_buffered sampleGlobal fuel "arc.dxf"
          ⟨renderRecords (written emptyStreams (dxf_arc_write sampleGlobal emptyStreams sampleArc))
            ++ "  0\n".toList, false, false⟩
          line_number dxf_arc 0 = none
      ∧ dxf_arc_read sampleGlobal (fuel + 1) "arc.dxf" (arc_read_input sampleGlobal sampleArc)
          line_number dxf_arc 0 = Run.killed
      ∧ dxf_arc_read sampleGlobal (fuel + 1) "arc.dxf"
          ⟨renderRecords (written emptyStreams (dxf_arc_write sampleGlobal emptyStreams sampleArc))
            ++ "  0\n".toList, false, false⟩
          line_number dxf_arc 0 = Run.killed := by
  intro fuel line_number dxf_arc
  refine ⟨?_, ?_, arc_read_killed _ _ _ _ _ _ _, arc_read_killed _ _ _ _ _ _ _⟩
  · unfold dxf_arc_read_buffered
    have h1 : (fscanf_line (arc_read_input sampleGlobal sampleArc)).1 = some "  8" := by decide
    apply arc_read_loop_unknown
    · simp only [h1]; decide
    · simp only [h1]; decide
    · simp only [fscanf_line_error]; rfl
  · unfold dxf_arc_read_buffered
    have h1 : (fscanf_line ⟨renderRecords (written emptyStreams
        (dxf_arc_write sampleGlobal emptyStreams sampleArc)) ++ "  0\n".toList, false, false⟩).1
        = some "  0" := by decide
    apply arc_read_loop_unknown
    · simp only [h1]; decide
    · simp only [h1]; decide
    · simp only [fscanf_line_error]

/-! ## The polyline loop and the loop over the boundary paths -/

theorem vertex_out (s : Streams) (x y b : Double) :
    (dxf_write_hatch_boundary_polyline_vertex s x y b).out = s.add (vertex_records x y b) := by
  simp only [dxf_write_hatch_boundary_polyline_vertex, vertex_records, fprintf_eq_add, add_add,
    ite_add, ite_append_self]

theorem bulge_after_zero (hb : Int) (l : List Double) : bulge_after hb 0 l = l := by
  unfold bulge_after
  split_ifs
  · apply List.ext_getElem?
    intro j
    simp
  · rfl

theorem bulge_after_set (n : Nat) (l : List Double) :
    (bulge_after 0 n l).set n Double.zero = bulge_after 0 (n + 1) l := by
  simp only [bulge_after, if_true]
  apply List.ext_getElem?
  intro j
  simp only [List.getElem?_set, List.getElem?_mapIdx, List.length_mapIdx]
  by_cases h : n = j
  · subst h
    by_cases hl : n < l.length
    · simp [hl]
    · simp [hl, List.getElem?_eq_none (not_lt.1 hl)]
  · cases hj : l[j]? with
    | none => simp [h]
    | some b =>
      have : (j < n + 1) ↔ (j < n) := by omega
      simp [h, this]

theorem bulge_after_set_first (n : Nat) (l : List Double) :
    (bulge_after 0 (n + 1) l).set 0 Double.zero = bulge_after 0 (n + 1) l := by
  simp only [bulge_after, if_true]
  apply List.ext_getElem?
  intro j
  simp only [List.getElem?_set, List.getElem?_mapIdx, List.length_mapIdx]
  by_cases h : 0 = j
  · subst h
    by_cases hl : 0 < l.length
    · simp [hl]
    · simp [hl, List.getElem?_eq_none (not_lt.1 hl)]
  · simp [h]

theorem bulge_after_getD (n j : Nat) (l : List Double) (h : j < n) :
    (bulge_after 0 n l).getD j Double.zero = Double.zero := by
  simp only [bulge_after, if_true, List.getD_eq_getElem?_getD, List.getElem?_mapIdx]
  cases l[j]? <;> simp [h]

theorem vertex_records_zero (x y : Double) :
    vertex_records x y Double.zero = [⟨10, .real x⟩] ++ [⟨20, .real y⟩] := by
  simp [vertex_records, Double.ne, Double.eq, Double.zero]

/-- One pass of the polyline loop after `i` passes: its records and the array
`bulge` it leaves. -/
theorem polyline_pass_eq (hb ic : Int) (x0 y0 bl : List Double) (s : Streams) (i : Nat) :
    dxf_write_hatch_boundary_path_polyline_pass hb ic x0 y0 ⟨s, bulge_after hb i bl⟩ i
      = ⟨s.add (polyline_pass_records hb ic x0 y0 bl i), bulge_after hb (i + 1) bl⟩ := by
  by_cases h : hb = 0
  · subst h
    unfold dxf_write_hatch_boundary_path_polyline_pass polyline_pass_records
    simp only [if_true, bulge_after_set, bulge_after_set_first, vertex_out, add_add,
      bulge_after_getD _ _ _ (Nat.lt_succ_self i), bulge_after_getD _ _ _ (Nat.succ_pos i),
      written_bulge]
    split_ifs <;> simp
  · unfold dxf_write_hatch_boundary_path_polyline_pass polyline_pass_records
    simp only [h, if_false, bulge_after, vertex_out, add_add, written_bulge]
    split_ifs <;> simp

/-- The polyline loop after `n` passes. -/
theorem polyline_loop_eq (hb ic : Int) (x0 y0 bl : List Double) (s : Streams) (n : Nat) :
    (List.range n).foldl (dxf_write_hatch_boundary_path_polyline_pass hb ic x0 y0) ⟨s, bl⟩
      = ⟨s.add ((List.range n).map (polyline_pass_records hb ic x0 y0 bl)).flatten,
          bulge_after hb n bl⟩ := by
  induction n with
  | zero => simp [bulge_after_zero, Streams.add]
  | succ n ih =>
    rw [List.range_succ, List.foldl_append, ih]
    simp [polyline_pass_eq, add_add]

/-- The result of `dxf_write_hatch_boundary_path_polyline`. -/
theorem polyline_eq (s : Streams) (hb ic n : Int) (x0 y0 bl : List Double) :
    dxf_write_hatch_boundary_path_polyline s hb ic n x0 y0 bl
      = { status := EXIT_SUCCESS, out := s.add (polyline_records hb ic n x0 y0 bl),
          x0 := x0, y0 := y0, bulge := bulge_after hb n.toNat bl } := by
  simp only [dxf_write_hatch_boundary_path_polyline, polyline_records, fprintf_eq_add, add_add,
    polyline_loop_eq]

theorem bulge_after_length (hb : Int) (n : Nat) (l : List Double) :
    (bulge_after hb n l).length = l.length := by
  unfold bulge_after
  split_ifs <;> simp

theorem bulge_after_getD_eq (hb : Int) (n j : Nat) (l : List Double) :
    (bulge_after hb n l).getD j Double.zero
      = if hb = 0 ∧ j < n then Double.zero else l.getD j Double.zero := by
  unfold bulge_after
  by_cases h : hb = 0
  · simp only [h, if_true, true_and, List.getD_eq_getElem?_getD, List.getElem?_mapIdx]
    cases l[j]? <;> by_cases hj : j < n <;> simp [hj]
  · simp [h]

theorem bulge_after_idem (hb : Int) (n : Nat) (l : List Double) :
    bulge_after hb n (bulge_after hb n l) = bulge_after hb n l := by
  unfold bulge_after
  split_ifs
  · apply List.ext_getElem?
    intro j
    simp only [List.getElem?_mapIdx]
    cases l[j]? <;> by_cases hj : j < n <;> simp [hj]
  · rfl

theorem written_bulge_after (hb : Int) (n i : Nat) (l : List Double) :
    written_bulge hb (bulge_after hb n l) i = written_bulge hb l i := by
  unfold written_bulge bulge_after
  split_ifs <;> rfl

theorem polyline_records_after (hb ic v : Int) (n : Nat) (x0 y0 l : List Double) :
    polyline_records hb ic v x0 y0 (bulge_after hb n l) = polyline_records hb ic v x0 y0 l := by
  have h : polyline_pass_records hb ic x0 y0 (bulge_after hb n l)
      = polyline_pass_records hb ic x0 y0 l := by
    funext i
    simp [polyline_pass_records, written_bulge_after]
  unfold polyline_records
  rw [h]

theorem boundaries_switch_eq (s : Streams) (t : Int) :
    dxf_write_hatch_boundaries_switch s t = s.eprintf
      "Error: unsupported boundary path edge type encountered in dxf_write_hatch_boundary ().\n" := by
  unfold dxf_write_hatch_boundaries_switch
  split <;> rfl

/-- The loop of `dxf_write_hatch_boundaries` on an edge path with at least one
edge: the first pass reports the edge type as unsupported and fails. -/
theorem boundaries_loop_edges (b : DxfHatchBoundaries) (n : Nat) (s : Streams)
    (x0 y0 bl : List Double) (hf : b.hatch_boundary_path_type_flag = 0)
    (he : 0 < b.hatch_boundary_path_edges) :
    dxf_write_hatch_boundaries_loop b (n + 1) s x0 y0 bl
      = { status := EXIT_FAILURE,
          out := s.eprintf ("Error: unsupported boundary path edge type encountered in "
            ++ "dxf_write_hatch_boundary ().\n"),
          x0 := x0, y0 := y0, bulge := bl } := by
  unfold dxf_write_hatch_boundaries_loop
  simp only [hf, he, if_true, boundaries_switch_eq]
  rfl

/-- The loop of `dxf_write_hatch_boundaries` on an edge path without edges
writes nothing and succeeds. -/
theorem boundaries_loop_no_edges (b : DxfHatchBoundaries) (n : Nat) (s : Streams)
    (x0 y0 bl : List Double) (hf : b.hatch_boundary_path_type_flag = 0)
    (he : ¬ 0 < b.hatch_boundary_path_edges) :
    dxf_write_hatch_boundaries_loop b n s x0 y0 bl
      = { status := EXIT_SUCCESS, out := s, x0 := x0, y0 := y0, bulge := bl } := by
  induction n with
  | zero => rfl
  | succ n ih =>
    unfold dxf_write_hatch_boundaries_loop
    simp only [hf, he, if_true, if_false]
    exact ih

/-- The loop of `dxf_write_hatch_boundaries` on a flag other than 0 and 2: the
first pass reports the path type as unsupported and fails. -/
theorem boundaries_loop_other (b : DxfHatchBoundaries) (n : Nat) (s : Streams)
    (x0 y0 bl : List Double) (h0 : b.hatch_boundary_path_type_flag ≠ 0)
    (h2 : b.hatch_boundary_path_type_flag ≠ 2) :
    dxf_write_hatch_boundaries_loop b (n + 1) s x0 y0 bl
      = { status := EXIT_FAILURE,
          out := s.eprintf ("Error: unsupported boundary path type encountered in "
            ++ "dxf_write_hatch_boundary ().\n"),
          x0 := x0, y0 := y0, bulge := bl } := by
  unfold dxf_write_hatch_boundaries_loop
  simp only [h0, h2, if_false]
  rfl

/-- The loop of `dxf_write_hatch_boundaries` on a polyline path: every pass
writes the same polyline. -/
theorem boundaries_loop_polyline (b : DxfHatchBoundaries) (n : Nat) (s : Streams)
    (x0 y0 bl : List Double) (hf : b.hatch_boundary_path_type_flag = 2) :
    dxf_write_hatch_boundaries_loop b n s x0 y0 bl
      = { status := EXIT_SUCCESS,
          out := s.add (List.replicate n (polyline_records
            b.hatch_boundary_path_polyline_has_bulge b.hatch_boundary_path_polyline_is_closed
            b.hatch_boundary_path_polyline_vertices x0 y0 bl)).flatten,
          x0 := x0, y0 := y0,
          bulge := if n = 0 then bl else bulge_after b.hatch_boundary_path_polyline_has_bulge
            b.hatch_boundary_path_polyline_vertices.toNat bl } := by
  induction n generalizing s bl with
  | zero => simp [dxf_write_hatch_boundaries_loop, Streams.add]
  | succ n ih =>
    unfold dxf_write_hatch_boundaries_loop
    simp only [hf, show (2 : Int) ≠ 0 by decide, if_false, if_true, polyline_eq, ih,
      polyline_records_after, bulge_after_idem, add_add]
    by_cases hn : n = 0
    · simp [hn]
    · simp [hn, List.replicate_succ]

/-! ## Fixed order of the arc records (C11) -/

/-- C11: for every arc that passes the tests, the group codes written by
`dxf_arc_write` are, in order, a subsequence of 0, 100, 5, 6, 8, 10, 20, 30,
210, 220, 230, 39, 40, 50, 51, 62, 67, and each of the codes 0, 8, 10, 20, 30,
40, 50, 51 occurs exactly once, carrying "ARC", the layer (the default layer
for an empty one), `x0`, `y0`, `z0`, `radius`, `start_angle`, `end_angle`. -/
theorem arc_write_fixed_order (g : Global) (s : Streams) (a : DxfArc)
    (hv : arc_checks_pass a.start_angle a.end_angle a.radius = true) :
    ((written s (dxf_arc_write g s a)).map (fun r => r.code)).Sublist
        [0, 100, 5, 6, 8, 10, 20, 30, 210, 220, 230, 39, 40, 50, 51, 62, 67]
      ∧ group (written s (dxf_arc_write g s a)) 0 = [⟨0, .str "ARC"⟩]
      ∧ group (written s (dxf_arc_write g s a)) 8
          = [⟨8, .str (if a.common.layer = "" then "0" else a.common.layer)⟩]
      ∧ group (written s (dxf_arc_write g s a)) 10 = [⟨10, .real a.x0⟩]
      ∧ group (written s (dxf_arc_write g s a)) 20 = [⟨20, .real a.y0⟩]
      ∧ group (written s (dxf_arc_write g s a)) 30 = [⟨30, .real a.z0⟩]
      ∧ group (written s (dxf_arc_write g s a)) 40 = [⟨40, .real a.radius⟩]
      ∧ group (written s (dxf_arc_write g s a)) 50 = [⟨50, .real a.start_angle⟩]
      ∧ group (written s (dxf_arc_write g s a)) 51 = [⟨51, .real a.end_angle⟩] := by
  rw [arc_write_written g s a hv]
  refine ⟨?_, ?_⟩
  · unfold arc_records
    split_ifs <;> simp <;> decide
  · simp [arc_records, settled_layer, DXF_DEFAULT_LAYER, group_append, group_ite, group_cons,
      group_nil]

/-- C11 at the sample arc: its group codes are 0, 8, 10, 20, 30, 40, 50, 51. -/
theorem arc_write_fixed_order_witness :
    arc_checks_pass sampleArc.start_angle sampleArc.end_angle sampleArc.radius = true
      ∧ ((written emptyStreams (dxf_arc_write sampleGlobal emptyStreams sampleArc)).map
          (fun r => r.code)).Sublist
            [0, 100, 5, 6, 8, 10, 20, 30, 210, 220, 230, 39, 40, 50, 51, 62, 67]
      ∧ group (written emptyStreams (dxf_arc_write sampleGlobal emptyStreams sampleArc)) 40
          = [⟨40, .real sampleArc.radius⟩] :=
  ⟨by decide,
   (arc_write_fixed_order sampleGlobal emptyStreams sampleArc (by decide)).1,
   (arc_write_fixed_order sampleGlobal emptyStreams sampleArc (by decide)).2.2.2.2.2.2.1⟩

/-! ## Polyline boundary paths (C12, C13) -/

/-- The records appended by `dxf_write_hatch_boundary_path_polyline`. -/
theorem polyline_written (s : Streams) (hb ic n : Int) (x0 y0 bl : List Double) :
    written s (dxf_write_hatch_boundary_path_polyline s hb ic n x0 y0 bl).toWriteResult
      = polyline_records hb ic n x0 y0 bl := by
  simp [polyline_eq, written, add_fp]

theorem group_flatten_map_length (f : Nat → List Record) (k c : Nat) (l : List Nat)
    (h : ∀ i, (group (f i) k).length = c) :
    (group (l.map f).flatten k).length = c * l.length := by
  induction l with
  | nil => rfl
  | cons a l ih =>
    simp only [List.map_cons, List.flatten_cons, group_append, List.length_append, h a, ih,
      List.length_cons]
    ring

/-- The number of vertex records of `dxf_write_hatch_boundary_path_polyline`,
counted by their group-10 records: `vertices` for a polyline that is not
closed, and twice `vertices` for a closed one. -/
theorem polyline_vertex_count (s : Streams) (hb ic n : Int) (x0 y0 bl : List Double) :
    (group (written s
        (dxf_write_hatch_boundary_path_polyline s hb ic n x0 y0 bl).toWriteResult) 10).length
      = (if ic ≠ 0 then 2 else 1) * n.toNat := by
  rw [polyline_written]
  unfold polyline_records
  simp only [group_append, group_cons, group_nil, List.length_append]
  rw [group_flatten_map_length _ 10 (if ic ≠ 0 then 2 else 1) _ (fun i => by
    unfold polyline_pass_records vertex_records
    split_ifs <;> simp [group_append, group_cons, group_nil])]
  simp

/-- C12, the failing input: for the closed polyline of the two vertices (1, 2)
and (3, 4), `dxf_write_hatch_boundary_path_polyline` writes four vertex
records, the first vertex again after each of the two vertices, where the
closing-duplicate rule asks for three: (1, 2), (3, 4), (1, 2). -/
theorem polyline_closing_vertex_after_every_vertex :
    written emptyStreams (dxf_write_hatch_boundary_path_polyline emptyStreams 0 1 2
        closedX0 closedY0 [Double.zero, Double.zero]).toWriteResult
      = [⟨72, .dec 0⟩, ⟨73, .dec 1⟩, ⟨93, .dec 2⟩,
         ⟨10, .real (Double.ofInt 1)⟩, ⟨20, .real (Double.ofInt 2)⟩,
         ⟨10, .real (Double.ofInt 1)⟩, ⟨20, .real (Double.ofInt 2)⟩,
         ⟨10, .real (Double.ofInt 3)⟩, ⟨20, .real (Double.ofInt 4)⟩,
         ⟨10, .real (Double.ofInt 1)⟩, ⟨20, .real (Double.ofInt 2)⟩] := by
  decide

/-- C13, refuted as stated: with `has_bulge` 0 the call stores `0.0` in the
caller's `bulge` array; the bulges 1 and 2 of the sample polyline are 0
after `dxf_write_hatch_boundary_path_polyline`, and after
`dxf_write_hatch_boundaries` on that polyline path. -/
theorem polyline_write_zeroes_bulge :
    (dxf_write_hatch_boundary_path_polyline emptyStreams 0 1 2 closedX0 closedY0
        sampleBulge).bulge = [Double.zero, Double.zero]
      ∧ (dxf_write_hatch_boundaries emptyStreams sampleBoundaries).bulge
          = [Double.zero, Double.zero]
      ∧ sampleBoundaries.hatch_boundary_path_polyline_bulge
          = [Double.ofInt 1, Double.ofInt 2] := by
  decide

/-- The result of `dxf_write_hatch_boundaries`, by the type flag. -/
theorem boundaries_arrays (s : Streams) (b : DxfHatchBoundaries) :
    (dxf_write_hatch_boundaries s b).x0 = b.hatch_boundary_path_polyline_x0
      ∧ (dxf_write_hatch_boundaries s b).y0 = b.hatch_boundary_path_polyline_y0
      ∧ (dxf_write_hatch_boundaries s b).bulge
          = if b.hatch_boundary_path_type_flag = 2 ∧ 0 < b.hatch_boundary_paths then
              bulge_after b.hatch_boundary_path_polyline_has_bulge
                b.hatch_boundary_path_polyline_vertices.toNat b.hatch_boundary_path_polyline_bulge
            else b.hatch_boundary_path_polyline_bulge := by
  unfold dxf_write_hatch_boundaries
  by_cases h2 : b.hatch_boundary_path_type_flag = 2
  · rw [boundaries_loop_polyline b _ s _ _ _ h2]
    by_cases hp : 0 < b.hatch_boundary_paths
    · have : b.hatch_boundary_paths.toNat ≠ 0 := by omega
      simp [h2, hp, this]
    · have : b.hatch_boundary_paths.toNat = 0 := by omega
      simp [h2, hp, this]
  · simp only [h2, false_and, if_false]
    cases hn : b.hatch_boundary_paths.toNat with
    | zero => exact ⟨rfl, rfl, rfl⟩
    | succ n =>
      by_cases h0 : b.hatch_boundary_path_type_flag = 0
      · by_cases he : 0 < b.hatch_boundary_path_edges
        · rw [boundaries_loop_edges b n s _ _ _ h0 he]
          exact ⟨rfl, rfl, rfl⟩
        · rw [boundaries_loop_no_edges b _ s _ _ _ h0 he]
          exact ⟨rfl, rfl, rfl⟩
      · rw [boundaries_loop_other b n s _ _ _ h0 h2]
        exact ⟨rfl, rfl, rfl⟩

/-- C13, amended: `dxf_write_hatch_boundary_path_polyline`, and
`dxf_write_hatch_boundaries` on a polyline path, leave the arrays `x0` and `y0`
as they were; they leave `bulge` as it was when `has_bulge` is not 0, and with
`has_bulge` 0 they store `0.0` in `bulge[i]` for every `i` below `vertices` and
change no other element.  On a path that is not a polyline, or with no path,
`dxf_write_hatch_boundaries` changes no array. -/
theorem polyline_write_frame (s : Streams) (has_bulge is_closed vertices : Int)
    (x0 y0 bulge : List Double) (b : DxfHatchBoundaries) :
    ((dxf_write_hatch_boundary_path_polyline s has_bulge is_closed vertices x0 y0 bulge).x0 = x0
      ∧ (dxf_write_hatch_boundary_path_polyline s has_bulge is_closed vertices x0 y0 bulge).y0
          = y0
      ∧ (dxf_write_hatch_boundary_path_polyline s has_bulge is_closed vertices x0 y0
          bulge).bulge.length = bulge.length
      ∧ ∀ j : Nat,
          (dxf_write_hatch_boundary_path_polyline s has_bulge is_closed vertices x0 y0
            bulge).bulge.getD j Double.zero
          = if has_bulge = 0 ∧ (j : Int) < vertices then Double.zero
            else bulge.getD j Double.zero)
    ∧ ((dxf_write_hatch_boundaries s b).x0 = b.hatch_boundary_path_polyline_x0
      ∧ (dxf_write_hatch_boundaries s b).y0 = b.hatch_boundary_path_polyline_y0
      ∧ (dxf_write_hatch_boundaries s b).bulge.length
          = b.hatch_boundary_path_polyline_bulge.length
      ∧ ∀ j : Nat,
          (dxf_write_hatch_boundaries s b).bulge.getD j Double.zero
          = if b.hatch_boundary_path_type_flag = 2 ∧ 0 < b.hatch_boundary_paths
                ∧ b.hatch_boundary_path_polyline_has_bulge = 0
                ∧ (j : Int) < b.hatch_boundary_path_polyline_vertices then Double.zero
            else b.hatch_boundary_path_polyline_bulge.getD j Double.zero) := by
  constructor
  · rw [polyline_eq]
    refine ⟨rfl, rfl, bulge_after_length _ _ _, fun j => ?_⟩
    simp only [bulge_after_getD_eq, Int.lt_toNat]
  · obtain ⟨hx, hy, hb⟩ := boundaries_arrays s b
    refine ⟨hx, hy, ?_, fun j => ?_⟩
    · rw [hb]; split_ifs <;> simp [bulge_after_length]
    · rw [hb]
      by_cases hc : b.hatch_boundary_path_type_flag = 2 ∧ 0 < b.hatch_boundary_paths
      · simp only [hc, if_true, bulge_after_getD_eq, Int.lt_toNat, and_self, true_and]
      · rw [if_neg hc, if_neg]
        intro hcon
        exact hc ⟨hcon.1, hcon.2.1⟩

/-! ## Seed points, pattern data and the pattern scale (C14 - C17) -/

/-- C14, the failing input: for the sample hatch header with two seed points,
`dxf_write_hatch` writes group 98 with the count 2 and then directly group 91;
no seed-point pair (10, 20) follows the count. -/
theorem hatch_seed_points_not_written :
    written emptyStreams (dxf_write_hatch sampleGlobal emptyStreams seededHatch)
      = [⟨0, .str "HATCH"⟩, ⟨100, .str "AcDbHatch"⟩, ⟨2, .str "SOLID"⟩, ⟨8, .str "0"⟩,
         ⟨10, .real Double.zero⟩, ⟨20, .real Double.zero⟩, ⟨30, .real Double.zero⟩,
         ⟨210, .real Double.zero⟩, ⟨220, .real Double.zero⟩, ⟨230, .real (Double.ofInt 1)⟩,
         ⟨47, .real (Double.ofInt 1)⟩, ⟨70, .dec 1⟩, ⟨71, .dec 0⟩, ⟨75, .dec 0⟩,
         ⟨78, .dec 0⟩, ⟨98, .dec 2⟩, ⟨91, .dec 0⟩] := by
  decide

/-- For every input of `dxf_write_hatch` the record of group 98 is directly
followed by the record of group 91, the last one: no seed point is written. -/
theorem hatch_seed_count_then_path_count (g : Global) (s : Streams) (h : DxfHatchHeader) :
    ∃ pre, written s (dxf_write_hatch g s h)
      = pre ++ [⟨98, .dec h.seed_points⟩, ⟨91, .dec h.pattern_boundary_paths⟩] := by
  rw [write_hatch_written g s h]
  unfold hatch_records
  exact ⟨_, by rw [List.append_assoc]; rfl⟩

/-- One pass of the loop of `dxf_write_hatch_pattern_data` writes the six
records of the definition line and no dash length. -/
theorem pattern_data_pass_eq (an x0 y0 x1 y1 : List Double) (items : List Int)
    (lens : List (List Double)) (s : Streams) (i : Nat) :
    dxf_write_hatch_pattern_data_pass an x0 y0 x1 y1 items lens s i
      = s.add (pattern_line_records an x0 y0 x1 y1 items i) := by
  simp only [dxf_write_hatch_pattern_data_pass, is_null, fprintf_eq_add, add_add,
    Bool.false_eq_true, if_false, pattern_line_records]
  rfl

/-- The loop of `dxf_write_hatch_pattern_data` after `n` passes. -/
theorem pattern_data_loop_eq (an x0 y0 x1 y1 : List Double) (items : List Int)
    (lens : List (List Double)) (s : Streams) (n : Nat) :
    (List.range n).foldl (dxf_write_hatch_pattern_data_pass an x0 y0 x1 y1 items lens) s
      = s.add ((List.range n).map (pattern_line_records an x0 y0 x1 y1 items)).flatten := by
  induction n with
  | zero => simp [Streams.add]
  | succ n ih =>
    rw [List.range_succ, List.foldl_append, ih]
    simp [pattern_data_pass_eq, add_add]

theorem has_group_flatten_map (f : Nat → List Record) (k : Nat) (l : List Nat)
    (h : ∀ i, has_group (f i) k = false) : has_group (l.map f).flatten k = false := by
  induction l with
  | nil => rfl
  | cons a l ih => simp [has_group_append, h a, ih]

/-- No call of `dxf_write_hatch_pattern_data` writes a record of group 49. -/
theorem pattern_data_no_dash (s : Streams) (def_lines : Int) (an x0 y0 x1 y1 : List Double)
    (items : List Int) (lens : List (List Double)) :
    has_group (written s
      (dxf_write_hatch_pattern_data s def_lines an x0 y0 x1 y1 items lens)) 49 = false := by
  unfold dxf_write_hatch_pattern_data
  split_ifs with h
  · simp only [written, pattern_data_loop_eq, add_fp, List.drop_left]
    exact has_group_flatten_map _ _ _ (fun i => by
      simp [pattern_line_records, has_group_cons, has_group_nil])
  · simp [written, Streams.eprintf, has_group]

/-- C15, the failing input: for one definition line with the dash-item count 2
and the dash lengths 1 and 2, `dxf_write_hatch_pattern_data` writes the six
records of the line, the last one group 79 with the count 2, and no record of
group 49. -/
theorem pattern_data_dashes_not_written :
    written emptyStreams (dxf_write_hatch_pattern_data emptyStreams 1 [Double.ofInt 45]
        [Double.zero] [Double.zero] [Double.ofInt 1] [Double.ofInt 1] [2]
        [[Double.ofInt 1, Double.ofInt 2]])
      = [⟨53, .real (Double.ofInt 45)⟩, ⟨43, .real Double.zero⟩, ⟨44, .real Double.zero⟩,
         ⟨45, .real (Double.ofInt 1)⟩, ⟨46, .real (Double.ofInt 1)⟩, ⟨79, .dec 2⟩] := by
  decide

/-- C16: for every input of `dxf_write_hatch`, the pattern-scale record, the
pattern-angle record (group 52) and the pattern-double record (group 77) are
written exactly when `solid_fill` is 0; the groups 47, 70, 71, 75, 78, 98 and
91 are written for every input. -/
theorem hatch_solid_fill_omits_pattern (g : Global) (s : Streams) (h : DxfHatchHeader) :
    ((⟨42, .real h.pattern_scale⟩ : Record) ∈ written s (dxf_write_hatch g s h)
        ↔ h.solid_fill = 0)
      ∧ (has_group (written s (dxf_write_hatch g s h)) 42 = true ↔ h.solid_fill = 0)
      ∧ (has_group (written s (dxf_write_hatch g s h)) 52 = true ↔ h.solid_fill = 0)
      ∧ (has_group (written s (dxf_write_hatch g s h)) 77 = true ↔ h.solid_fill = 0)
      ∧ group (written s (dxf_write_hatch g s h)) 47 = [⟨47, .real h.pixel_size⟩]
      ∧ group (written s (dxf_write_hatch g s h)) 70 = [⟨70, .dec h.solid_fill⟩]
      ∧ group (written s (dxf_write_hatch g s h)) 71 = [⟨71, .dec h.associative⟩]
      ∧ group (written s (dxf_write_hatch g s h)) 75 = [⟨75, .dec h.style⟩]
      ∧ group (written s (dxf_write_hatch g s h)) 78 = [⟨78, .dec h.pattern_def_lines⟩]
      ∧ group (written s (dxf_write_hatch g s h)) 98 = [⟨98, .dec h.seed_points⟩]
      ∧ group (written s (dxf_write_hatch g s h)) 91
          = [⟨91, .dec h.pattern_boundary_paths⟩] := by
  rw [write_hatch_written g s h]
  refine ⟨?_, ?_, ?_, ?_, ?_⟩
  · by_cases hs : h.solid_fill = 0 <;> simp [hatch_records, hs]
  · simp [hatch_records, has_group_append, has_group_ite, has_group_cons, has_group_nil]
  · simp [hatch_records, has_group_append, has_group_ite, has_group_cons, has_group_nil]
  · simp [hatch_records, has_group_append, has_group_ite, has_group_cons, has_group_nil]
  · simp [hatch_records, group_append, group_ite, group_cons, group_nil]

/-- C17, the failing input: for the sample pattern-fill hatch header, with
`solid_fill` 0 and the pattern scale 2, `dxf_write_hatch` writes no record of
group 41; the scale is written under group 42. -/
theorem hatch_pattern_scale_under_42 :
    patternHatch.solid_fill = 0
      ∧ group (written emptyStreams (dxf_write_hatch sampleGlobal emptyStreams patternHatch)) 41
          = []
      ∧ group (written emptyStreams (dxf_write_hatch sampleGlobal emptyStreams patternHatch)) 42
          = [⟨42, .real (Double.ofInt 2)⟩] := by
  decide

/-! ## Boundary paths: edges and the type flag (C18 - C20) -/

/-- The status and the records of `dxf_write_hatch_boundaries` on an edge path
with at least one edge, whatever the edge type: `EXIT_FAILURE`, and no
record. -/
theorem boundaries_edges_fail (s : Streams) (b : DxfHatchBoundaries)
    (hp : 0 < b.hatch_boundary_paths) (hf : b.hatch_boundary_path_type_flag = 0)
    (he : 0 < b.hatch_boundary_path_edges) :
    (dxf_write_hatch_boundaries s b).status = EXIT_FAILURE
      ∧ written s (dxf_write_hatch_boundaries s b).toWriteResult = [] := by
  unfold dxf_write_hatch_boundaries
  obtain ⟨n, hn⟩ : ∃ n, b.hatch_boundary_paths.toNat = n + 1 :=
    ⟨b.hatch_boundary_paths.toNat - 1, by omega⟩
  rw [hn, boundaries_loop_edges b n s _ _ _ hf he]
  simp [written, Streams.eprintf]

/-- The status and the records of `dxf_write_hatch_boundaries` on a type flag
other than 0 and 2: `EXIT_FAILURE`, and no record. -/
theorem boundaries_other_flag_fail (s : Streams) (b : DxfHatchBoundaries)
    (hp : 0 < b.hatch_boundary_paths) (h0 : b.hatch_boundary_path_type_flag ≠ 0)
    (h2 : b.hatch_boundary_path_type_flag ≠ 2) :
    (dxf_write_hatch_boundaries s b).status = EXIT_FAILURE
      ∧ written s (dxf_write_hatch_boundaries s b).toWriteResult = [] := by
  unfold dxf_write_hatch_boundaries
  obtain ⟨n, hn⟩ : ∃ n, b.hatch_boundary_paths.toNat = n + 1 :=
    ⟨b.hatch_boundary_paths.toNat - 1, by omega⟩
  rw [hn, boundaries_loop_other b n s _ _ _ h0 h2]
  simp [written, Streams.eprintf]

theorem has_group_flatten_replicate (w : List Record) (k n : Nat)
    (h : has_group w k = false) : has_group (List.replicate n w).flatten k = false := by
  induction n with
  | zero => rfl
  | succ n ih => simp [List.replicate_succ, has_group_append, h, ih]

/-- No record of `dxf_write_hatch_boundary_path_polyline` has the group code
92. -/
theorem polyline_records_no_type_flag (hb ic n : Int) (x0 y0 bl : List Double) :
    has_group (polyline_records hb ic n x0 y0 bl) 92 = false := by
  unfold polyline_records
  simp only [has_group_append, has_group_cons, has_group_nil, Bool.or_false]
  rw [has_group_flatten_map _ _ _ (fun i => by
    unfold polyline_pass_records vertex_records
    split_ifs <;> simp [has_group_append, has_group_cons, has_group_nil])]
  decide

/-- No call of `dxf_write_hatch_boundaries` writes a record of group 92. -/
theorem boundaries_no_type_flag (s : Streams) (b : DxfHatchBoundaries) :
    has_group (written s (dxf_write_hatch_boundaries s b).toWriteResult) 92 = false := by
  unfold dxf_write_hatch_boundaries
  by_cases h2 : b.hatch_boundary_path_type_flag = 2
  · rw [boundaries_loop_polyline b _ s _ _ _ h2]
    simp only [written, add_fp, List.drop_left]
    exact has_group_flatten_replicate _ _ _ (polyline_records_no_type_flag _ _ _ _ _ _)
  · cases hn : b.hatch_boundary_paths.toNat with
    | zero => simp [dxf_write_hatch_boundaries_loop, written, has_group]
    | succ n =>
      by_cases h0 : b.hatch_boundary_path_type_flag = 0
      · by_cases he : 0 < b.hatch_boundary_path_edges
        · rw [boundaries_loop_edges b n s _ _ _ h0 he]
          simp [written, Streams.eprintf, has_group]
        · rw [boundaries_loop_no_edges b _ s _ _ _ h0 he]
          simp [written, has_group]
      · rw [boundaries_loop_other b n s _ _ _ h0 h2]
        simp [written, Streams.eprintf, has_group]

/-- C18, the failing input: for one edge path with one edge of type 1 (line),
`dxf_write_hatch_boundaries` returns `EXIT_FAILURE`, writes no record and
reports the edge type as unsupported. -/
theorem boundaries_rejects_line_edge :
    lineEdgeBoundaries.hatch_boundary_path_edge_type = 1
      ∧ (dxf_write_hatch_boundaries emptyStreams lineEdgeBoundaries).status = EXIT_FAILURE
      ∧ written emptyStreams (dxf_write_hatch_boundaries emptyStreams
          lineEdgeBoundaries).toWriteResult = []
      ∧ reported emptyStreams (dxf_write_hatch_boundaries emptyStreams
          lineEdgeBoundaries).toWriteResult
        = ["Error: unsupported boundary path edge type encountered in "
            ++ "dxf_write_hatch_boundary ().\n"] := by
  decide

/-- C19, the failing input: for the sample polyline path, with the type flag 2,
`dxf_write_hatch_boundaries` returns `EXIT_SUCCESS` and its first record is
group 72 (`has_bulge`); it writes no record of group 92. -/
theorem boundaries_writes_no_type_flag :
    (dxf_write_hatch_boundaries emptyStreams sampleBoundaries).status = EXIT_SUCCESS
      ∧ written emptyStreams (dxf_write_hatch_boundaries emptyStreams
          sampleBoundaries).toWriteResult
        = [⟨72, .dec 0⟩, ⟨73, .dec 1⟩, ⟨93, .dec 2⟩,
           ⟨10, .real (Double.ofInt 1)⟩, ⟨20, .real (Double.ofInt 2)⟩,
           ⟨10, .real (Double.ofInt 1)⟩, ⟨20, .real (Double.ofInt 2)⟩,
           ⟨10, .real (Double.ofInt 3)⟩, ⟨20, .real (Double.ofInt 4)⟩,
           ⟨10, .real (Double.ofInt 1)⟩, ⟨20, .real (Double.ofInt 2)⟩]
      ∧ has_group (written emptyStreams (dxf_write_hatch_boundaries emptyStreams
          sampleBoundaries).toWriteResult) 92 = false := by
  decide

/-- C20, the failing input: for the sample polyline path with the type flag 3
(external and polyline), `dxf_write_hatch_boundaries` returns `EXIT_FAILURE`,
writes no record and reports the path type as unsupported. -/
theorem boundaries_rejects_flag_with_polyline_bit :
    externalPolylineBoundaries.hatch_boundary_path_type_flag = 3
      ∧ (dxf_write_hatch_boundaries emptyStreams externalPolylineBoundaries).status
          = EXIT_FAILURE
      ∧ written emptyStreams (dxf_write_hatch_boundaries emptyStreams
          externalPolylineBoundaries).toWriteResult = []
      ∧ reported emptyStreams (dxf_write_hatch_boundaries emptyStreams
          externalPolylineBoundaries).toWriteResult
        = ["Error: unsupported boundary path type encountered in "
            ++ "dxf_write_hatch_boundary ().\n"] := by
  decide

/-! ## The loop of `dxf_arc_read`, pass by pass -/

theorem dxf_arc_read_buffered_eq (g : Global) (fuel : Nat) (fn : String) (fp : InStream) (ln : Int)
    (a : DxfArc) (v : Int) :
    dxf_arc_read_buffered g fuel fn fp ln a v
      = dxf_arc_read_loop g fn v fuel (dxf_arc_read_buffered_start fp ln a) := rfl

theorem fscanf_s_error (fp : InStream) : (fscanf_s fp).2.error = fp.error := by
  unfold fscanf_s
  dsimp only
  split_ifs <;> rfl

theorem fscanf_d_error (fp : InStream) : (fscanf_d fp).2.error = fp.error := by
  unfold fscanf_d
  dsimp only
  split_ifs <;> rfl

theorem fscanf_x_error (fp : InStream) : (fscanf_x fp).2.error = fp.error := by
  unfold fscanf_x
  dsimp only
  split_ifs <;> rfl

theorem fscanf_lf_error (fp : InStream) : (fscanf_lf fp).2.error = fp.error := by
  unfold fscanf_lf
  by_cases he : fp.error = true
  · rw [if_pos he]
  · rw [if_neg he]
    dsimp only
    cases scan_inf_nan (scan_sign (skip_ws fp.data)).2 with
    | some p => rfl
    | none =>
      dsimp only
      split_ifs <;> rfl

/-- The conversions on values out of range and on input without digits:
"FFFFFFFF" read with `%x` gives -1, "99999999999" read with `%d` gives the low
32 bits 1215752191, a sign without digits is read and the conversion fails,
and "-inf" and "nan" are read with `%lf`. -/
theorem fscanf_samples :
    fscanf_x ⟨"FFFFFFFF\n0\n".toList, false, false⟩
        = (some (-1), ⟨"0\n".toList, false, false⟩)
      ∧ fscanf_x ⟨"1A\n".toList, false, false⟩ = (some 26, ⟨[], false, false⟩)
      ∧ fscanf_d ⟨"99999999999\n".toList, false, false⟩
          = (some 1215752191, ⟨[], false, false⟩)
      ∧ fscanf_d ⟨"-7\n".toList, false, false⟩ = (some (-7), ⟨[], false, false⟩)
      ∧ fscanf_d ⟨"-abc\n".toList, false, false⟩ = (none, ⟨"abc\n".toList, false, false⟩)
      ∧ fscanf_lf ⟨"-abc\n".toList, false, false⟩ = (none, ⟨"abc\n".toList, false, false⟩)
      ∧ fscanf_lf ⟨"-inf\n1\n".toList, false, false⟩
          = (some (Double.inf true), ⟨"1\n".toList, false, false⟩)
      ∧ fscanf_lf ⟨"NaN\n".toList, false, false⟩ = (some Double.nan, ⟨[], false, false⟩) := by
  decide

theorem arc_store_temp_string {α : Type} (r : ArcReader) (res : Option α × InStream)
    (set : DxfArc → α → DxfArc) : (r.store res set).temp_string = r.temp_string := by
  unfold ArcReader.store
  split <;> rfl

theorem arc_store_fp {α : Type} (r : ArcReader) (res : Option α × InStream)
    (set : DxfArc → α → DxfArc) : (r.store res set).fp = res.2 := by
  unfold ArcReader.store
  split <;> rfl

theorem arc_store_line_number {α : Type} (r : ArcReader) (res : Option α × InStream)
    (set : DxfArc → α → DxfArc) : (r.store res set).line_number = r.line_number := by
  unfold ArcReader.store
  split <;> rfl

theorem arc_store_stderr {α : Type} (r : ArcReader) (res : Option α × InStream)
    (set : DxfArc → α → DxfArc) : (r.store res set).stderr = r.stderr := by
  unfold ArcReader.store
  split <;> rfl

theorem arc_store_temp_fp (r : ArcReader) (res : Option String × InStream) :
    (r.store_temp res).fp = res.2 := by
  unfold ArcReader.store_temp
  split <;> rfl

theorem arc_store_temp_line_number (r : ArcReader) (res : Option String × InStream) :
    (r.store_temp res).line_number = r.line_number := by
  unfold ArcReader.store_temp
  split <;> rfl

theorem arc_store_temp_stderr (r : ArcReader) (res : Option String × InStream) :
    (r.store_temp res).stderr = r.stderr := by
  unfold ArcReader.store_temp
  split <;> rfl

theorem arc_store_temp_arc (r : ArcReader) (res : Option String × InStream) :
    (r.store_temp res).dxf_arc = r.dxf_arc := by
  unfold ArcReader.store_temp
  split <;> rfl

/-- The pass of the loop body on "38" at or below `AutoCAD_11`: the condition
of line 207-209 stores `0.0` in `z0` and is false, no later branch matches,
and the pass ends in the unknown-tag branch without reading the value. -/
theorem arc_read_body_elevation_low (g : Global) (fn : String) (v : Int) (r : ArcReader)
    (ht : r.temp_string = "38") (hv : v ≤ g.AutoCAD_11) :
    dxf_arc_read_body g fn v r
      = { r with dxf_arc := { r.dxf_arc with z0 := Double.zero },
                 stderr := r.stderr ++ [arc_unknown_tag_warning fn r.line_number] } := by
  unfold dxf_arc_read_body
  simp only [ht, hv, and_self, if_true]
  simp only [show ("38" : String) ≠ "5" by decide, show ("38" : String) ≠ "6" by decide,
    show ("38" : String) ≠ "8" by decide, show ("38" : String) ≠ "10" by decide,
    show ("38" : String) ≠ "20" by decide, show ("38" : String) ≠ "30" by decide,
    show ("38" : String) ≠ "39" by decide, show ("38" : String) ≠ "40" by decide,
    show ("38" : String) ≠ "50" by decide, show ("38" : String) ≠ "51" by decide,
    show ("38" : String) ≠ "62" by decide, show ("38" : String) ≠ "67" by decide,
    show ("38" : String) ≠ "100" by decide, show ("38" : String) ≠ "210" by decide,
    show ("38" : String) ≠ "220" by decide, show ("38" : String) ≠ "230" by decide,
    show ("38" : String) ≠ "999" by decide, if_false, and_false]

/-- The body of the loop is the plain chain whenever the first two operands of
the condition of lines 207-209 do not both hold. -/
theorem arc_read_body_plain_eq (g : Global) (fn : String) (v : Int) (r : ArcReader)
    (h : ¬ (v ≤ g.AutoCAD_11 ∧ r.temp_string = "38")) :
    dxf_arc_read_body g fn v r = arc_read_body_plain g fn v r := by
  unfold dxf_arc_read_body arc_read_body_plain
  simp only [h, if_false]

/-- The branches of the plain dispatch chain: a property that holds for the
result of every branch holds for the result of the chain. -/
theorem arc_read_body_plain_cases (g : Global) (fn : String) (v : Int) (r : ArcReader)
    (P : ArcReader → Prop)
    (hstore : ∀ (α : Type) (res : Option α × InStream) (set : DxfArc → α → DxfArc),
      res.2.error = r.fp.error → r.temp_string ≠ "100" ∧ r.temp_string ≠ "999" →
      P (r.next_line.store res set))
    (hmarker : r.temp_string = "100" → v ≥ g.AutoCAD_12 →
      P (r.next_line.store_temp (fscanf_s r.next_line.fp)))
    (hcomment : r.temp_string = "999" →
      P { r.next_line.store_temp (fscanf_s r.next_line.fp) with
          stdout := (r.next_line.store_temp (fscanf_s r.next_line.fp)).stdout
            ++ ["DXF comment: "
              ++ (r.next_line.store_temp (fscanf_s r.next_line.fp)).temp_string ++ "\n"] })
    (hunknown : P { r with stderr := r.stderr ++ [arc_unknown_tag_warning fn r.line_number] }) :
    P (arc_read_body_plain g fn v r) := by
  unfold arc_read_body_plain
  by_cases h5 : r.temp_string = "5"
  · rw [if_pos h5]; exact hstore _ _ _ (fscanf_x_error _) (by rw [h5]; decide)
  rw [if_neg h5]
  by_cases h6 : r.temp_string = "6"
  · rw [if_pos h6]; exact hstore _ _ _ (fscanf_s_error _) (by rw [h6]; decide)
  rw [if_neg h6]
  by_cases h8 : r.temp_string = "8"
  · rw [if_pos h8]; exact hstore _ _ _ (fscanf_s_error _) (by rw [h8]; decide)
  rw [if_neg h8]
  by_cases h10 : r.temp_string = "10"
  · rw [if_pos h10]; exact hstore _ _ _ (fscanf_lf_error _) (by rw [h10]; decide)
  rw [if_neg h10]
  by_cases h20 : r.temp_string = "20"
  · rw [if_pos h20]; exact hstore _ _ _ (fscanf_lf_error _) (by rw [h20]; decide)
  rw [if_neg h20]
  by_cases h30 : r.temp_string = "30"
  · rw [if_pos h30]; exact hstore _ _ _ (fscanf_lf_error _) (by rw [h30]; decide)
  rw [if_neg h30]
  by_cases h39 : r.temp_string = "39"
  · rw [if_pos h39]; exact hstore _ _ _ (fscanf_lf_error _) (by rw [h39]; decide)
  rw [if_neg h39]
  by_cases h40 : r.temp_string = "40"
  · rw [if_pos h40]; exact hstore _ _ _ (fscanf_lf_error _) (by rw [h40]; decide)
  rw [if_neg h40]
  by_cases h50 : r.temp_string = "50"
  · rw [if_pos h50]; exact hstore _ _ _ (fscanf_lf_error _) (by rw [h50]; decide)
  rw [if_neg h50]
  by_cases h51 : r.temp_string = "51"
  · rw [if_pos h51]; exact hstore _ _ _ (fscanf_lf_error _) (by rw [h51]; decide)
  rw [if_neg h51]
  by_cases h62 : r.temp_string = "62"
  · rw [if_pos h62]; exact hstore _ _ _ (fscanf_d_error _) (by rw [h62]; decide)
  rw [if_neg h62]
  by_cases h67 : r.temp_string = "67"
  · rw [if_pos h67]; exact hstore _ _ _ (fscanf_d_error _) (by rw [h67]; decide)
  rw [if_neg h67]
  by_cases h100 : v ≥ g.AutoCAD_12 ∧ r.temp_string = "100"
  · rw [if_pos h100]; exact hmarker h100.2 h100.1
  rw [if_neg h100]
  by_cases h210 : r.temp_string = "210"
  · rw [if_pos h210]; exact hstore _ _ _ (fscanf_lf_error _) (by rw [h210]; decide)
  rw [if_neg h210]
  by_cases h220 : r.temp_string = "220"
  · rw [if_pos h220]; exact hstore _ _ _ (fscanf_lf_error _) (by rw [h220]; decide)
  rw [if_neg h220]
  by_cases h230 : r.temp_string = "230"
  · rw [if_pos h230]; exact hstore _ _ _ (fscanf_lf_error _) (by rw [h230]; decide)
  rw [if_neg h230]
  by_cases h999 : r.temp_string = "999"
  · rw [if_pos h999]; exact hcomment h999
  rw [if_neg h999]
  exact hunknown

/-- No pass of the loop body changes the error indicator of the stream. -/
theorem arc_read_body_error (g : Global) (fn : String) (v : Int) (r : ArcReader) :
    (dxf_arc_read_body g fn v r).fp.error = r.fp.error := by
  by_cases h : v ≤ g.AutoCAD_11 ∧ r.temp_string = "38"
  · rw [arc_read_body_elevation_low g fn v r h.2 h.1]
  · rw [arc_read_body_plain_eq g fn v r h]
    apply arc_read_body_plain_cases g fn v r (fun r' => r'.fp.error = r.fp.error)
    · intro α res set he _
      simp only [arc_store_fp, he]
    · intro _ _
      simp only [arc_store_temp_fp, fscanf_s_error, ArcReader.next_line]
    · intro _
      simp only [arc_store_temp_fp, fscanf_s_error, ArcReader.next_line]
    · rfl

/-- A pass of the loop body changes `temp_string` only in the branches for
"100" and "999". -/
theorem arc_read_body_temp (g : Global) (fn : String) (v : Int) (r : ArcReader)
    (h100 : r.temp_string ≠ "100") (h999 : r.temp_string ≠ "999") :
    (dxf_arc_read_body g fn v r).temp_string = r.temp_string := by
  by_cases h : v ≤ g.AutoCAD_11 ∧ r.temp_string = "38"
  · rw [arc_read_body_elevation_low g fn v r h.2 h.1]
  · rw [arc_read_body_plain_eq g fn v r h]
    apply arc_read_body_plain_cases g fn v r (fun r' => r'.temp_string = r.temp_string)
    · intro α res set _ _
      simp only [arc_store_temp_string, ArcReader.next_line]
    · intro h _
      exact absurd h h100
    · intro h
      exact absurd h h999
    · rfl

/-- The loop of `dxf_arc_read` never ends once `temp_string` is none of "0",
"100", "999" and the stream has no error: no branch reads the next group
code. -/
theorem arc_read_loop_stuck (g : Global) (fn : String) (v : Int) (fuel : Nat) :
    ∀ r : ArcReader, r.temp_string ≠ "0" → r.temp_string ≠ "100" →
      r.temp_string ≠ "999" → r.fp.error = false →
      dxf_arc_read_loop g fn v fuel r = none := by
  induction fuel with
  | zero => intro r _ _ _ _; rfl
  | succ n ih =>
    intro r h0 h100 h999 he
    have e1 := arc_read_body_temp g fn v r h100 h999
    have e2 := arc_read_body_error g fn v r
    unfold dxf_arc_read_loop
    simp only [h0, he, if_false, Bool.false_eq_true]
    exact ih _ (by rw [e1]; exact h0) (by rw [e1]; exact h100) (by rw [e1]; exact h999)
      (by rw [e2]; exact he)

/-- A pass of the loop body advances the line number by one or leaves it. -/
theorem arc_read_body_line_number (g : Global) (fn : String) (v : Int) (r : ArcReader) :
    (dxf_arc_read_body g fn v r).line_number = r.line_number
      ∨ (dxf_arc_read_body g fn v r).line_number = r.line_number + 1 := by
  by_cases h : v ≤ g.AutoCAD_11 ∧ r.temp_string = "38"
  · rw [arc_read_body_elevation_low g fn v r h.2 h.1]
    exact Or.inl rfl
  · rw [arc_read_body_plain_eq g fn v r h]
    apply arc_read_body_plain_cases g fn v r
      (fun r' => r'.line_number = r.line_number ∨ r'.line_number = r.line_number + 1)
    · intro α res set _ _
      right
      simp only [arc_store_line_number, ArcReader.next_line]
    · intro _ _
      right
      simp only [arc_store_temp_line_number, ArcReader.next_line]
    · intro _
      right
      simp only [arc_store_temp_line_number, ArcReader.next_line]
    · exact Or.inl rfl

/-- A run of the loop that returns hands back the arc it started from: from a
state whose `temp_string` is a tag that stores into a member the loop never
returns. -/
theorem arc_read_loop_arc (g : Global) (fn : String) (v : Int) (fuel : Nat) :
    ∀ (r : ArcReader) (res : Int × ArcReader),
      dxf_arc_read_loop g fn v fuel r = some res → res.2.dxf_arc = r.dxf_arc := by
  induction fuel with
  | zero => intro r res h; cases h
  | succ n ih =>
    intro r res h
    unfold dxf_arc_read_loop at h
    by_cases h0 : r.temp_string = "0"
    · rw [if_pos h0] at h
      cases h
      rfl
    rw [if_neg h0] at h
    by_cases he : r.fp.error = true
    · rw [if_pos he] at h
      cases h
      rfl
    rw [if_neg he] at h
    have he2 : r.fp.error = false := by simpa using he
    by_cases hs : r.temp_string ≠ "100" ∧ r.temp_string ≠ "999"
    · have e1 := arc_read_body_temp g fn v r hs.1 hs.2
      have e2 := arc_read_body_error g fn v r
      rw [arc_read_loop_stuck g fn v n _ (by rw [e1]; exact h0) (by rw [e1]; exact hs.1)
        (by rw [e1]; exact hs.2) (by rw [e2]; exact he2)] at h
      cases h
    · rw [ih _ res h]
      have h38 : ¬ (v ≤ g.AutoCAD_11 ∧ r.temp_string = "38") := by
        intro h38
        apply hs
        rw [h38.2]
        decide
      rw [arc_read_body_plain_eq g fn v r h38]
      apply arc_read_body_plain_cases g fn v r (fun r1 => r1.dxf_arc = r.dxf_arc)
      · intro α res set _ hne
        exact absurd hne hs
      · intro _ _
        simp only [arc_store_temp_arc, ArcReader.next_line]
      · intro _
        simp only [arc_store_temp_arc, ArcReader.next_line]
      · rfl

/-- The first read of `dxf_arc_read` on a stream that starts with the line
"0". -/
theorem fscanf_line_zero (fp : InStream) (rest : List Char) (he : fp.error = false)
    (hd : fp.data = '0' :: '\n' :: rest) :
    fscanf_line fp = (some "0", { fp with data := '\n' :: rest }) := by
  simp [fscanf_line, he, hd, List.takeWhile]

/-! ## The loop of `dxf_class_read` -/

/-- The call `dxf_class_read` is killed at the first test of its loop
condition, whatever it is given: `temp_string` is the null pointer, nothing is
stored through it, and `strcmp` reads through it. -/
theorem class_read_killed (fuel : Nat) (fn : String) (fp : InStream) (ln : Int) (c : DxfClass)
    (v : Int) : dxf_class_read (fuel + 1) fn fp ln c v = Run.killed := rfl

/-- The chain of `dxf_class_read` takes the branch that reads the record type
exactly when `temp_string` is "0". -/
theorem class_read_branch_record_type (t : String) :
    dxf_class_read_branch t = ClassBranch.record_type ↔ t = "0" := by
  unfold dxf_class_read_branch
  by_cases h0 : t = "0"
  · rw [if_pos h0]
    exact ⟨fun _ => h0, fun _ => rfl⟩
  · rw [if_neg h0]
    constructor
    · intro h
      split_ifs at h
    · intro h
      exact absurd h h0

/-- The chain takes the branch for a comment only when `temp_string` is
"999". -/
theorem class_read_branch_comment (t : String)
    (h : dxf_class_read_branch t = ClassBranch.comment) : t = "999" := by
  unfold dxf_class_read_branch at h
  split_ifs at h with h0 h1 h2 h3 h90 h280 h281 h999
  exact h999

/-- The statements of a branch other than the one for "0" leave the member
`record_type`: they neither assign to it nor store characters over it. -/
theorem class_read_statements_record_type (fn : String) (r : ClassReader) (b : ClassBranch)
    (hb : b ≠ ClassBranch.record_type) :
    (dxf_class_read_statements fn r b).dxf_class.record_type = r.dxf_class.record_type
      ∧ (dxf_class_read_statements fn r b).record_type_over = r.record_type_over := by
  cases b with
  | record_type => exact absurd rfl hb
  | record_name =>
    simp only [dxf_class_read_statements, ClassReader.store, ClassReader.next_line]
    split <;> exact ⟨rfl, rfl⟩
  | class_name =>
    simp only [dxf_class_read_statements, ClassReader.store, ClassReader.next_line]
    split <;> exact ⟨rfl, rfl⟩
  | app_name =>
    simp only [dxf_class_read_statements, ClassReader.store_over_app_name,
      ClassReader.next_line]
    split <;> exact ⟨rfl, rfl⟩
  | proxy_cap_flag =>
    simp only [dxf_class_read_statements, ClassReader.store, ClassReader.next_line]
    split <;> exact ⟨rfl, rfl⟩
  | was_a_proxy_flag =>
    simp only [dxf_class_read_statements, ClassReader.store, ClassReader.next_line]
    split <;> exact ⟨rfl, rfl⟩
  | is_an_entity_flag =>
    simp only [dxf_class_read_statements, ClassReader.store, ClassReader.next_line]
    split <;> exact ⟨rfl, rfl⟩
  | comment =>
    simp only [dxf_class_read_statements, ClassReader.store_temp, ClassReader.next_line]
    split <;> exact ⟨rfl, rfl⟩
  | unknown => exact ⟨rfl, rfl⟩

/-- The statements of the branch for "0" store the characters of the next
token over the member `record_type`, when there is a token. -/
theorem class_read_statements_zero (fn : String) (r : ClassReader) (t : String)
    (rest : InStream) (h : fscanf_s r.fp = (some t, rest)) :
    (dxf_class_read_statements fn r ClassBranch.record_type).record_type_over = some t := by
  simp only [dxf_class_read_statements, ClassReader.store_over_record_type,
    ClassReader.next_line, h]

/-- A pass of the loop body of `dxf_class_read` is made on a `temp_string`
other than "0", and such a pass leaves the member `record_type`. -/
theorem class_read_body_record_type (fn : String) (r : ClassReader)
    (h0 : r.temp_string ≠ "0") :
    (dxf_class_read_body fn r).dxf_class.record_type = r.dxf_class.record_type
      ∧ (dxf_class_read_body fn r).record_type_over = r.record_type_over :=
  class_read_statements_record_type fn r _
    (fun h => h0 ((class_read_branch_record_type r.temp_string).1 h))

/-- A pass of the loop body of `dxf_class_read` advances the line number by one
or leaves it. -/
theorem class_read_body_line_number (fn : String) (r : ClassReader) :
    (dxf_class_read_body fn r).line_number = r.line_number
      ∨ (dxf_class_read_body fn r).line_number = r.line_number + 1 := by
  unfold dxf_class_read_body
  cases dxf_class_read_branch r.temp_string with
  | record_type =>
    simp only [dxf_class_read_statements, ClassReader.store_over_record_type,
      ClassReader.next_line]
    split <;> exact Or.inr rfl
  | record_name =>
    simp only [dxf_class_read_statements, ClassReader.store, ClassReader.next_line]
    split <;> exact Or.inr rfl
  | class_name =>
    simp only [dxf_class_read_statements, ClassReader.store, ClassReader.next_line]
    split <;> exact Or.inr rfl
  | app_name =>
    simp only [dxf_class_read_statements, ClassReader.store_over_app_name,
      ClassReader.next_line]
    split <;> exact Or.inr rfl
  | proxy_cap_flag =>
    simp only [dxf_class_read_statements, ClassReader.store, ClassReader.next_line]
    split <;> exact Or.inr rfl
  | was_a_proxy_flag =>
    simp only [dxf_class_read_statements, ClassReader.store, ClassReader.next_line]
    split <;> exact Or.inr rfl
  | is_an_entity_flag =>
    simp only [dxf_class_read_statements, ClassReader.store, ClassReader.next_line]
    split <;> exact Or.inr rfl
  | comment =>
    simp only [dxf_class_read_statements, ClassReader.store_temp, ClassReader.next_line]
    split <;> exact Or.inr rfl
  | unknown => exact Or.inl rfl

/-- One test of the loop condition of `dxf_class_read` on a `temp_string`
other than "0", with no stream error: the loop goes on with the state after the
pass. -/
theorem class_read_loop_step (fn : String) (fuel : Nat) (r : ClassReader)
    (h0 : r.temp_string ≠ "0") (he : r.fp.error = false) :
    dxf_class_read_loop fn (fuel + 1) r
      = dxf_class_read_loop fn fuel (dxf_class_read_body fn r) := by
  rw [dxf_class_read_loop, if_neg h0, he]
  rfl

/-- The loop of `dxf_class_read` hands back the member `record_type` it
started from. -/
theorem class_read_loop_record_type (fn : String) (fuel : Nat) :
    ∀ (r : ClassReader) (res : Int × ClassReader),
      dxf_class_read_loop fn fuel r = some res
        → res.2.dxf_class.record_type = r.dxf_class.record_type
          ∧ res.2.record_type_over = r.record_type_over := by
  induction fuel with
  | zero => intro r res h; cases h
  | succ n ih =>
    intro r res h
    unfold dxf_class_read_loop at h
    by_cases h0 : r.temp_string = "0"
    · rw [if_pos h0] at h
      cases h
      exact ⟨rfl, rfl⟩
    rw [if_neg h0] at h
    by_cases he : r.fp.error = true
    · rw [if_pos he] at h
      cases h
      exact ⟨rfl, rfl⟩
    rw [if_neg he] at h
    obtain ⟨e1, e2⟩ := ih _ res h
    obtain ⟨b1, b2⟩ := class_read_body_record_type fn r h0
    exact ⟨e1.trans b1, e2.trans b2⟩

/-! ## Termination of the arc reader (C21, C22, C25) -/

/-- The call `dxf_arc_read_buffered` never returns when the first line of the
stream is none of "0", "100", "999" and the stream has no error. -/
theorem arc_read_stuck_at_first_code (g : Global) (fuel : Nat) (fn : String) (fp : InStream)
    (ln : Int) (a : DxfArc) (v : Int) (he : fp.error = false)
    (h0 : (fscanf_line fp).1.getD "" ≠ "0") (h100 : (fscanf_line fp).1.getD "" ≠ "100")
    (h999 : (fscanf_line fp).1.getD "" ≠ "999") :
    dxf_arc_read_buffered g fuel fn fp ln a v = none := by
  rw [dxf_arc_read_buffered_eq]
  apply arc_read_loop_stuck g fn v fuel _ h0 h100 h999
  show (fscanf_line fp).2.error = false
  rw [fscanf_line_error]
  exact he

/-- Every call of `dxf_arc_read_buffered` that returns hands back the arc it
was given, member for member. -/
theorem arc_read_returns_arc_unchanged (g : Global) (fuel : Nat) (fn : String) (fp : InStream)
    (ln : Int) (a : DxfArc) (v : Int) (res : Int × ArcReader)
    (h : dxf_arc_read_buffered g fuel fn fp ln a v = some res) : res.2.dxf_arc = a := by
  rw [dxf_arc_read_buffered_eq] at h
  exact arc_read_loop_arc g fn v fuel _ res h

/-- The call `dxf_arc_read_buffered` on a stream whose first line is "0": it
returns at the first test of the loop condition. -/
theorem arc_read_zero_first (g : Global) (fuel : Nat) (fn : String) (fp : InStream)
    (ln : Int) (a : DxfArc) (v : Int) (rest : List Char) (he : fp.error = false)
    (hd : fp.data = '0' :: '\n' :: rest) :
    dxf_arc_read_buffered g (fuel + 1) fn fp ln a v
      = some (EXIT_SUCCESS,
          { fp := { fp with data := '\n' :: rest }, line_number := ln + 1, dxf_arc := a,
            temp_string := "0", stderr := [], stdout := [] }) := by
  rw [dxf_arc_read_buffered_eq]
  unfold dxf_arc_read_buffered_start
  rw [fscanf_line_zero fp rest he hd]
  rfl

/-- C21, the failing inputs: on the records 5, 8, 10, 20, 30, 40, 50, 51 of
an arc followed by a group code 0, and on an input that ends after the record
(10, 1.0), `dxf_arc_read` is killed at the first test of its loop condition; it
neither returns at the group code 0 nor fails at the end of the input.
`dxf_arc_read_buffered`, the copy in which `temp_string` points to a buffer,
never returns on either input, whatever the bound on the passes of the loop,
the line number, the arc and the version number it is called with. -/
theorem arc_read_known_records_never_returns :
    ∀ (fuel : Nat) (line_number : Int) (dxf_arc : DxfArc) (v : Int),
      dxf_arc_read_buffered sampleGlobal fuel "arc.dxf" knownRecordsInput line_number dxf_arc v
          = none
      ∧ dxf_arc_read_buffered sampleGlobal fuel "arc.dxf" truncatedInput line_number dxf_arc v
          = none
      ∧ dxf_arc_read sampleGlobal (fuel + 1) "arc.dxf" knownRecordsInput line_number dxf_arc v
          = Run.killed
      ∧ dxf_arc_read sampleGlobal (fuel + 1) "arc.dxf" truncatedInput line_number dxf_arc v
          = Run.killed := by
  intro fuel line_number dxf_arc v
  have h1 : (fscanf_line knownRecordsInput).1 = some "5" := by decide
  have h2 : (fscanf_line truncatedInput).1 = some "10" := by decide
  refine ⟨?_, ?_, arc_read_killed _ _ _ _ _ _ _, arc_read_killed _ _ _ _ _ _ _⟩
  · apply arc_read_stuck_at_first_code _ _ _ _ _ _ _ rfl <;> rw [h1] <;> decide
  · apply arc_read_stuck_at_first_code _ _ _ _ _ _ _ rfl <;> rw [h2] <;> decide

/-- C22, the failing input: `dxf_arc_read` is killed at the first test of its
loop condition on every input, so on the record (0, "LINE") it does not return
`EXIT_SUCCESS`.  `dxf_arc_read_buffered`, the copy in which `temp_string`
points to a buffer, returns on the line "0", and never returns on the line
"  0", the group code as the writers pad it. -/
theorem arc_read_first_zero_not_returned :
    (∀ (g : Global) (fuel : Nat) (fn : String) (fp : InStream) (ln : Int) (a : DxfArc)
        (v : Int), dxf_arc_read g (fuel + 1) fn fp ln a v = Run.killed)
      ∧ dxf_arc_read sampleGlobal 1 "arc.dxf" zeroCodeInput 0 sampleArc 14 = Run.killed
      ∧ dxf_arc_read_buffered sampleGlobal 1 "arc.dxf" zeroCodeInput 0 sampleArc 14
          = some (EXIT_SUCCESS,
              { fp := ⟨"\nLINE\n".toList, false, false⟩, line_number := 1,
                dxf_arc := sampleArc, temp_string := "0", stderr := [], stdout := [] })
      ∧ (∀ (fuel : Nat) (line_number : Int) (dxf_arc : DxfArc) (v : Int),
          dxf_arc_read_buffered sampleGlobal fuel "arc.dxf" paddedZeroInput line_number dxf_arc v
            = none) := by
  refine ⟨fun g fuel fn fp ln a v => arc_read_killed g fuel fn fp ln a v, rfl, by decide, ?_⟩
  intro fuel line_number dxf_arc v
  have h1 : (fscanf_line paddedZeroInput).1 = some "  0" := by decide
  apply arc_read_stuck_at_first_code _ _ _ _ _ _ _ rfl <;> rw [h1] <;> decide

/-- C25, the failing inputs: on the records of an arc with the record
(9999, "foo") after the first record or in front of it, followed by a group
code 0, `dxf_arc_read` is killed at the first test of its loop condition, and
`dxf_arc_read_buffered`, the copy in which `temp_string` points to a buffer,
never returns, whatever the bound on the passes of the loop, the line number,
the arc and the version number it is called with.  In the copy, with the record
after (10, 1.0), the second pass has read the line "9999" as a value of
group 10 without a warning; with the record in front, the first pass writes
the warning and reads nothing. -/
theorem arc_read_unknown_tag_never_returns :
    (∀ (fuel : Nat) (line_number : Int) (dxf_arc : DxfArc) (v : Int),
      dxf_arc_read_buffered sampleGlobal fuel "arc.dxf" unknownTagInput line_number dxf_arc v
          = none
      ∧ dxf_arc_read_buffered sampleGlobal fuel "arc.dxf" unknownTagFirstInput line_number
          dxf_arc v = none
      ∧ dxf_arc_read sampleGlobal (fuel + 1) "arc.dxf" unknownTagInput line_number dxf_arc v
          = Run.killed
      ∧ dxf_arc_read sampleGlobal (fuel + 1) "arc.dxf" unknownTagFirstInput line_number
          dxf_arc v = Run.killed)
    ∧ (dxf_arc_read_body sampleGlobal "arc.dxf" 14
        (dxf_arc_read_body sampleGlobal "arc.dxf" 14
          (dxf_arc_read_buffered_start unknownTagInput 0 sampleArc))).fp.data
        = "foo\n20\n2.0\n40\n2.5\n50\n0.0\n51\n90.0\n0\n".toList
    ∧ (dxf_arc_read_body sampleGlobal "arc.dxf" 14
        (dxf_arc_read_body sampleGlobal "arc.dxf" 14
          (dxf_arc_read_buffered_start unknownTagInput 0 sampleArc))).stderr = []
    ∧ dxf_arc_read_body sampleGlobal "arc.dxf" 14
        (dxf_arc_read_buffered_start unknownTagFirstInput 0 sampleArc)
        = { dxf_arc_read_buffered_start unknownTagFirstInput 0 sampleArc with
            stderr := [arc_unknown_tag_warning "arc.dxf" 1] } := by
  refine ⟨?_, by decide, by decide, by decide⟩
  intro fuel line_number dxf_arc v
  have h1 : (fscanf_line unknownTagInput).1 = some "10" := by decide
  have h2 : (fscanf_line unknownTagFirstInput).1 = some "9999" := by decide
  refine ⟨?_, ?_, arc_read_killed _ _ _ _ _ _ _, arc_read_killed _ _ _ _ _ _ _⟩
  · apply arc_read_stuck_at_first_code _ _ _ _ _ _ _ rfl <;> rw [h1] <;> decide
  · apply arc_read_stuck_at_first_code _ _ _ _ _ _ _ rfl <;> rw [h2] <;> decide

/-! ## The elevation and the subclass marker on read (C23, C24) -/

/-- The pass of the loop body on "38" above `AutoCAD_11`: the unknown-tag
branch. -/
theorem arc_read_body_elevation_high (g : Global) (fn : String) (v : Int) (r : ArcReader)
    (ht : r.temp_string = "38") (hv : ¬ v ≤ g.AutoCAD_11) :
    dxf_arc_read_body g fn v r
      = { r with stderr := r.stderr ++ [arc_unknown_tag_warning fn r.line_number] } := by
  unfold dxf_arc_read_body
  simp only [ht, hv, false_and, if_false]
  simp only [show ("38" : String) ≠ "5" by decide, show ("38" : String) ≠ "6" by decide,
    show ("38" : String) ≠ "8" by decide, show ("38" : String) ≠ "10" by decide,
    show ("38" : String) ≠ "20" by decide, show ("38" : String) ≠ "30" by decide,
    show ("38" : String) ≠ "39" by decide, show ("38" : String) ≠ "40" by decide,
    show ("38" : String) ≠ "50" by decide, show ("38" : String) ≠ "51" by decide,
    show ("38" : String) ≠ "62" by decide, show ("38" : String) ≠ "67" by decide,
    show ("38" : String) ≠ "100" by decide, show ("38" : String) ≠ "210" by decide,
    show ("38" : String) ≠ "220" by decide, show ("38" : String) ≠ "230" by decide,
    show ("38" : String) ≠ "999" by decide, if_false, and_false]

/-- The pass of the loop body on "100" below `AutoCAD_12`: the unknown-tag
branch. -/
theorem arc_read_body_marker_below (g : Global) (fn : String) (v : Int) (r : ArcReader)
    (ht : r.temp_string = "100") (hv : ¬ v ≥ g.AutoCAD_12) :
    dxf_arc_read_body g fn v r
      = { r with stderr := r.stderr ++ [arc_unknown_tag_warning fn r.line_number] } := by
  unfold dxf_arc_read_body
  simp only [ht, hv, false_and, if_false]
  simp only [show ("100" : String) ≠ "5" by decide, show ("100" : String) ≠ "6" by decide,
    show ("100" : String) ≠ "8" by decide, show ("100" : String) ≠ "10" by decide,
    show ("100" : String) ≠ "20" by decide, show ("100" : String) ≠ "30" by decide,
    show ("100" : String) ≠ "38" by decide, show ("100" : String) ≠ "39" by decide,
    show ("100" : String) ≠ "40" by decide, show ("100" : String) ≠ "50" by decide,
    show ("100" : String) ≠ "51" by decide, show ("100" : String) ≠ "62" by decide,
    show ("100" : String) ≠ "67" by decide, show ("100" : String) ≠ "210" by decide,
    show ("100" : String) ≠ "220" by decide, show ("100" : String) ≠ "230" by decide,
    show ("100" : String) ≠ "999" by decide, if_false, and_false]
  rw [ht]

/-- The pass of the loop body on "100" at or above `AutoCAD_12`: the marker
value is read into `temp_string`. -/
theorem arc_read_body_marker_above (g : Global) (fn : String) (v : Int) (r : ArcReader)
    (ht : r.temp_string = "100") (hv : v ≥ g.AutoCAD_12) :
    dxf_arc_read_body g fn v r = r.next_line.store_temp (fscanf_s r.fp) := by
  unfold dxf_arc_read_body
  simp only [ht, hv, true_and, if_true]
  simp only [show ("100" : String) ≠ "5" by decide, show ("100" : String) ≠ "6" by decide,
    show ("100" : String) ≠ "8" by decide, show ("100" : String) ≠ "10" by decide,
    show ("100" : String) ≠ "20" by decide, show ("100" : String) ≠ "30" by decide,
    show ("100" : String) ≠ "38" by decide, show ("100" : String) ≠ "39" by decide,
    show ("100" : String) ≠ "40" by decide, show ("100" : String) ≠ "50" by decide,
    show ("100" : String) ≠ "51" by decide, show ("100" : String) ≠ "62" by decide,
    show ("100" : String) ≠ "67" by decide, if_false, and_false]
  rfl

/-- The call `dxf_arc_read_buffered` never returns on the record (38, 5.0)
followed by a group code 0, whatever the version number. -/
theorem arc_read_elevation_never_returns :
    ∀ (fuel : Nat) (line_number : Int) (dxf_arc : DxfArc) (v : Int),
      dxf_arc_read_buffered sampleGlobal fuel "arc.dxf" elevationInput line_number dxf_arc v
        = none := by
  intro fuel line_number dxf_arc v
  have h1 : (fscanf_line elevationInput).1 = some "38" := by decide
  apply arc_read_stuck_at_first_code _ _ _ _ _ _ _ rfl <;> rw [h1] <;> decide

/-- C23: a pass of the loop of `dxf_arc_read` on the group code 38.  At or
below `AutoCAD_11` the pass stores `0.0` in `z0`, writes the unknown-tag
warning and reads nothing, so the value of the record does not reach `z0`;
above `AutoCAD_11` the pass writes the warning and changes nothing else. -/
theorem arc_read_elevation_not_read (g : Global) (fn : String) (v : Int) (r : ArcReader)
    (ht : r.temp_string = "38") :
    (v ≤ g.AutoCAD_11 →
      dxf_arc_read_body g fn v r
        = { r with dxf_arc := { r.dxf_arc with z0 := Double.zero },
                   stderr := r.stderr ++ [arc_unknown_tag_warning fn r.line_number] })
    ∧ (¬ v ≤ g.AutoCAD_11 →
      dxf_arc_read_body g fn v r
        = { r with stderr := r.stderr ++ [arc_unknown_tag_warning fn r.line_number] }) :=
  ⟨arc_read_body_elevation_low g fn v r ht, arc_read_body_elevation_high g fn v r ht⟩

/-- C23 at the record (38, 5.0), version 11 and an arc with `z0` 7: after the
pass `z0` is 0, the warning is written and the value line "5.0" is unread. -/
theorem arc_read_elevation_not_read_witness :
    (dxf_arc_read_buffered_start elevationInput 0 arcAtHeight).temp_string = "38"
      ∧ dxf_arc_read_body sampleGlobal "arc.dxf" 11
          (dxf_arc_read_buffered_start elevationInput 0 arcAtHeight)
        = { fp := ⟨"\n5.0\n0\n".toList, false, false⟩, line_number := 1,
            dxf_arc := { arcAtHeight with z0 := Double.zero }, temp_string := "38",
            stderr := [arc_unknown_tag_warning "arc.dxf" 1], stdout := [] } :=
  ⟨by decide,
   ((arc_read_elevation_not_read sampleGlobal "arc.dxf" 11
      (dxf_arc_read_buffered_start elevationInput 0 arcAtHeight) (by decide)).1 (by decide)).trans
     (by decide)⟩

/-- A pass of the loop of `dxf_arc_read` on the group code 100.  At or above
`AutoCAD_12` the pass reads the marker value into `temp_string`, advances the
line number by one, leaves the arc as it was and writes no message; below
`AutoCAD_12` it writes the unknown-tag warning and reads nothing. -/
theorem arc_read_marker_pass (g : Global) (fn : String) (v : Int) (r : ArcReader)
    (ht : r.temp_string = "100") :
    (v ≥ g.AutoCAD_12 →
      dxf_arc_read_body g fn v r = r.next_line.store_temp (fscanf_s r.fp)
        ∧ (dxf_arc_read_body g fn v r).fp = (fscanf_s r.fp).2
        ∧ (dxf_arc_read_body g fn v r).line_number = r.line_number + 1
        ∧ (dxf_arc_read_body g fn v r).dxf_arc = r.dxf_arc
        ∧ (dxf_arc_read_body g fn v r).stderr = r.stderr)
    ∧ (¬ v ≥ g.AutoCAD_12 →
      dxf_arc_read_body g fn v r
        = { r with stderr := r.stderr ++ [arc_unknown_tag_warning fn r.line_number] }) := by
  refine ⟨fun hv => ?_, arc_read_body_marker_below g fn v r ht⟩
  rw [arc_read_body_marker_above g fn v r ht hv]
  refine ⟨rfl, ?_, ?_, ?_, ?_⟩
  · rw [arc_store_temp_fp]
  · rw [arc_store_temp_line_number]; rfl
  · rw [arc_store_temp_arc]; rfl
  · rw [arc_store_temp_stderr]; rfl

/-- C24, the failing input: on the record (100, "AcDbEntity") followed by a
group code 0, `dxf_arc_read` is killed at the first test of its loop
condition.  In `dxf_arc_read_buffered`, the copy in which `temp_string` points
to a buffer, at version 14 the pass on 100 reads the marker value into
`temp_string` itself, the next pass dispatches on "AcDbEntity" and writes the
unknown-tag warning, and the call never returns; at version 11 the pass on 100
writes the unknown-tag warning and does not read the marker value, and the
call never returns. -/
theorem arc_read_marker_then_unknown_tag :
    (∀ (fuel : Nat) (line_number : Int) (dxf_arc : DxfArc) (v : Int),
      dxf_arc_read sampleGlobal (fuel + 1) "arc.dxf" markerInput line_number dxf_arc v
        = Run.killed)
    ∧ dxf_arc_read_body sampleGlobal "arc.dxf" 14
        (dxf_arc_read_buffered_start markerInput 0 sampleArc)
      = { fp := ⟨"0\n".toList, false, false⟩, line_number := 2, dxf_arc := sampleArc,
          temp_string := "AcDbEntity", stderr := [], stdout := [] }
    ∧ dxf_arc_read_body sampleGlobal "arc.dxf" 14
        (dxf_arc_read_body sampleGlobal "arc.dxf" 14
          (dxf_arc_read_buffered_start markerInput 0 sampleArc))
      = { fp := ⟨"0\n".toList, false, false⟩, line_number := 2, dxf_arc := sampleArc,
          temp_string := "AcDbEntity", stderr := [arc_unknown_tag_warning "arc.dxf" 2],
          stdout := [] }
    ∧ (∀ fuel : Nat,
        dxf_arc_read_buffered sampleGlobal fuel "arc.dxf" markerInput 0 sampleArc 14 = none)
    ∧ dxf_arc_read_body sampleGlobal "arc.dxf" 11
        (dxf_arc_read_buffered_start markerInput 0 sampleArc)
      = { fp := ⟨"\nAcDbEntity\n0\n".toList, false, false⟩, line_number := 1,
          dxf_arc := sampleArc, temp_string := "100",
          stderr := [arc_unknown_tag_warning "arc.dxf" 1], stdout := [] }
    ∧ (∀ fuel : Nat,
        dxf_arc_read_buffered sampleGlobal fuel "arc.dxf" markerInput 0 sampleArc 11 = none) := by
  refine ⟨fun fuel ln a v => arc_read_killed _ _ _ _ _ _ _, by decide, by decide, ?_, by decide,
    ?_⟩
  · intro fuel
    cases fuel with
    | zero => rfl
    | succ n =>
      rw [dxf_arc_read_buffered_eq]
      unfold dxf_arc_read_loop
      rw [if_neg (by decide), if_neg (by decide)]
      exact arc_read_loop_stuck _ _ _ n _ (by decide) (by decide) (by decide) (by decide)
  · intro fuel
    rw [dxf_arc_read_buffered_eq]
    exact arc_read_loop_marker_low _ _ _ fuel (by decide) _ (by decide) (by decide)

/-! ## The line counter in the loops -/

/-- The line counter in `dxf_arc_read_buffered` and `dxf_class_read_buffered`,
the copies in which `temp_string` points to a buffer: they enter their loops
with the line number advanced by one, and every pass of either loop leaves
the line number as it was or advances it by one.  On the records of an arc the
line number is 6 after five passes while three lines have been read, and on the
records of a class entry the second pass has read the group code "2" as the
record name.  The functions of the source are killed before the first pass
(`arc_read_killed`, `class_read_killed`). -/
theorem read_line_number_step (g : Global) (fn : String) (v : Int) (r : ArcReader)
    (c : ClassReader) (fp : InStream) (ln : Int) (a : DxfArc) (d : DxfClass) :
    (dxf_arc_read_buffered_start fp ln a).line_number = ln + 1
      ∧ (dxf_class_read_buffered_start fp ln d).line_number = ln + 1
      ∧ ((dxf_arc_read_body g fn v r).line_number = r.line_number
          ∨ (dxf_arc_read_body g fn v r).line_number = r.line_number + 1)
      ∧ ((dxf_class_read_body fn c).line_number = c.line_number
          ∨ (dxf_class_read_body fn c).line_number = c.line_number + 1)
      ∧ ((dxf_arc_read_body sampleGlobal "arc.dxf" 14)^[5]
            (dxf_arc_read_buffered_start knownRecordsInput 0 sampleArc)).line_number = 6
      ∧ ((dxf_arc_read_body sampleGlobal "arc.dxf" 14)^[5]
            (dxf_arc_read_buffered_start knownRecordsInput 0 sampleArc)).fp.data
          = "Walls\n10\n1.0\n20\n2.0\n30\n0.0\n40\n2.5\n50\n0.0\n51\n90.0\n0\nLINE\n".toList
      ∧ ((dxf_class_read_body "classes.dxf")^[2]
            (dxf_class_read_buffered_start classRecordsInput 0 sampleClass)).line_number = 3
      ∧ ((dxf_class_read_body "classes.dxf")^[2]
            (dxf_class_read_buffered_start classRecordsInput 0 sampleClass)).dxf_class.record_name
          = "2" :=
  ⟨rfl, rfl, arc_read_body_line_number g fn v r, class_read_body_line_number fn c,
   by decide, by decide, by decide, by decide⟩

/-! ## The record type of a class entry (C27) and its records (C28) -/

/-- C27: `dxf_class_read` never reads the record type.  The call is killed at
the first test of its loop condition, before any pass.  In the loop, the
branch that stores into the member `record_type` is taken exactly on "0"; a
test of the loop condition on "0" returns without a pass; every pass is made
on another `temp_string`, takes another branch, and neither assigns to the
member `record_type` nor stores characters over it; and when the loop returns,
the member is what it was when the loop was entered. -/
theorem class_read_never_reads_record_type (fuel : Nat) (fn : String) (fp : InStream)
    (ln : Int) (c : DxfClass) (v : Int) (r : ClassReader) :
    dxf_class_read (fuel + 1) fn fp ln c v = Run.killed
      ∧ (dxf_class_read_branch r.temp_string = ClassBranch.record_type ↔ r.temp_string = "0")
      ∧ (r.temp_string = "0" → dxf_class_read_loop fn (fuel + 1) r = some (EXIT_SUCCESS, r))
      ∧ (r.temp_string ≠ "0" → r.fp.error = false →
          dxf_class_read_loop fn (fuel + 1) r
              = dxf_class_read_loop fn fuel (dxf_class_read_body fn r)
            ∧ dxf_class_read_branch r.temp_string ≠ ClassBranch.record_type
            ∧ (dxf_class_read_body fn r).dxf_class.record_type = r.dxf_class.record_type
            ∧ (dxf_class_read_body fn r).record_type_over = r.record_type_over)
      ∧ (∀ res : Int × ClassReader, dxf_class_read_loop fn fuel r = some res →
          res.2.dxf_class.record_type = r.dxf_class.record_type
            ∧ res.2.record_type_over = r.record_type_over) := by
  refine ⟨rfl, class_read_branch_record_type r.temp_string, ?_, ?_,
    class_read_loop_record_type fn fuel r⟩
  · intro h0
    rw [dxf_class_read_loop, if_pos h0]
  · intro h0 he
    exact ⟨class_read_loop_step fn fuel r h0 he,
      fun h => h0 ((class_read_branch_record_type r.temp_string).1 h),
      class_read_body_record_type fn r h0⟩

/-- C27 at the records of a class entry and at the record (0, "ENDSEC"):
`dxf_class_read` is killed; in the copy with a buffer the first pass on the
records is made on "1", stores "NAME" in `record_name` and leaves
`record_type`, and on (0, "ENDSEC") the copy returns with the class entry as it
was. -/
theorem class_read_never_reads_record_type_witness :
    dxf_class_read 1 "classes.dxf" classRecordsInput 0 sampleClass 14 = Run.killed
      ∧ (dxf_class_read_buffered_start classRecordsInput 0 sampleClass).temp_string = "1"
      ∧ (dxf_class_read_body "classes.dxf"
          (dxf_class_read_buffered_start classRecordsInput 0 sampleClass)).dxf_class.record_name
          = "NAME"
      ∧ (dxf_class_read_body "classes.dxf"
          (dxf_class_read_buffered_start classRecordsInput 0 sampleClass)).dxf_class.record_type
          = sampleClass.record_type
      ∧ (dxf_class_read_body "classes.dxf"
          (dxf_class_read_buffered_start classRecordsInput 0 sampleClass)).record_type_over
          = none
      ∧ dxf_class_read_buffered 1 "classes.dxf" classZeroInput 0 sampleClass 14
          = some (EXIT_SUCCESS, classZeroResult)
      ∧ classZeroResult.dxf_class.record_type = sampleClass.record_type :=
  ⟨(class_read_never_reads_record_type 0 "classes.dxf" classRecordsInput 0 sampleClass 14
      (dxf_class_read_buffered_start classRecordsInput 0 sampleClass)).1,
   by decide, by decide,
   ((class_read_never_reads_record_type 0 "classes.dxf" classRecordsInput 0 sampleClass 14
      (dxf_class_read_buffered_start classRecordsInput 0 sampleClass)).2.2.2.1 (by decide)
      (by decide)).2.2.1,
   ((class_read_never_reads_record_type 0 "classes.dxf" classRecordsInput 0 sampleClass 14
      (dxf_class_read_buffered_start classRecordsInput 0 sampleClass)).2.2.2.1 (by decide)
      (by decide)).2.2.2,
   by decide,
   ((class_read_never_reads_record_type 1 "classes.dxf" classZeroInput 0 sampleClass 14
      (dxf_class_read_buffered_start classZeroInput 0 sampleClass)).2.2.2.2
      (EXIT_SUCCESS, classZeroResult) (by decide)).1⟩

/-- C28: for every class entry `dxf_class_write` returns `EXIT_SUCCESS`,
writes no message, and appends exactly the seven records 0 "CLASS", 1
`record_name`, 2 `class_name`, 3 `app_name`, 90 `proxy_cap_flag`, 280
`was_a_proxy_flag`, 281 `is_an_entity_flag`, in this order. -/
theorem class_write_all_fields (s : Streams) (c : DxfClass) :
    (dxf_class_write s c).status = EXIT_SUCCESS
      ∧ written s (dxf_class_write s c)
          = [⟨0, .str "CLASS"⟩, ⟨1, .str c.record_name⟩, ⟨2, .str c.class_name⟩,
             ⟨3, .str c.app_name⟩, ⟨90, .dec c.proxy_cap_flag⟩,
             ⟨280, .dec c.was_a_proxy_flag⟩, ⟨281, .dec c.is_an_entity_flag⟩]
      ∧ reported s (dxf_class_write s c) = [] := by
  simp [dxf_class_write, written, reported, fprintf_eq_add, add_add, Streams.add]

/-! ## A fresh arc (C29, C30) -/

/-- C29: when `malloc` succeeds, `dxf_arc_init` returns an arc, whatever
pointer it is given, and writes no message; the arc has the linetype
"BYLAYER", the layer "0", the color `DXF_COLOR_BYLAYER`, the paperspace flag
`DXF_MODELSPACE` and the thickness 0.0. -/
theorem arc_init_defaults (g : Global) (p : Option DxfArc) :
    ∃ a, dxf_arc_init g true p = (some a, [])
      ∧ a.common.linetype = "BYLAYER" ∧ a.common.layer = "0"
      ∧ a.common.color = g.DXF_COLOR_BYLAYER ∧ a.common.paperspace = g.DXF_MODELSPACE
      ∧ a.common.thickness = Double.zero :=
  ⟨_, rfl, rfl, rfl, rfl, rfl, rfl⟩

/-- C30: the arc that `dxf_arc_init` returns has the extrusion vector
(0, 0, 0): `extr_z0` is 0.0, not 1.0.  No reader sets a default: on the record
(0, "LINE") `dxf_arc_read` is killed, `dxf_arc_read_buffered`, the copy in
which `temp_string` points to a buffer, returns that arc with `extr_z0` 0.0,
and every call of the copy that returns hands back the `extr_z0` it was
given. -/
theorem arc_extrusion_default_is_zero (g : Global) (p : Option DxfArc) :
    ∃ a, dxf_arc_init g true p = (some a, [])
      ∧ a.extr_x0 = Double.zero ∧ a.extr_y0 = Double.zero ∧ a.extr_z0 = Double.zero
      ∧ a.extr_z0 ≠ Double.ofInt 1
      ∧ (∃ r, dxf_arc_read_buffered g 1 "arc.dxf" zeroCodeInput 0 a 14 = some (EXIT_SUCCESS, r)
          ∧ r.dxf_arc.extr_z0 = Double.zero)
      ∧ (∀ (fuel : Nat) (fn : String) (fp : InStream) (ln : Int) (v : Int)
          (res : Int × ArcReader),
          dxf_arc_read_buffered g fuel fn fp ln a v = some res
            → res.2.dxf_arc.extr_z0 = Double.zero)
      ∧ dxf_arc_read g 1 "arc.dxf" zeroCodeInput 0 a 14 = Run.killed := by
  refine ⟨_, rfl, rfl, rfl, rfl, ?_, ⟨_, arc_read_zero_first g 0 "arc.dxf" zeroCodeInput 0 _ 14
    "LINE\n".toList rfl rfl, rfl⟩, ?_, rfl⟩
  · show Double.zero ≠ Double.ofInt 1
    decide
  · intro fuel fn fp ln v res h
    rw [arc_read_returns_arc_unchanged g fuel fn fp ln _ v res h]

/-! ## The layer and the order of the hatch header (C31, C38, C39) -/

/-- C31: for every input of `dxf_write_hatch`, the records written for the
empty layer are the records written for the layer "0", and group 8 is written
exactly once, with the layer, or with "0" for the empty layer. -/
theorem hatch_layer_never_empty (g : Global) (s : Streams) (h : DxfHatchHeader) :
    written s (dxf_write_hatch g s { h with layer := "" })
        = written s (dxf_write_hatch g s { h with layer := "0" })
      ∧ group (written s (dxf_write_hatch g s h)) 8
          = [⟨8, .str (if h.layer = "" then "0" else h.layer)⟩]
      ∧ (group (written s (dxf_write_hatch g s h)) 8).length = 1
      ∧ (⟨8, .str ""⟩ : Record) ∉ written s (dxf_write_hatch g s h) := by
  simp only [write_hatch_written]
  have h8 : group (hatch_records g h) 8
      = [⟨8, .str (if h.layer = "" then "0" else h.layer)⟩] := by
    simp [hatch_records, settled_layer, DXF_DEFAULT_LAYER, group_append, group_ite, group_cons,
      group_nil]
  refine ⟨rfl, h8, by rw [h8]; rfl, ?_⟩
  intro hmem
  have hg : (⟨8, .str ""⟩ : Record) ∈ group (hatch_records g h) 8 := by
    unfold group
    exact List.mem_filter.2 ⟨hmem, by decide⟩
  rw [h8] at hg
  by_cases hl : h.layer = ""
  · simp [hl] at hg
  · simp [hl] at hg
    exact hl hg.symm

/-- C38: for every input of `dxf_write_hatch`, the group codes written are, in
order, a subsequence of 0, 100, 2, 5, 6, 8, 10, 20, 30, 210, 220, 230, 39, 42,
47, 52, 62, 67, 70, 71, 75, 77, 78, 98, 91, and each of the codes 0, 100, 2, 8,
10, 20, 30, 210, 220, 230, 47, 70, 71, 75, 78, 98, 91 occurs exactly once. -/
theorem hatch_write_fixed_order (g : Global) (s : Streams) (h : DxfHatchHeader) :
    ((written s (dxf_write_hatch g s h)).map (fun r => r.code)).Sublist
        [0, 100, 2, 5, 6, 8, 10, 20, 30, 210, 220, 230, 39, 42, 47, 52, 62, 67, 70, 71, 75, 77,
          78, 98, 91]
      ∧ ∀ k ∈ [0, 100, 2, 8, 10, 20, 30, 210, 220, 230, 47, 70, 71, 75, 78, 98, 91],
          (group (written s (dxf_write_hatch g s h)) k).length = 1 := by
  rw [write_hatch_written g s h]
  refine ⟨?_, ?_⟩
  · have hc : ([0, 100, 2, 5, 6, 8, 10, 20, 30, 210, 220, 230, 39, 42, 47, 52, 62, 67, 70, 71,
        75, 77, 78, 98, 91] : List Nat)
        = [0] ++ [100] ++ [2] ++ [5] ++ [6] ++ [8] ++ [10] ++ [20] ++ [30] ++ [210] ++ [220]
          ++ [230] ++ [39] ++ [42] ++ [47] ++ [52] ++ [62] ++ [67] ++ [70] ++ [71] ++ [75]
          ++ [77] ++ [78] ++ [98] ++ [91] := rfl
    rw [hc]
    unfold hatch_records
    simp only [List.map_append]
    repeat' apply List.Sublist.append
    all_goals first
      | exact List.Sublist.refl _
      | (split_ifs
         · exact List.Sublist.refl _
         · exact List.nil_sublist _)
  · intro k hk
    simp only [List.mem_cons, List.mem_singleton, List.not_mem_nil, or_false] at hk
    rcases hk with rfl | rfl | rfl | rfl | rfl | rfl | rfl | rfl | rfl | rfl | rfl | rfl | rfl
      | rfl | rfl | rfl | rfl <;>
    simp [hatch_records, group_append, group_ite, group_cons, group_nil]

/-- C39: `dxf_write_hatch` does not use `pattern_style`: two inputs that differ
only in it give the same result, records and messages, and no output holds a
record of group 76. -/
theorem hatch_pattern_style_not_written (g : Global) (s : Streams) (h : DxfHatchHeader)
    (p : Int) :
    dxf_write_hatch g s { h with pattern_style := p } = dxf_write_hatch g s h
      ∧ written s (dxf_write_hatch g s { h with pattern_style := p })
          = written s (dxf_write_hatch g s h)
      ∧ has_group (written s (dxf_write_hatch g s h)) 76 = false := by
  have e : dxf_write_hatch g s { h with pattern_style := p } = dxf_write_hatch g s h := rfl
  refine ⟨e, by rw [e], ?_⟩
  rw [write_hatch_written g s h]
  simp [hatch_records, has_group_append, has_group_ite, has_group_cons, has_group_nil]

/-! ## Dash lengths and open polylines (C32, C37) -/

/-- The loop of `dxf_write_hatch_pattern_def_line_dashes` appends one record
of group 49 for each index. -/
theorem dashes_loop_eq (dash_length : List Double) (s : Streams) (n : Nat) :
    (List.range n).foldl (fun s i => s.fprintf 49 (.real (dash_length.getD i Double.zero))) s
      = s.add ((List.range n).map
          (fun i => (⟨49, .real (dash_length.getD i Double.zero)⟩ : Record))) := by
  induction n with
  | zero => simp [Streams.add]
  | succ n ih =>
    rw [List.range_succ, List.foldl_append, ih, List.map_append]
    simp [fprintf_eq_add, add_add]

/-- C32: for every `dash_items >= 0`, `dxf_write_hatch_pattern_def_line_dashes`
returns `EXIT_SUCCESS` and appends exactly `dash_items` records, all of group
49, carrying `dash_length[0]`, ..., `dash_length[dash_items - 1]` in this
order; with `dash_items` 0 it appends no record, and then, and only then, it
writes a warning to `stderr`. -/
theorem dashes_written (s : Streams) (dash_items : Int) (dash_length : List Double)
    (h : 0 ≤ dash_items) :
    (dxf_write_hatch_pattern_def_line_dashes s dash_items dash_length).status = EXIT_SUCCESS
      ∧ written s (dxf_write_hatch_pattern_def_line_dashes s dash_items dash_length)
          = (List.range dash_items.toNat).map
              (fun i => (⟨49, .real (dash_length.getD i Double.zero)⟩ : Record))
      ∧ ((written s (dxf_write_hatch_pattern_def_line_dashes s dash_items dash_length)).length
            : Int) = dash_items
      ∧ (dash_items = 0 →
          written s (dxf_write_hatch_pattern_def_line_dashes s dash_items dash_length) = [])
      ∧ reported s (dxf_write_hatch_pattern_def_line_dashes s dash_items dash_length)
          = if dash_items = 0 then
              ["Warning: no definition line dash items found in "
                ++ "dxf_write_hatch_pattern_def_line_dashes () function.\n"]
            else [] := by
  have hw : written s (dxf_write_hatch_pattern_def_line_dashes s dash_items dash_length)
      = (List.range dash_items.toNat).map
          (fun i => (⟨49, .real (dash_length.getD i Double.zero)⟩ : Record)) := by
    unfold dxf_write_hatch_pattern_def_line_dashes
    by_cases h0 : dash_items = 0
    · simp [h0, written, Streams.eprintf]
    · rw [if_pos h0, dashes_loop_eq]
      simp [written, Streams.add]
  refine ⟨?_, hw, ?_, ?_, ?_⟩
  · unfold dxf_write_hatch_pattern_def_line_dashes
    split_ifs <;> rfl
  · rw [hw]
    simp [Int.toNat_of_nonneg h]
  · intro h0
    rw [hw, h0]
    rfl
  · unfold dxf_write_hatch_pattern_def_line_dashes
    by_cases h0 : dash_items = 0
    · simp [h0, reported, Streams.eprintf]
    · rw [if_pos h0, dashes_loop_eq]
      simp [h0, reported, Streams.add]

/-- C32 at two dash lengths and at none: the records (49, 3.0) and (49, 1.0);
no record for the count 0. -/
theorem dashes_written_witness :
    (0 : Int) ≤ 2
      ∧ written emptyStreams
          (dxf_write_hatch_pattern_def_line_dashes emptyStreams 2 sampleDashLength)
        = [⟨49, .real (Double.ofInt 3)⟩, ⟨49, .real (Double.ofInt 1)⟩]
      ∧ written emptyStreams
          (dxf_write_hatch_pattern_def_line_dashes emptyStreams 0 sampleDashLength) = [] :=
  ⟨by decide,
   (dashes_written emptyStreams 2 sampleDashLength (by decide)).2.1.trans (by decide),
   (dashes_written emptyStreams 0 sampleDashLength (by decide)).2.2.2.1 rfl⟩

/-- C37: for every polyline path that is not closed, with `vertices >= 0`,
`dxf_write_hatch_boundary_path_polyline` returns `EXIT_SUCCESS` and appends
the records 72 `has_bulge`, 73 0, 93 `vertices`, and then for each index below
`vertices`, in order, 10 `x0[i]`, 20 `y0[i]` and, exactly when `has_bulge` is
not 0 and `bulge[i] != 0.0`, 42 `bulge[i]`; the number of group-10 records is
`vertices`. -/
theorem open_polyline_written (s : Streams) (has_bulge vertices : Int)
    (x0 y0 bulge : List Double) (hn : 0 ≤ vertices) :
    (dxf_write_hatch_boundary_path_polyline s has_bulge 0 vertices x0 y0 bulge).status
        = EXIT_SUCCESS
      ∧ written s
          (dxf_write_hatch_boundary_path_polyline s has_bulge 0 vertices x0 y0
            bulge).toWriteResult
        = [⟨72, .dec has_bulge⟩, ⟨73, .dec 0⟩, ⟨93, .dec vertices⟩]
          ++ ((List.range vertices.toNat).map (fun i =>
              [(⟨10, .real (x0.getD i Double.zero)⟩ : Record),
               ⟨20, .real (y0.getD i Double.zero)⟩]
              ++ (if has_bulge ≠ 0 ∧ (bulge.getD i Double.zero).ne Double.zero = true then
                    [⟨42, .real (bulge.getD i Double.zero)⟩]
                  else []))).flatten
      ∧ ((group (written s
          (dxf_write_hatch_boundary_path_polyline s has_bulge 0 vertices x0 y0
            bulge).toWriteResult) 10).length : Int) = vertices := by
  refine ⟨by rw [polyline_eq], ?_, ?_⟩
  · rw [polyline_written]
    unfold polyline_records
    have hf : polyline_pass_records has_bulge 0 x0 y0 bulge = (fun i =>
        [(⟨10, .real (x0.getD i Double.zero)⟩ : Record),
         ⟨20, .real (y0.getD i Double.zero)⟩]
        ++ (if has_bulge ≠ 0 ∧ (bulge.getD i Double.zero).ne Double.zero = true then
              [⟨42, .real (bulge.getD i Double.zero)⟩]
            else [])) := by
      funext i
      unfold polyline_pass_records vertex_records written_bulge
      by_cases hb : has_bulge = 0
      · simp [hb]
        decide
      · simp [hb]
    rw [hf]
    rfl
  · rw [polyline_vertex_count]
    simp [Int.toNat_of_nonneg hn]

/-- C37 at an open polyline of two vertices with the bulges 1 and 2: with
`has_bulge` 1 each vertex has its group 42, with `has_bulge` 0 none has. -/
theorem open_polyline_written_witness :
    (0 : Int) ≤ 2
      ∧ written emptyStreams
          (dxf_write_hatch_boundary_path_polyline emptyStreams 1 0 2 closedX0 closedY0
            sampleBulge).toWriteResult
        = [⟨72, .dec 1⟩, ⟨73, .dec 0⟩, ⟨93, .dec 2⟩,
           ⟨10, .real (Double.ofInt 1)⟩, ⟨20, .real (Double.ofInt 2)⟩,
           ⟨42, .real (Double.ofInt 1)⟩,
           ⟨10, .real (Double.ofInt 3)⟩, ⟨20, .real (Double.ofInt 4)⟩,
           ⟨42, .real (Double.ofInt 2)⟩]
      ∧ written emptyStreams
          (dxf_write_hatch_boundary_path_polyline emptyStreams 0 0 2 closedX0 closedY0
            sampleBulge).toWriteResult
        = [⟨72, .dec 0⟩, ⟨73, .dec 0⟩, ⟨93, .dec 2⟩,
           ⟨10, .real (Double.ofInt 1)⟩, ⟨20, .real (Double.ofInt 2)⟩,
           ⟨10, .real (Double.ofInt 3)⟩, ⟨20, .real (Double.ofInt 4)⟩] :=
  ⟨by decide,
   (open_polyline_written emptyStreams 1 2 closedX0 closedY0 sampleBulge (by decide)).2.1.trans
     (by decide),
   (open_polyline_written emptyStreams 0 2 closedX0 closedY0 sampleBulge (by decide)).2.1.trans
     (by decide)⟩

/-! ## The acceptance condition of the arc writers (C33, C34) -/

/-- For a double that is a number or an infinity, "not greater than 360" is
"at most 360". -/
theorem not_gt_iff_le (x : Double) (k : Int) (hx : x ≠ Double.nan) :
    x.gt (Double.ofInt k) = false ↔ Double.le x (Double.ofInt k) = true := by
  cases x with
  | nan => exact absurd rfl hx
  | inf n => cases n <;> simp [Double.gt, Double.lt, Double.le, Double.ofInt]
  | fin q => simp [Double.gt, Double.lt, Double.le, Double.ofInt]

/-- For a double that is a number or an infinity, "not less than 0" is "at
least 0". -/
theorem not_lt_iff_le (x : Double) (k : Int) (hx : x ≠ Double.nan) :
    x.lt (Double.ofInt k) = false ↔ Double.le (Double.ofInt k) x = true := by
  cases x with
  | nan => exact absurd rfl hx
  | inf n => cases n <;> simp [Double.lt, Double.le, Double.ofInt]
  | fin q => simp [Double.lt, Double.le, Double.ofInt]

/-- The six tests of the arc writers, as a condition on the two angles and the
radius. -/
theorem arc_checks_pass_iff_ne (sa ea r : Double) :
    arc_checks_pass sa ea r = true ↔
      sa.ne ea = true ∧ sa.gt (Double.ofInt 360) = false ∧ sa.lt Double.zero = false
        ∧ ea.gt (Double.ofInt 360) = false ∧ ea.lt Double.zero = false
        ∧ r.ne Double.zero = true := by
  rw [arc_checks_pass_iff]
  simp [Double.ne]

/-- C33, counterexample: both arc writers accept the sample arc with a start
angle that is not a number, although neither `0 <= start_angle` nor
`start_angle <= 360` holds for it. -/
theorem arc_write_accepts_nan_angle :
    (dxf_arc_write sampleGlobal emptyStreams arcNanStart).status = EXIT_SUCCESS
      ∧ (dxf_arc_write_lowlevel_of sampleGlobal emptyStreams arcNanStart).status = EXIT_SUCCESS
      ∧ Double.le Double.zero arcNanStart.start_angle = false
      ∧ Double.le arcNanStart.start_angle (Double.ofInt 360) = false := by
  decide

/-- C33, amended: `dxf_arc_write` and `dxf_arc_write_lowlevel` return
`EXIT_SUCCESS` exactly when `start_angle != end_angle`, neither angle is
greater than 360 or less than 0, and `radius != 0`; otherwise they return
`EXIT_FAILURE`.  The status is the same for any two calls with the same two
angles and radius.  When neither angle is a not-a-number, the condition on an
angle is `0 <= angle <= 360`. -/
theorem arc_write_acceptance (g : Global) (s : Streams) (a : DxfArc) :
    ((dxf_arc_write g s a).status = EXIT_SUCCESS
        ↔ a.start_angle.ne a.end_angle = true
          ∧ a.start_angle.gt (Double.ofInt 360) = false ∧ a.start_angle.lt Double.zero = false
          ∧ a.end_angle.gt (Double.ofInt 360) = false ∧ a.end_angle.lt Double.zero = false
          ∧ a.radius.ne Double.zero = true)
      ∧ (dxf_arc_write_lowlevel_of g s a).status = (dxf_arc_write g s a).status
      ∧ ((dxf_arc_write g s a).status = EXIT_SUCCESS
          ∨ (dxf_arc_write g s a).status = EXIT_FAILURE)
      ∧ (∀ (g1 : Global) (s1 : Streams) (a1 : DxfArc),
          a1.start_angle = a.start_angle → a1.end_angle = a.end_angle → a1.radius = a.radius →
          (dxf_arc_write g1 s1 a1).status = (dxf_arc_write g s a).status)
      ∧ (a.start_angle ≠ Double.nan → a.end_angle ≠ Double.nan →
          ((dxf_arc_write g s a).status = EXIT_SUCCESS
            ↔ a.start_angle.ne a.end_angle = true
              ∧ Double.le Double.zero a.start_angle = true
              ∧ Double.le a.start_angle (Double.ofInt 360) = true
              ∧ Double.le Double.zero a.end_angle = true
              ∧ Double.le a.end_angle (Double.ofInt 360) = true
              ∧ a.radius.ne Double.zero = true)) := by
  refine ⟨?_, ?_, ?_, ?_, ?_⟩
  · rw [arc_write_success_iff, arc_checks_pass_iff_ne]
  · rw [arc_write_lowlevel_status, arc_write_status]
  · rw [arc_write_status]
    split_ifs
    · exact Or.inl rfl
    · exact Or.inr rfl
  · intro g1 s1 a1 h1 h2 h3
    rw [arc_write_status, arc_write_status, h1, h2, h3]
  · intro hs he
    rw [arc_write_success_iff, arc_checks_pass_iff_ne]
    have z : Double.zero = Double.ofInt 0 := by
      unfold Double.zero Double.ofInt
      simp
    rw [z, not_gt_iff_le _ _ hs, not_gt_iff_le _ _ he, not_lt_iff_le _ _ hs,
      not_lt_iff_le _ _ he]
    tauto

/-- C33 at the sample arc, a quarter arc of radius 1: neither angle is a
not-a-number, the angles are 0 and 90, and both writers return
`EXIT_SUCCESS`. -/
theorem arc_write_acceptance_witness :
    sampleArc.start_angle ≠ Double.nan ∧ sampleArc.end_angle ≠ Double.nan
      ∧ (dxf_arc_write sampleGlobal emptyStreams sampleArc).status = EXIT_SUCCESS
      ∧ (dxf_arc_write_lowlevel_of sampleGlobal emptyStreams sampleArc).status = EXIT_SUCCESS :=
  ⟨by decide, by decide,
   ((arc_write_acceptance sampleGlobal emptyStreams sampleArc).2.2.2.2 (by decide)
      (by decide)).2 (by decide),
   (arc_write_acceptance sampleGlobal emptyStreams sampleArc).2.1.trans (by decide)⟩

/-- An arc writer that fails appends no record. -/
theorem arc_write_written_of_fail (g : Global) (s : Streams) (a : DxfArc)
    (h : arc_checks_pass a.start_angle a.end_angle a.radius = false) :
    written s (dxf_arc_write g s a) = []
      ∧ written s (dxf_arc_write_lowlevel_of g s a) = [] := by
  obtain ⟨e1, e2⟩ := arc_write_fp_of_fail g s a h
  unfold written
  rw [e1, e2]
  simp

/-- C34: for every arc, `dxf_arc_write` and `dxf_arc_write_lowlevel` called
with the members of the arc return the same status, and they append the same
records exactly when the arc is rejected or
`acad_version_number < AutoCAD_14`.  For an accepted arc at or above
`AutoCAD_14`, `dxf_arc_write` appends one group-100 record, "AcDbArc", and
`dxf_arc_write_lowlevel` two, "AcDbCircle" and "AcDbArc", the second one
between the groups 40 and 50. -/
theorem arc_write_entry_points (g : Global) (s : Streams) (a : DxfArc) :
    (dxf_arc_write g s a).status = (dxf_arc_write_lowlevel_of g s a).status
      ∧ (written s (dxf_arc_write g s a) = written s (dxf_arc_write_lowlevel_of g s a)
          ↔ (dxf_arc_write g s a).status = EXIT_FAILURE
            ∨ a.common.acad_version_number < g.AutoCAD_14)
      ∧ ((dxf_arc_write g s a).status = EXIT_SUCCESS →
          a.common.acad_version_number ≥ g.AutoCAD_14 →
          group (written s (dxf_arc_write g s a)) 100 = [⟨100, .str "AcDbArc"⟩]
            ∧ group (written s (dxf_arc_write_lowlevel_of g s a)) 100
                = [⟨100, .str "AcDbCircle"⟩, ⟨100, .str "AcDbArc"⟩]
            ∧ ∃ pre post, written s (dxf_arc_write_lowlevel_of g s a)
                = pre ++ [⟨40, .real a.radius⟩, ⟨100, .str "AcDbArc"⟩,
                    ⟨50, .real a.start_angle⟩] ++ post) := by
  have hg : a.common.acad_version_number ≥ g.AutoCAD_14 →
      group (arc_records g a) 100 = [⟨100, .str "AcDbArc"⟩]
        ∧ group (arc_lowlevel_records g a) 100
            = [⟨100, .str "AcDbCircle"⟩, ⟨100, .str "AcDbArc"⟩] := by
    intro h14
    constructor
    · simp [arc_records, group_append, group_ite, group_cons, group_nil, h14]
    · simp [arc_lowlevel_records, group_append, group_ite, group_cons, group_nil, h14]
  refine ⟨?_, ?_, ?_⟩
  · rw [arc_write_lowlevel_status, arc_write_status]
  · by_cases hv : arc_checks_pass a.start_angle a.end_angle a.radius = true
    · rw [arc_write_written g s a hv, arc_write_lowlevel_written g s a hv, arc_write_failure_iff]
      constructor
      · intro he
        right
        by_contra hc
        obtain ⟨g1, g2⟩ := hg (not_lt.1 hc)
        rw [he, g2] at g1
        simp at g1
      · rintro (hf | hlt)
        · rw [hv] at hf
          exact absurd hf (by decide)
        · simp [arc_records, arc_lowlevel_records, not_le.2 hlt]
    · have hf : arc_checks_pass a.start_angle a.end_angle a.radius = false := by
        simpa using hv
      obtain ⟨e1, e2⟩ := arc_write_written_of_fail g s a hf
      rw [e1, e2, arc_write_failure_iff]
      exact ⟨fun _ => Or.inl hf, fun _ => rfl⟩
  · intro hs h14
    have hv := (arc_write_success_iff g s a).1 hs
    rw [arc_write_written g s a hv, arc_write_lowlevel_written g s a hv]
    refine ⟨(hg h14).1, (hg h14).2, ?_⟩
    refine ⟨[⟨0, .str "ARC"⟩, ⟨100, .str "AcDbCircle"⟩]
        ++ (if a.common.id_code ≠ -1 then [⟨5, .hex a.common.id_code⟩] else [])
        ++ (if a.common.linetype ≠ DXF_DEFAULT_LINETYPE then [⟨6, .str a.common.linetype⟩]
            else [])
        ++ [⟨8, .str (settled_layer a.common.layer)⟩, ⟨10, .real a.x0⟩, ⟨20, .real a.y0⟩,
            ⟨30, .real a.z0⟩]
        ++ (if a.common.acad_version_number ≥ g.AutoCAD_12 then
              [⟨210, .real a.extr_x0⟩, ⟨220, .real a.extr_y0⟩, ⟨230, .real a.extr_z0⟩]
            else [])
        ++ (if a.common.thickness.ne Double.zero then [⟨39, .real a.common.thickness⟩]
            else []),
      [⟨51, .real a.end_angle⟩]
        ++ (if a.common.color ≠ g.DXF_COLOR_BYLAYER then [⟨62, .dec a.common.color⟩] else [])
        ++ (if a.common.paperspace = g.DXF_PAPERSPACE then [⟨67, .dec g.DXF_PAPERSPACE⟩]
            else []), ?_⟩
    simp [arc_lowlevel_records, h14]

/-- C34 at the sample arc, written for version 0 and for version 14: the same
records below `AutoCAD_14`, and at version 14 the two markers of
`dxf_arc_write_lowlevel`. -/
theorem arc_write_entry_points_witness :
    written emptyStreams (dxf_arc_write sampleGlobal emptyStreams sampleArc)
        = written emptyStreams (dxf_arc_write_lowlevel_of sampleGlobal emptyStreams sampleArc)
      ∧ group (written emptyStreams
          (dxf_arc_write_lowlevel_of sampleGlobal emptyStreams sampleArcR14)) 100
        = [⟨100, .str "AcDbCircle"⟩, ⟨100, .str "AcDbArc"⟩] :=
  ⟨(arc_write_entry_points sampleGlobal emptyStreams sampleArc).2.1.2 (Or.inr (by decide)),
   ((arc_write_entry_points sampleGlobal emptyStreams sampleArcR14).2.2 (by decide)
      (by decide)).2.1⟩

/-! ## The failure condition of the boundary paths (C36) -/

/-- C36: `dxf_write_hatch_boundaries` returns `EXIT_FAILURE` exactly when
`hatch_boundary_paths >= 1` and either the type flag is neither 0 nor 2, or the
type flag is 0 and `hatch_boundary_path_edges >= 1`, whatever the edge type;
otherwise it returns `EXIT_SUCCESS`, and when it returns `EXIT_FAILURE` it has
appended no record. -/
theorem boundaries_failure_iff (s : Streams) (b : DxfHatchBoundaries) :
    ((dxf_write_hatch_boundaries s b).status = EXIT_FAILURE
        ↔ 1 ≤ b.hatch_boundary_paths
          ∧ ((b.hatch_boundary_path_type_flag ≠ 0 ∧ b.hatch_boundary_path_type_flag ≠ 2)
            ∨ (b.hatch_boundary_path_type_flag = 0 ∧ 1 ≤ b.hatch_boundary_path_edges)))
      ∧ ((dxf_write_hatch_boundaries s b).status = EXIT_FAILURE
          ∨ (dxf_write_hatch_boundaries s b).status = EXIT_SUCCESS)
      ∧ ((dxf_write_hatch_boundaries s b).status = EXIT_FAILURE
          → written s (dxf_write_hatch_boundaries s b).toWriteResult = []) := by
  have hne : EXIT_SUCCESS ≠ EXIT_FAILURE := by decide
  by_cases hp : 0 < b.hatch_boundary_paths
  · by_cases h0 : b.hatch_boundary_path_type_flag = 0
    · by_cases he : 0 < b.hatch_boundary_path_edges
      · obtain ⟨e1, e2⟩ := boundaries_edges_fail s b hp h0 he
        exact ⟨⟨fun _ => ⟨hp, Or.inr ⟨h0, he⟩⟩, fun _ => e1⟩, Or.inl e1, fun _ => e2⟩
      · have e : (dxf_write_hatch_boundaries s b).status = EXIT_SUCCESS := by
          unfold dxf_write_hatch_boundaries
          rw [boundaries_loop_no_edges b _ s _ _ _ h0 he]
        rw [e]
        refine ⟨⟨fun h => absurd h hne, ?_⟩, Or.inr rfl, fun h => absurd h hne⟩
        rintro ⟨_, ⟨h, _⟩ | ⟨_, h⟩⟩
        · exact absurd h0 h
        · exact absurd h he
    · by_cases h2 : b.hatch_boundary_path_type_flag = 2
      · have e : (dxf_write_hatch_boundaries s b).status = EXIT_SUCCESS := by
          unfold dxf_write_hatch_boundaries
          rw [boundaries_loop_polyline b _ s _ _ _ h2]
        rw [e]
        refine ⟨⟨fun h => absurd h hne, ?_⟩, Or.inr rfl, fun h => absurd h hne⟩
        rintro ⟨_, ⟨_, h⟩ | ⟨h, _⟩⟩
        · exact absurd h2 h
        · exact absurd h h0
      · obtain ⟨e1, e2⟩ := boundaries_other_flag_fail s b hp h0 h2
        exact ⟨⟨fun _ => ⟨hp, Or.inl ⟨h0, h2⟩⟩, fun _ => e1⟩, Or.inl e1, fun _ => e2⟩
  · have hz : b.hatch_boundary_paths.toNat = 0 := by
      apply Int.toNat_eq_zero.2
      omega
    have e : (dxf_write_hatch_boundaries s b).status = EXIT_SUCCESS := by
      unfold dxf_write_hatch_boundaries
      rw [hz]
      rfl
    rw [e]
    refine ⟨⟨fun h => absurd h hne, ?_⟩, Or.inr rfl, fun h => absurd h hne⟩
    rintro ⟨h, _⟩
    exact absurd h hp

/-! ## The two class writers (C35) -/

/-- C35: for every class entry and every state of the streams,
`dxf_class_write` gives the result, exit status and streams, of
`dxf_class_write_lowlevel` called with the members of the entry other than
`record_type`. -/
theorem class_write_eq_lowlevel (s : Streams) (c : DxfClass) :
    dxf_class_write s c
        = dxf_class_write_lowlevel s c.record_name c.class_name c.app_name c.proxy_cap_flag
            c.was_a_proxy_flag c.is_an_entity_flag
      ∧ (dxf_class_write s c).status
          = (dxf_class_write_lowlevel s c.record_name c.class_name c.app_name c.proxy_cap_flag
              c.was_a_proxy_flag c.is_an_entity_flag).status
      ∧ written s (dxf_class_write s c)
          = written s (dxf_class_write_lowlevel s c.record_name c.class_name c.app_name
              c.proxy_cap_flag c.was_a_proxy_flag c.is_an_entity_flag) :=
  ⟨rfl, rfl, rfl⟩

end Dxf
